import Mathlib

/-!
# Screen-space post-processing compositor

A shallow embedding of `code/graphics/opengl/gropenglpostprocessing.cpp`.

* File-level globals of the source are the fields of `PostState`.
* Values the source obtains from collaborators that live in other files (the shader
  cache, the scene surfaces, the timer, the light list, ...) are the fields of `Env`.
* Calls issued to the graphics device are appended, in program order, to `PostState.calls`.
* The C `float` type is a type parameter `F` carrying the operations of `FloatOps`; no law
  is assumed about them, so every theorem holds for IEEE binary32 (NaN included) as well as
  for exact arithmetic.
-/

namespace PostProcessing

set_option linter.unusedSectionVars false

/-! ## Numbers and strings -/

/-- Three floats (`vec3d`). -/
structure vec3d (F : Type) where
  x : F
  y : F
  z : F

/-- The operations on C `float` values that the source uses.
`lit m e` is the literal `m * 10^(-e)` (so `lit 7 1` is `0.7f` and `lit 1000 1` is
`100.0f`), `ofInt` the `int -> float` conversion, `ne` is `!=`, `gt` is `>`, `pow x i` is
`pow(x, i)` and `vec_same` is `operator==` on `vec3d`. `add_mul_pow acc w f i` is the
`float` that the statement `acc += w * pow(f, i)` leaves in `acc`: `pow` returns a `double`,
so the power, the product and the sum are formed in `double` and only the sum is narrowed to
`float`. -/
class FloatOps (F : Type) where
  lit : Int → Nat → F
  ofInt : Int → F
  add : F → F → F
  mul : F → F → F
  div : F → F → F
  pow : F → Int → F
  add_mul_pow : F → F → F → Int → F
  ne : F → F → Bool
  gt : F → F → Bool
  vec_same : vec3d F → vec3d F → Bool

/-- The constant `vmd_zero_vector`. -/
def vmd_zero_vector {F : Type} [FloatOps F] : vec3d F :=
  ⟨FloatOps.lit 0 1, FloatOps.lit 0 1, FloatOps.lit 0 1⟩

/-- The C library comparison `stricmp` on the characters of two strings: the difference of
the first pair of characters that differ after lowering, `0` when there is none. -/
def stricmp_chars : List Char → List Char → Int
  | [], [] => 0
  | [], c :: _ => 0 - (c.toLower.toNat : Int)
  | c :: _, [] => (c.toLower.toNat : Int)
  | a :: as, b :: bs =>
    if a.toLower = b.toLower then stricmp_chars as bs
    else (a.toLower.toNat : Int) - (b.toLower.toNat : Int)

/-- Case-insensitive string comparison, `stricmp(a, b)`. -/
def stricmp (a b : String) : Int := stricmp_chars a.toList b.toList

/-- The `int` value of `1 << idx`, as a 32-bit pattern. -/
def shl1 (idx : Nat) : Nat := (1 <<< idx) % 2 ^ 32

/-! ## Data model -/

/-- The uniform a post effect feeds (`enum class PostEffectUniformType`). -/
inductive PostEffectUniformType
  | Invalid
  | NoiseAmount
  | Saturation
  | Brightness
  | Contrast
  | FilmGrain
  | TvStripes
  | Cutoff
  | Tint
  | Dither
  deriving DecidableEq, Repr

/-- One entry of the effect registry (`struct post_effect_t`). -/
structure post_effect_t (F : Type) where
  name : String
  uniform_type : PostEffectUniformType
  define_name : String
  intensity : F
  default_intensity : F
  div : F
  add : F
  rgb : vec3d F
  always_on : Bool

/-- The antialiasing modes (`enum class AntiAliasMode`). -/
inductive AntiAliasMode
  | None
  | FXAA_Low
  | FXAA_Medium
  | FXAA_High
  | SMAA_Low
  | SMAA_Medium
  | SMAA_High
  | SMAA_Ultra
  deriving DecidableEq, Repr

/-- Modelled from the spec: `gr_is_fxaa_mode` is declared outside this file; the spec lists
the FXAA modes as FXAA-Low/Medium/High. -/
def gr_is_fxaa_mode : AntiAliasMode → Bool
  | .FXAA_Low => true
  | .FXAA_Medium => true
  | .FXAA_High => true
  | _ => false

/-- Modelled from the spec: `gr_is_smaa_mode` is declared outside this file; the spec lists
the SMAA modes as SMAA-Low/Medium/High/Ultra. -/
def gr_is_smaa_mode : AntiAliasMode → Bool
  | .SMAA_Low => true
  | .SMAA_Medium => true
  | .SMAA_High => true
  | .SMAA_Ultra => true
  | _ => false

/-- The shader kinds this file requests (`enum shader_type`). -/
inductive shader_type
  | SDR_TYPE_POST_PROCESS_MAIN
  | SDR_TYPE_POST_PROCESS_BLUR
  | SDR_TYPE_POST_PROCESS_BLOOM_COMP
  | SDR_TYPE_POST_PROCESS_BRIGHTPASS
  | SDR_TYPE_POST_PROCESS_FXAA
  | SDR_TYPE_POST_PROCESS_FXAA_PREPASS
  | SDR_TYPE_POST_PROCESS_LIGHTSHAFTS
  | SDR_TYPE_POST_PROCESS_TONEMAPPING
  | SDR_TYPE_POST_PROCESS_SMAA_EDGE
  | SDR_TYPE_POST_PROCESS_SMAA_BLENDING_WEIGHT
  | SDR_TYPE_POST_PROCESS_SMAA_NEIGHBORHOOD_BLENDING
  deriving DecidableEq, Repr

/-- The blend modes passed to `GL_state.SetAlphaBlendMode` in this file. -/
inductive gr_alpha_blend
  | ALPHA_BLEND_NONE
  | ALPHA_BLEND_ADDITIVE
  deriving DecidableEq, Repr

/-- The parameter block of the final composite pass (`graphics::generic_data::post_data`). -/
structure post_data (F : Type) where
  timer : F
  noise_amount : F
  saturation : F
  brightness : F
  contrast : F
  film_grain : F
  tv_stripes : F
  cutoff : F
  tint : vec3d F
  dither : F

/-- The parameter blocks handed to `opengl_set_generic_uniform_data`, one constructor per
block type, carrying the fields the setter writes. -/
inductive uniform_data (F : Type)
  | tonemapping (exposure : F)
  | blur (texSize : F) (level : Int)
  | bloom_composition (levels : Int) (bloom_intensity : F)
  | fxaa (rt_w rt_h : F)
  | smaa (rt_metrics_x rt_metrics_y : F)
  | lightshaft (sun_x sun_y density falloff weight intensity cp_intensity : F)
  | post (data : post_data F)

/-- A call issued to the graphics device or to the shader manager, in source spelling.
`glFramebufferTexture2D tex level` attaches to `GL_COLOR_ATTACHMENT0`; `glClear color depth`
tells which of the two buffer bits are set; `Texture_Enable_target tex` is
`GL_state.Texture.Enable(tex)` on the active unit and target; the texture calls all address
`GL_TEXTURE_2D` at level 0. -/
inductive GLCall (F : Type)
  | PushFramebufferState
  | PopFramebufferState
  | BindFrameBuffer (id : Nat)
  | glDrawBuffer
  | glClearColor
  | glClear (color depth : Bool)
  | glClearBufferfv
  | glViewport (w h : Int)
  | glFramebufferTexture2D (tex : Nat) (level : Int)
  | glGenerateMipmap
  | ColorMask
  | maybe_create_shader (t : shader_type) (flags : Nat)
  | delete_shader (handle : Int)
  | shader_set_current (handle : Option Int)
  | shader_set_passthrough
  | setTextureUniform (name : String) (texunit : Nat)
  | Texture_Enable (texunit : Nat) (tex : Nat)
  | set_generic_uniform_data (data : uniform_data F)
  | draw_full_screen_textured (x1 y1 x2 y2 : F)
  | draw_textured_quad (x1 y1 u1 v1 x2 y2 u2 v2 : F)
  | glGenFramebuffers (n : Nat)
  | glGenTextures (n : Nat)
  | glDeleteFramebuffers (id : Nat)
  | glDeleteTextures (tex : Nat)
  | Texture_SetActiveUnit (texunit : Nat)
  | Texture_SetTarget
  | Texture_Enable_target (tex : Nat)
  | set_object_label (id : Nat) (label : String)
  | glTexImage2D (internalformat : String) (width height : Int)
  | glTexStorage2D (internalformat : String) (width height : Int)
  | glTexSubImage2D (width height : Int) (format : String)
  | glTexParameteri (pname : String) (param : Int ⊕ String)

/-- Messages written to the debug log. -/
inductive LogMsg
  | max_effects_warning
  | unknown_uniform_name (name : String)
  | unable_to_parse_table
  | recompiling_aa_shaders
  | unable_to_read_table
  | unable_to_initialize_shaders
  | unable_to_initialize_framebuffer
  deriving DecidableEq, Repr

/-- The part of the cached device state (`GL_state`) this file reads or writes. -/
structure opengl_state where
  depth_test : Bool
  depth_mask : Bool
  blend : Bool
  cull_face : Bool
  scissor_test : Bool
  shader_mode : Bool
  alpha_blend_mode : gr_alpha_blend
  current_framebuffer : Nat
  framebuffer_stack : List Nat
  framebuffer_stack_underflow : Bool
  deriving DecidableEq, Repr

/-- A built-in or table-defined per-ship effect (`ship_effect`). -/
structure ship_effect where
  name : String
  shader_effect : Int
  disables_rendering : Bool
  invert_timer : Bool
  deriving DecidableEq, Repr

/-- The mutable globals the file reads or writes. -/
structure PostState (F : Type) where
  fxaa_unavailable : Bool
  zbuffer_saved : Bool
  ls_on : Bool
  ls_force_off : Bool
  ls_density : F
  ls_weight : F
  ls_falloff : F
  ls_intensity : F
  ls_cpintensity : F
  ls_samplenum : Int
  Post_effects : List (post_effect_t F)
  Post_initialized : Bool
  Post_in_frame : Bool
  Post_active_shader_index : Int
  Bloom_framebuffer : Nat
  Bloom_textures : Nat × Nat
  Post_framebuffer_id : Nat × Nat
  Post_texture_width : Int
  Post_texture_height : Int
  Smaa_edge_detection_fb : Nat
  Smaa_edges_tex : Nat
  Smaa_blending_weight_fb : Nat
  Smaa_blend_tex : Nat
  Smaa_neighborhood_blending_fb : Nat
  Smaa_output_tex : Nat
  Smaa_search_tex : Nat
  Smaa_area_tex : Nat
  PostProcessing_override : Bool
  Gr_aa_mode : AntiAliasMode
  Gr_aa_mode_last_frame : AntiAliasMode
  Gr_post_processing_enabled : Bool
  GL_rendering_to_texture : Bool
  Game_subspace_effect : Bool
  Cmdline_bloom_intensity : Int
  Ship_effects : List ship_effect
  GL_state : opengl_state
  calls : List (GLCall F)
  log : List LogMsg

/-- One global light as `opengl_post_lightshafts` sees it: the answer of
`stars_sun_has_glare`, the dot product of its direction with the view forward axis, and the
arcsines of the dot products with the right and up axes. -/
structure global_light (F : Type) where
  has_glare : Bool
  dot_fvec : F
  asin_dot_rvec : F
  asin_dot_uvec : F

/-- Values supplied by collaborators outside this file, constant during a call.
`texture_name k` and `framebuffer_name k` are the `k`-th name the driver hands out through
`glGenTextures` and `glGenFramebuffers`; `opengl_check_for_errors` is the answer of
`opengl_check_for_errors("post_init_framebuffer()")`. -/
structure Env (F : Type) where
  maybe_create_shader : shader_type → Nat → Int
  shader_flags : Int → Nat
  SDR_FLAG_BLUR_HORIZONTAL : Nat
  SDR_FLAG_BLUR_VERTICAL : Nat
  Scene_color_texture : Nat
  Scene_ldr_texture : Nat
  Scene_luminance_texture : Nat
  Scene_depth_texture : Nat
  Cockpit_depth_texture : Nat
  Scene_texture_u_scale : F
  Scene_texture_v_scale : F
  max_w : Int
  max_h : Int
  clip_aspect : F
  Sun_spot : F
  PI : F
  timer_milliseconds : Int
  lights : List (global_light F)
  post_data_buffer : post_data F
  GLSL_version : Int
  GL_max_renderbuffer_size : Int
  Scene_texture_initialized : Bool
  Cmdline_no_fbo : Bool
  GLAD_GL_ARB_texture_storage : Bool
  AREATEX_WIDTH : Int
  AREATEX_HEIGHT : Int
  SEARCHTEX_WIDTH : Int
  SEARCHTEX_HEIGHT : Int
  texture_name : Nat → Nat
  framebuffer_name : Nat → Nat
  opengl_check_for_errors : Bool

variable {F : Type} [FloatOps F]

/-- Append one call to the call record. -/
def PostState.call (s : PostState F) (c : GLCall F) : PostState F :=
  { s with calls := s.calls ++ [c] }

/-- Element `i` of `Bloom_textures[2]`. -/
def PostState.Bloom_texture (s : PostState F) (i : Nat) : Nat :=
  if i = 0 then s.Bloom_textures.1 else s.Bloom_textures.2

/-- The shader manager entry point `gr_opengl_maybe_create_shader(shader_t, flags)`: the
request is recorded and the handle the cache answers with is returned. -/
def gr_opengl_maybe_create_shader (env : Env F) (t : shader_type) (flags : Nat)
    (s : PostState F) : Int × PostState F :=
  (env.maybe_create_shader t flags, s.call (.maybe_create_shader t flags))

/-! ## Effect registry control (lines 705-761) -/

/-- The lookup loop of `gr_opengl_post_process_set_effect` (lines 725-735): the first effect
whose name matches gets its intensity, and possibly its colour, overwritten; then `break`. -/
def set_effect_lookup (name : String) (value : Int) (rgb : Option (vec3d F)) :
    List (post_effect_t F) → List (post_effect_t F)
  | [] => []
  | e :: es =>
    if stricmp e.name name = 0 then
      { e with
        intensity := FloatOps.add (FloatOps.div (FloatOps.ofInt value) e.div) e.add
        rgb := match rgb with
          | some v => if !(FloatOps.vec_same vmd_zero_vector v) then v else e.rgb
          | none => e.rgb } :: es
    else e :: set_effect_lookup name value rgb es

/-- The loop "figure out new flags" of `gr_opengl_post_process_set_effect` (lines 738-742),
started at index `idx` with the flags accumulated so far. -/
def set_effect_flags (idx : Nat) (sflags : Nat) : List (post_effect_t F) → Nat
  | [] => sflags
  | e :: es =>
    set_effect_flags (idx + 1)
      (if e.always_on || FloatOps.ne e.intensity e.default_intensity then sflags ||| shl1 idx
       else sflags) es

/-- The function `gr_opengl_post_process_set_effect(name, value, rgb)`; a null `name` or `rgb`
is `none`. -/
def gr_opengl_post_process_set_effect (env : Env F) (name : Option String) (value : Int)
    (rgb : Option (vec3d F)) (s : PostState F) : PostState F :=
  if !s.Post_initialized then s
  else
    match name with
    | none => s
    | some name =>
      if stricmp "lightshafts" name = 0 then
        { s with
          ls_intensity := FloatOps.div (FloatOps.ofInt value) (FloatOps.lit 1000 1)
          ls_on := decide (value ≠ 0) }
      else
        let s1 := { s with Post_effects := set_effect_lookup name value rgb s.Post_effects }
        let sflags := set_effect_flags 0 0 s1.Post_effects
        let r := gr_opengl_maybe_create_shader env .SDR_TYPE_POST_PROCESS_MAIN sflags s1
        { r.2 with Post_active_shader_index := r.1 }

/-- The function `gr_opengl_post_process_set_defaults()`. -/
def gr_opengl_post_process_set_defaults (s : PostState F) : PostState F :=
  if !s.Post_initialized then s
  else
    { s with
      Post_effects := s.Post_effects.map (fun e => { e with intensity := e.default_intensity })
      Post_active_shader_index := -1 }

/-- The loop of `gr_opengl_post_process_end` that collects the always-on flags
(lines 560-565), started at index `i` with the flags accumulated so far. -/
def always_on_flags (i : Nat) (flags : Nat) : List (post_effect_t F) → Nat
  | [] => flags
  | e :: es => always_on_flags (i + 1) (if e.always_on then flags ||| shl1 i else flags) es

/-! ## Device state helpers -/

/-- Append one message to the debug log (`mprintf`, `error_display(0, ...)`). -/
def PostState.logmsg (s : PostState F) (m : LogMsg) : PostState F :=
  { s with log := s.log ++ [m] }

/-- Modelled from the spec: `GL_state.DepthTest(v)` is defined outside this file; it sets the
depth-test toggle and returns the value it had, which the caller keeps to restore it. -/
def GL_state_DepthTest (v : Bool) (s : PostState F) : Bool × PostState F :=
  (s.GL_state.depth_test, { s with GL_state := { s.GL_state with depth_test := v } })

/-- Modelled from the spec: `GL_state.DepthMask(v)` is defined outside this file; it sets the
depth-mask toggle and returns the value it had. -/
def GL_state_DepthMask (v : Bool) (s : PostState F) : Bool × PostState F :=
  (s.GL_state.depth_mask, { s with GL_state := { s.GL_state with depth_mask := v } })

/-- Modelled from the spec: `GL_state.Blend(v)` is defined outside this file; it sets the
blend toggle and returns the value it had. -/
def GL_state_Blend (v : Bool) (s : PostState F) : Bool × PostState F :=
  (s.GL_state.blend, { s with GL_state := { s.GL_state with blend := v } })

/-- Modelled from the spec: `GL_state.CullFace(v)` is defined outside this file; it sets the
cull-face toggle and returns the value it had. -/
def GL_state_CullFace (v : Bool) (s : PostState F) : Bool × PostState F :=
  (s.GL_state.cull_face, { s with GL_state := { s.GL_state with cull_face := v } })

/-- Modelled from the spec: `GL_state.ScissorTest(v)` is defined outside this file; it sets
the scissor-test toggle and returns the value it had. -/
def GL_state_ScissorTest (v : Bool) (s : PostState F) : Bool × PostState F :=
  (s.GL_state.scissor_test, { s with GL_state := { s.GL_state with scissor_test := v } })

/-- Modelled from the spec: `GL_state.Texture.SetShaderMode(v)` is defined outside this file;
it sets the texture-shading-mode toggle. -/
def GL_state_Texture_SetShaderMode (v : Bool) (s : PostState F) : PostState F :=
  { s with GL_state := { s.GL_state with shader_mode := v } }

/-- Modelled from the spec: `GL_state.SetAlphaBlendMode(mode)` is defined outside this file;
it selects the blend function and leaves blending enabled exactly for a mode other than
"none". -/
def GL_state_SetAlphaBlendMode (mode : gr_alpha_blend) (s : PostState F) : PostState F :=
  { s with GL_state := { s.GL_state with
      alpha_blend_mode := mode
      blend := decide (mode ≠ .ALPHA_BLEND_NONE) } }

/-- Modelled from the spec: `GL_state.BindFrameBuffer(id)` is defined outside this file; it
makes `id` the current framebuffer binding. -/
def GL_state_BindFrameBuffer (id : Nat) (s : PostState F) : PostState F :=
  { s with GL_state := { s.GL_state with current_framebuffer := id } }.call (.BindFrameBuffer id)

/-- Modelled from the spec: `GL_state.PushFramebufferState()` is defined outside this file;
it pushes a checkpoint holding the current framebuffer binding. -/
def GL_state_PushFramebufferState (s : PostState F) : PostState F :=
  { s with GL_state := { s.GL_state with
      framebuffer_stack := s.GL_state.current_framebuffer :: s.GL_state.framebuffer_stack }
  }.call .PushFramebufferState

/-- Modelled from the spec: `GL_state.PopFramebufferState()` is defined outside this file; it
removes the newest checkpoint and restores the binding it holds.  A pop with no checkpoint
left is recorded in `framebuffer_stack_underflow`. -/
def GL_state_PopFramebufferState (s : PostState F) : PostState F :=
  match s.GL_state.framebuffer_stack with
  | [] =>
    { s with GL_state := { s.GL_state with framebuffer_stack_underflow := true }
    }.call .PopFramebufferState
  | fb :: rest =>
    { s with GL_state := { s.GL_state with
        current_framebuffer := fb
        framebuffer_stack := rest } }.call .PopFramebufferState

/-- The call `opengl_shader_set_current(handle)`; without an argument it is `none`. -/
def opengl_shader_set_current (handle : Option Int) (s : PostState F) : PostState F :=
  s.call (.shader_set_current handle)

/-- The nested call `opengl_shader_set_current(gr_opengl_maybe_create_shader(t, flags))`. -/
def opengl_shader_set_current_created (env : Env F) (t : shader_type) (flags : Nat)
    (s : PostState F) : PostState F :=
  let r := gr_opengl_maybe_create_shader env t flags s
  opengl_shader_set_current (some r.1) r.2

/-- The constant `MAX_MIP_BLUR_LEVELS`. -/
def MAX_MIP_BLUR_LEVELS : Nat := 4

/-! ## The passes (lines 100-515) -/

/-- The function `opengl_post_pass_tonemap()`. -/
def opengl_post_pass_tonemap (env : Env F) (s : PostState F) : PostState F :=
  let s := opengl_shader_set_current_created env .SDR_TYPE_POST_PROCESS_TONEMAPPING 0 s
  let s := s.call (.setTextureUniform "tex" 0)
  let s := s.call (.set_generic_uniform_data (.tonemapping (FloatOps.lit 40 1)))
  let s := s.call (.glFramebufferTexture2D env.Scene_ldr_texture 0)
  let s := s.call (.Texture_Enable 0 env.Scene_color_texture)
  s.call (.draw_full_screen_textured (FloatOps.lit 0 1) (FloatOps.lit 0 1)
    env.Scene_texture_u_scale env.Scene_texture_u_scale)

/-- The body of the innermost loop of the blur stage (lines 179-194) at one mip level. -/
def bloom_blur_level (width height : Int) (pass : Nat) (dest_tex : Nat) (s : PostState F)
    (mipmap : Nat) : PostState F :=
  let bloom_width := width >>> mipmap
  let bloom_height := height >>> mipmap
  let s := s.call (.set_generic_uniform_data (.blur
    (if pass ≠ 0 then FloatOps.div (FloatOps.lit 10 1) (FloatOps.ofInt bloom_width)
     else FloatOps.div (FloatOps.lit 10 1) (FloatOps.ofInt bloom_height))
    mipmap))
  let s := s.call (.glFramebufferTexture2D dest_tex mipmap)
  let s := s.call (.glViewport bloom_width bloom_height)
  s.call (.draw_full_screen_textured (FloatOps.lit 0 1) (FloatOps.lit 0 1)
    (FloatOps.lit 10 1) (FloatOps.lit 10 1))

/-- The body of the loop over `pass` of the blur stage (lines 162-195). -/
def bloom_blur_pass (env : Env F) (width height : Int) (s : PostState F) (pass : Nat) :
    PostState F :=
  let source_tex := s.Bloom_texture pass
  let dest_tex := s.Bloom_texture (1 - pass)
  let s :=
    if pass ≠ 0 then
      opengl_shader_set_current_created env .SDR_TYPE_POST_PROCESS_BLUR
        env.SDR_FLAG_BLUR_HORIZONTAL s
    else
      opengl_shader_set_current_created env .SDR_TYPE_POST_PROCESS_BLUR
        env.SDR_FLAG_BLUR_VERTICAL s
  let s := s.call (.setTextureUniform "tex" 0)
  let s := s.call (.Texture_Enable 0 source_tex)
  (List.range MAX_MIP_BLUR_LEVELS).foldl (bloom_blur_level width height pass dest_tex) s

/-- The function `opengl_post_pass_bloom()`. -/
def opengl_post_pass_bloom (env : Env F) (s : PostState F) : PostState F :=
  let r := GL_state_ScissorTest false s
  let scissor_test := r.1
  let s := r.2
  -- bright pass
  let s := GL_state_BindFrameBuffer s.Bloom_framebuffer s
  let s := s.call (.glFramebufferTexture2D (s.Bloom_texture 0) 0)
  let width := s.Post_texture_width >>> 1
  let height := s.Post_texture_height >>> 1
  let s := s.call (.glViewport width height)
  let s := s.call .glClearColor
  let s := s.call (.glClear true false)
  let s := opengl_shader_set_current_created env .SDR_TYPE_POST_PROCESS_BRIGHTPASS 0 s
  let s := s.call (.setTextureUniform "tex" 0)
  let s := s.call (.Texture_Enable 0 env.Scene_color_texture)
  let s := s.call (.draw_full_screen_textured (FloatOps.lit 0 1) (FloatOps.lit 0 1)
    (FloatOps.lit 10 1) (FloatOps.lit 10 1))
  -- blur pass
  let s := s.call (.Texture_Enable 0 (s.Bloom_texture 0))
  let s := s.call .glGenerateMipmap
  let s := (List.range 2).foldl
    (fun s _iteration => (List.range 2).foldl (bloom_blur_pass env width height) s) s
  -- composite blur to the color texture
  let s := s.call (.glFramebufferTexture2D env.Scene_color_texture 0)
  let s := opengl_shader_set_current_created env .SDR_TYPE_POST_PROCESS_BLOOM_COMP 0 s
  let s := s.call (.setTextureUniform "tex" 0)
  let s := s.call (.set_generic_uniform_data (.bloom_composition MAX_MIP_BLUR_LEVELS
    (FloatOps.div (FloatOps.ofInt s.Cmdline_bloom_intensity) (FloatOps.lit 1000 1))))
  let s := s.call (.Texture_Enable 0 (s.Bloom_texture 0))
  let s := GL_state_SetAlphaBlendMode .ALPHA_BLEND_ADDITIVE s
  let s := s.call (.glViewport env.max_w env.max_h)
  let s := s.call (.draw_full_screen_textured (FloatOps.lit 0 1) (FloatOps.lit 0 1)
    (FloatOps.lit 10 1) (FloatOps.lit 10 1))
  let s := GL_state_SetAlphaBlendMode .ALPHA_BLEND_NONE s
  (GL_state_ScissorTest scissor_test s).2

/-- The function `gr_opengl_post_process_begin()`. -/
def gr_opengl_post_process_begin (s : PostState F) : PostState F :=
  if !s.Post_initialized then s
  else if s.Post_in_frame then s
  else if s.PostProcessing_override then s
  else
    let s := GL_state_PushFramebufferState s
    let s := GL_state_BindFrameBuffer s.Post_framebuffer_id.1 s
    let s := s.call .glDrawBuffer
    let s := s.call .glClearColor
    let s := s.call (.glClear true true)
    { s with Post_in_frame := true }

/-- The function `get_aa_shader_types(aa_mode)`. -/
def get_aa_shader_types (aa_mode : AntiAliasMode) : List shader_type :=
  if gr_is_fxaa_mode aa_mode then [.SDR_TYPE_POST_PROCESS_FXAA]
  else if gr_is_smaa_mode aa_mode then
    [.SDR_TYPE_POST_PROCESS_SMAA_BLENDING_WEIGHT, .SDR_TYPE_POST_PROCESS_SMAA_EDGE,
     .SDR_TYPE_POST_PROCESS_SMAA_NEIGHBORHOOD_BLENDING]
  else []

/-- The function `recompile_aa_shader()`. -/
def recompile_aa_shader (env : Env F) (s : PostState F) : PostState F :=
  let s := s.logmsg .recompiling_aa_shaders
  let s := (get_aa_shader_types s.Gr_aa_mode_last_frame).foldl
    (fun s sdr =>
      let r := gr_opengl_maybe_create_shader env sdr 0 s
      r.2.call (.delete_shader r.1)) s
  let s := (get_aa_shader_types s.Gr_aa_mode).foldl
    (fun s sdr => (gr_opengl_maybe_create_shader env sdr 0 s).2) s
  { s with Gr_aa_mode_last_frame := s.Gr_aa_mode }

/-- The function `opengl_post_pass_fxaa()`. -/
def opengl_post_pass_fxaa (env : Env F) (s : PostState F) : PostState F :=
  let s := if s.Gr_aa_mode_last_frame ≠ s.Gr_aa_mode then recompile_aa_shader env s else s
  let s := s.call .glDrawBuffer
  let s := s.call .ColorMask
  let s := opengl_shader_set_current_created env .SDR_TYPE_POST_PROCESS_FXAA_PREPASS 0 s
  let s := s.call (.setTextureUniform "tex" 0)
  let s := s.call (.glFramebufferTexture2D env.Scene_luminance_texture 0)
  let s := s.call (.Texture_Enable 0 env.Scene_ldr_texture)
  let s := s.call (.draw_full_screen_textured (FloatOps.lit 0 1) (FloatOps.lit 0 1)
    env.Scene_texture_u_scale env.Scene_texture_u_scale)
  let s := opengl_shader_set_current_created env .SDR_TYPE_POST_PROCESS_FXAA 0 s
  let s := s.call (.glFramebufferTexture2D env.Scene_ldr_texture 0)
  let s := s.call (.setTextureUniform "tex0" 0)
  let s := s.call (.set_generic_uniform_data (.fxaa (FloatOps.ofInt s.Post_texture_width)
    (FloatOps.ofInt s.Post_texture_height)))
  let s := s.call (.Texture_Enable 0 env.Scene_luminance_texture)
  let s := s.call (.draw_full_screen_textured (FloatOps.lit 0 1) (FloatOps.lit 0 1)
    env.Scene_texture_u_scale env.Scene_texture_u_scale)
  opengl_shader_set_current none s

/-- The function `smaa_detect_edges()`. -/
def smaa_detect_edges (env : Env F) (s : PostState F) : PostState F :=
  let s := GL_state_BindFrameBuffer s.Smaa_edge_detection_fb s
  let s := s.call .glClearBufferfv
  let s := opengl_shader_set_current_created env .SDR_TYPE_POST_PROCESS_SMAA_EDGE 0 s
  let s := s.call (.setTextureUniform "colorTex" 0)
  let s := s.call (.Texture_Enable 0 env.Scene_ldr_texture)
  s.call (.draw_full_screen_textured (FloatOps.lit 0 1) (FloatOps.lit 0 1)
    env.Scene_texture_u_scale env.Scene_texture_u_scale)

/-- The function `smaa_calculate_blending_weights()`. -/
def smaa_calculate_blending_weights (env : Env F) (s : PostState F) : PostState F :=
  let s := GL_state_BindFrameBuffer s.Smaa_blending_weight_fb s
  let s := s.call .glClearBufferfv
  let s := opengl_shader_set_current_created env .SDR_TYPE_POST_PROCESS_SMAA_BLENDING_WEIGHT 0 s
  let s := s.call (.setTextureUniform "edgesTex" 0)
  let s := s.call (.setTextureUniform "areaTex" 1)
  let s := s.call (.setTextureUniform "searchTex" 2)
  let s := s.call (.Texture_Enable 0 s.Smaa_edges_tex)
  let s := s.call (.Texture_Enable 1 s.Smaa_area_tex)
  let s := s.call (.Texture_Enable 2 s.Smaa_search_tex)
  s.call (.draw_full_screen_textured (FloatOps.lit 0 1) (FloatOps.lit 0 1)
    env.Scene_texture_u_scale env.Scene_texture_u_scale)

/-- The function `smaa_neighborhood_blending()`. -/
def smaa_neighborhood_blending (env : Env F) (s : PostState F) : PostState F :=
  let s := GL_state_BindFrameBuffer s.Smaa_neighborhood_blending_fb s
  let s := s.call .glClearBufferfv
  let s := opengl_shader_set_current_created env
    .SDR_TYPE_POST_PROCESS_SMAA_NEIGHBORHOOD_BLENDING 0 s
  let s := s.call (.setTextureUniform "colorTex" 0)
  let s := s.call (.setTextureUniform "blendTex" 1)
  let s := s.call (.Texture_Enable 0 env.Scene_ldr_texture)
  let s := s.call (.Texture_Enable 1 s.Smaa_blend_tex)
  s.call (.draw_full_screen_textured (FloatOps.lit 0 1) (FloatOps.lit 0 1)
    env.Scene_texture_u_scale env.Scene_texture_u_scale)

/-- The function `smaa_resolve()`. -/
def smaa_resolve (env : Env F) (s : PostState F) : PostState F :=
  let s := s.call .shader_set_passthrough
  let s := s.call (.Texture_Enable 0 s.Smaa_output_tex)
  if s.GL_rendering_to_texture then
    s.call (.draw_textured_quad (FloatOps.lit 0 1) (FloatOps.lit 0 1) (FloatOps.lit 0 1)
      (FloatOps.lit 0 1) (FloatOps.ofInt env.max_w) (FloatOps.ofInt env.max_h)
      env.Scene_texture_u_scale env.Scene_texture_v_scale)
  else
    s.call (.draw_textured_quad (FloatOps.lit 0 1) (FloatOps.lit 0 1) (FloatOps.lit 0 1)
      env.Scene_texture_v_scale (FloatOps.ofInt env.max_w) (FloatOps.ofInt env.max_h)
      env.Scene_texture_u_scale (FloatOps.lit 0 1))

/-- The function `opengl_post_pass_smaa()`. -/
def opengl_post_pass_smaa (env : Env F) (s : PostState F) : PostState F :=
  let s := if s.Gr_aa_mode_last_frame ≠ s.Gr_aa_mode then recompile_aa_shader env s else s
  let s := GL_state_PushFramebufferState s
  let s := s.call .ColorMask
  let s := s.call (.set_generic_uniform_data (.smaa (FloatOps.ofInt s.Post_texture_width)
    (FloatOps.ofInt s.Post_texture_height)))
  let s := smaa_detect_edges env s
  let s := smaa_calculate_blending_weights env s
  let s := smaa_neighborhood_blending env s
  let s := GL_state_PopFramebufferState s
  smaa_resolve env s

/-- The loop over the global lights in `opengl_post_lightshafts` (lines 471-513): a light
without glare is skipped, the first light whose dot product with the forward axis exceeds
`0.7f` is drawn and ends the loop. -/
def lightshafts_loop (env : Env F) : List (global_light F) → PostState F → PostState F
  | [], s => s
  | l :: rest, s =>
    if !l.has_glare then lightshafts_loop env rest s
    else if FloatOps.gt l.dot_fvec (FloatOps.lit 7 1) then
      let x := FloatOps.add (FloatOps.mul (FloatOps.div l.asin_dot_rvec env.PI)
        (FloatOps.lit 15 1)) (FloatOps.lit 5 1)
      let y := FloatOps.add (FloatOps.mul (FloatOps.mul (FloatOps.div l.asin_dot_uvec env.PI)
        (FloatOps.lit 15 1)) env.clip_aspect) (FloatOps.lit 5 1)
      let s := s.call (.set_generic_uniform_data (.lightshaft x y s.ls_density s.ls_falloff
        s.ls_weight (FloatOps.mul env.Sun_spot s.ls_intensity)
        (FloatOps.mul env.Sun_spot s.ls_cpintensity)))
      let s := s.call (.setTextureUniform "scene" 0)
      let s := s.call (.setTextureUniform "cockpit" 1)
      let s := s.call (.Texture_Enable 0 env.Scene_depth_texture)
      let s := s.call (.Texture_Enable 1 env.Cockpit_depth_texture)
      let s := (GL_state_Blend true s).2
      let s := GL_state_SetAlphaBlendMode .ALPHA_BLEND_ADDITIVE s
      let s := s.call (.draw_full_screen_textured (FloatOps.lit 0 1) (FloatOps.lit 0 1)
        env.Scene_texture_u_scale env.Scene_texture_u_scale)
      (GL_state_Blend false s).2
    else lightshafts_loop env rest s

/-- The function `opengl_post_lightshafts()`. -/
def opengl_post_lightshafts (env : Env F) (s : PostState F) : PostState F :=
  let s := opengl_shader_set_current_created env .SDR_TYPE_POST_PROCESS_LIGHTSHAFTS 0 s
  if !s.Game_subspace_effect && s.ls_on && !s.ls_force_off then
    lightshafts_loop env env.lights s
  else s

/-! ## The final composite and the end of the frame (lines 517-694) -/

/-- The `switch` of the parameter setter of the final composite pass (lines 588-621): the
write one selected effect performs. -/
def post_data_write (e : post_effect_t F) (data : post_data F) : post_data F :=
  match e.uniform_type with
  | .Invalid => data
  | .NoiseAmount => { data with noise_amount := e.intensity }
  | .Saturation => { data with saturation := e.intensity }
  | .Brightness => { data with brightness := e.intensity }
  | .Contrast => { data with contrast := e.intensity }
  | .FilmGrain => { data with film_grain := e.intensity }
  | .TvStripes => { data with tv_stripes := e.intensity }
  | .Cutoff => { data with cutoff := e.intensity }
  | .Dither => { data with dither := e.intensity }
  | .Tint => { data with tint := e.rgb }

/-- The loop of the parameter setter (lines 586-623), from index `idx` on, for the variant
flags `flags`. -/
def post_data_loop (flags : Nat) (idx : Nat) :
    List (post_effect_t F) → post_data F → post_data F
  | [], data => data
  | e :: es, data =>
    post_data_loop flags (idx + 1) es
      (if flags &&& shl1 idx ≠ 0 then post_data_write e data else data)

/-- The parameter setter of the final composite pass (the lambda of lines 583-624), applied
to the block `data` it is handed. -/
def post_data_setter (timer_milliseconds : Int) (flags : Nat) (effects : List (post_effect_t F))
    (data : post_data F) : post_data F :=
  post_data_loop flags 0 effects
    { data with timer := FloatOps.ofInt (Int.tmod timer_milliseconds 100 + 1) }

/-- The handle the final composite pass uses (lines 567-572): the pinned one, or when none
is pinned the variant of the always-on flags. -/
def post_sdr_handle (env : Env F) (s : PostState F) : Int :=
  if s.Post_active_shader_index < 0 then
    env.maybe_create_shader .SDR_TYPE_POST_PROCESS_MAIN (always_on_flags 0 0 s.Post_effects)
  else s.Post_active_shader_index

/-- The passes of `gr_opengl_post_process_end` (lines 530-557): checkpoint, bloom, tone
mapping, antialiasing, light shafts, back to the previous buffer and clear. -/
def post_process_end_passes (env : Env F) (s : PostState F) : PostState F :=
  let s := GL_state_PushFramebufferState s
  let s := opengl_post_pass_bloom env s
  let s := opengl_post_pass_tonemap env s
  let s :=
    if !s.GL_rendering_to_texture then
      if gr_is_smaa_mode s.Gr_aa_mode then opengl_post_pass_smaa env s
      else if gr_is_fxaa_mode s.Gr_aa_mode && !s.fxaa_unavailable then
        opengl_post_pass_fxaa env s
      else s
    else s
  let s := opengl_post_lightshafts env s
  let s := GL_state_PopFramebufferState s
  let s := s.call .glClearColor
  s.call (.glClear true false)

/-- The final composite of `gr_opengl_post_process_end` (lines 559-629): select the variant,
bind the inputs, fill the parameter block, restore the framebuffer and draw. -/
def post_process_end_composite (env : Env F) (s : PostState F) : PostState F :=
  let flags := always_on_flags 0 0 s.Post_effects
  let s :=
    if s.Post_active_shader_index < 0 then
      (gr_opengl_maybe_create_shader env .SDR_TYPE_POST_PROCESS_MAIN flags s).2
    else s
  let handle := post_sdr_handle env s
  let s := opengl_shader_set_current (some handle) s
  let s := s.call (.setTextureUniform "tex" 0)
  let s := s.call (.Texture_Enable 0 env.Scene_ldr_texture)
  let s := s.call (.setTextureUniform "depth_tex" 1)
  let s := s.call (.Texture_Enable 1 env.Scene_depth_texture)
  let s := s.call (.set_generic_uniform_data (.post
    (post_data_setter env.timer_milliseconds (env.shader_flags handle) s.Post_effects
      env.post_data_buffer)))
  let s := GL_state_PopFramebufferState s
  s.call (.draw_full_screen_textured (FloatOps.lit 0 1) (FloatOps.lit 0 1)
    env.Scene_texture_u_scale env.Scene_texture_u_scale)

/-- The function `gr_opengl_post_process_end()`. -/
def gr_opengl_post_process_end (env : Env F) (s : PostState F) : PostState F :=
  let r := GL_state_DepthTest false s
  let depth := r.1
  let r := GL_state_DepthMask false r.2
  let depth_mask := r.1
  let r := GL_state_Blend false r.2
  let blend := r.1
  let r := GL_state_CullFace false r.2
  let cull := r.1
  let s := GL_state_Texture_SetShaderMode true r.2
  let s := post_process_end_passes env s
  let s := post_process_end_composite env s
  let s := GL_state_Texture_SetShaderMode false s
  let s := (GL_state_DepthTest depth s).2
  let s := (GL_state_DepthMask depth_mask s).2
  let s := (GL_state_Blend blend s).2
  let s := (GL_state_CullFace cull s).2
  let s := opengl_shader_set_current none s
  { s with Post_in_frame := false }

/-! ## Loading the table (lines 791-934) -/

/-- One item the table parser is asked for: either it reads (`ok`), or the parser raises a
`parse::ParseException` with the given text while reading it (`raise`). -/
inductive tbl_item (α : Type)
  | ok (a : α)
  | raise (what : String)

/-- What the `stuff_*` calls return for one `$Name:` entry of the `#Effects` section;
`rgb` is `none` when the optional `$RGB:` is absent. -/
structure effect_entry (F : Type) where
  name : String
  uniform : String
  define : String
  always_on : Bool
  default_intensity : F
  div : F
  add : F
  rgb : Option (vec3d F)

/-- The six fields of the `#Light Shafts` section, in reading order. -/
structure light_shafts_section (F : Type) where
  always_on : tbl_item Bool
  density : tbl_item F
  falloff : tbl_item F
  weight : tbl_item F
  intensity : tbl_item F
  sample_number : tbl_item Int

/-- The parser's view of `post_processing.tbl`: a section is `none` when its
`optional_string` header is absent. -/
structure post_processing_tbl (F : Type) where
  effects : Option (List (tbl_item (effect_entry F)))
  ship_effects : Option (List (tbl_item ship_effect))
  light_shafts : Option (light_shafts_section F)
  end_marker : tbl_item Unit

/-- The function `mapUniformNameToType(uniform_name)`, without its log message. -/
def mapUniformNameToType (uniform_name : String) : PostEffectUniformType :=
  if stricmp uniform_name "noise_amount" = 0 then .NoiseAmount
  else if stricmp uniform_name "saturation" = 0 then .Saturation
  else if stricmp uniform_name "brightness" = 0 then .Brightness
  else if stricmp uniform_name "contrast" = 0 then .Contrast
  else if stricmp uniform_name "film_grain" = 0 then .FilmGrain
  else if stricmp uniform_name "tv_stripes" = 0 then .TvStripes
  else if stricmp uniform_name "cutoff" = 0 then .Cutoff
  else if stricmp uniform_name "dither" = 0 then .Dither
  else if stricmp uniform_name "tint" = 0 then .Tint
  else .Invalid

/-- The message `mapUniformNameToType` writes for a name it does not know (line 812). -/
def mapUniformNameToType_log (uniform_name : String) (s : PostState F) : PostState F :=
  if mapUniformNameToType uniform_name = .Invalid then
    s.logmsg (.unknown_uniform_name uniform_name)
  else s

/-- The local `eff` of the `#Effects` loop after all its fields are read (lines 833-862). -/
def effect_of_entry (ent : effect_entry F) : post_effect_t F :=
  { name := ent.name
    uniform_type := mapUniformNameToType ent.uniform
    define_name := ent.define
    intensity := ent.default_intensity
    default_intensity := ent.default_intensity
    div := ent.div
    add := ent.add
    rgb := match ent.rgb with
      | some v => v
      | none => vmd_zero_vector
    always_on := ent.always_on }

/-- The `while` loop of the `#Effects` section (lines 832-872) with the local `warned`; the
second component is the text of a raised exception. -/
def init_table_effects :
    List (tbl_item (effect_entry F)) → Bool → PostState F → PostState F × Option String
  | [], _, s => (s, none)
  | .raise what :: _, _, s => (s, some what)
  | .ok ent :: rest, warned, s =>
    let s := mapUniformNameToType_log ent.uniform s
    if s.Post_effects.length < 32 then
      init_table_effects rest warned
        { s with Post_effects := s.Post_effects ++ [effect_of_entry ent] }
    else if !warned then
      init_table_effects rest true (s.logmsg .max_effects_warning)
    else init_table_effects rest warned s

/-- The `while` loop of the `#Ship Effects` section (lines 884-902). -/
def init_table_ship_effects :
    List (tbl_item ship_effect) → PostState F → PostState F × Option String
  | [], s => (s, none)
  | .raise what :: _, s => (s, some what)
  | .ok se :: rest, s =>
    init_table_ship_effects rest { s with Ship_effects := s.Ship_effects ++ [se] }

/-- The accumulation of `ls_cpintensity` (lines 919-922): it starts at the weight, the loop
index runs over `1 .. samplenum - 1`, and the product with the intensity is a `float`
product. -/
def ls_cpintensity_of (weight falloff intensity : F) (samplenum : Int) : F :=
  FloatOps.mul
    ((List.range (samplenum - 1).toNat).foldl
      (fun acc (k : Nat) => FloatOps.add_mul_pow acc weight falloff ((k : Int) + 1))
      weight)
    intensity

/-- The `#Light Shafts` section (lines 906-922): each field is stored as soon as it is
read. -/
def init_table_light_shafts (sec : light_shafts_section F) (s : PostState F) :
    PostState F × Option String :=
  match sec.always_on with
  | .raise what => (s, some what)
  | .ok v =>
    let s := { s with ls_on := v }
    match sec.density with
    | .raise what => (s, some what)
    | .ok v =>
      let s := { s with ls_density := v }
      match sec.falloff with
      | .raise what => (s, some what)
      | .ok v =>
        let s := { s with ls_falloff := v }
        match sec.weight with
        | .raise what => (s, some what)
        | .ok v =>
          let s := { s with ls_weight := v }
          match sec.intensity with
          | .raise what => (s, some what)
          | .ok v =>
            let s := { s with ls_intensity := v }
            match sec.sample_number with
            | .raise what => (s, some what)
            | .ok v =>
              let s := { s with ls_samplenum := v }
              ({ s with ls_cpintensity :=
                  ls_cpintensity_of s.ls_weight s.ls_falloff s.ls_intensity s.ls_samplenum },
               none)

/-- The built-in ship effect `se1` (lines 876-881). -/
def se1 : ship_effect :=
  { name := "FS1 Ship select", shader_effect := 0, disables_rendering := false,
    invert_timer := false }

/-- Sequencing inside the `try` block: once an exception is raised the remaining statements
are skipped. -/
def tbl_then (r : PostState F × Option String)
    (f : PostState F → PostState F × Option String) : PostState F × Option String :=
  match r.2 with
  | some what => (r.1, some what)
  | none => f r.1

/-- The `#Effects` section (lines 831-873); `none` when `optional_string` does not find it. -/
def init_table_effects_section (sec : Option (List (tbl_item (effect_entry F))))
    (s : PostState F) : PostState F × Option String :=
  match sec with
  | some items => init_table_effects items false s
  | none => (s, none)

/-- The built-in ship effect and the `#Ship Effects` section (lines 876-903). -/
def init_table_ship_effects_section (sec : Option (List (tbl_item ship_effect)))
    (s : PostState F) : PostState F × Option String :=
  let s := { s with Ship_effects := s.Ship_effects ++ [se1] }
  match sec with
  | some items => init_table_ship_effects items s
  | none => (s, none)

/-- The `#Light Shafts` section when present (lines 905-923). -/
def init_table_light_shafts_section (sec : Option (light_shafts_section F))
    (s : PostState F) : PostState F × Option String :=
  match sec with
  | some sec => init_table_light_shafts sec s
  | none => (s, none)

/-- The statement `required_string("#End")` (line 925). -/
def init_table_end_marker (m : tbl_item Unit) (s : PostState F) :
    PostState F × Option String :=
  match m with
  | .raise what => (s, some what)
  | .ok _ => (s, none)

/-- The `try` block of `opengl_post_init_table` (lines 823-927); the second component is the
text of the exception that left it, if any. -/
def init_table_try (tbl : post_processing_tbl F) (s : PostState F) :
    PostState F × Option String :=
  tbl_then
    (tbl_then
      (tbl_then (init_table_effects_section tbl.effects s)
        (init_table_ship_effects_section tbl.ship_effects))
      (init_table_light_shafts_section tbl.light_shafts))
    (init_table_end_marker tbl.end_marker)

/-- The function `opengl_post_init_table()`: `true` when the `try` block ran to its end,
`false` when an exception was caught. -/
def opengl_post_init_table (tbl : post_processing_tbl F) (s : PostState F) :
    Bool × PostState F :=
  let r := init_table_try tbl s
  match r.2 with
  | none => (true, r.1)
  | some _ => (false, r.1.logmsg .unable_to_parse_table)

/-! ## A concrete float model for examples -/

/-- Unrounded float values: a rational, or NaN. -/
inductive XFloat
  | nan
  | fin (q : ℚ)
  deriving DecidableEq

/-- Lift a binary operation on rationals; NaN is absorbing. -/
def XFloat.lift2 (f : ℚ → ℚ → ℚ) : XFloat → XFloat → XFloat
  | .fin a, .fin b => .fin (f a b)
  | _, _ => .nan

/-- Comparison `!=` of IEEE arithmetic: NaN differs from everything, itself included. -/
def XFloat.ne : XFloat → XFloat → Bool
  | .fin a, .fin b => decide (a ≠ b)
  | _, _ => true

/-- Comparison `>` of IEEE arithmetic: false as soon as one side is NaN. -/
def XFloat.gt : XFloat → XFloat → Bool
  | .fin a, .fin b => decide (b < a)
  | _, _ => false

/-- Division; a zero divisor gives NaN. -/
def XFloat.div : XFloat → XFloat → XFloat
  | .fin a, .fin b => if b = 0 then .nan else .fin (a / b)
  | _, _ => .nan

/-- The power `pow(x, i)` without rounding; the loop of line 920 only asks for `i >= 1`. -/
def XFloat.pow : XFloat → Int → XFloat
  | .fin a, i => .fin (a ^ i.toNat)
  | .nan, _ => .nan

/-- Exact arithmetic on rationals extended by NaN. It agrees with binary32 wherever the
operands and the result are exactly representable and no divisor is zero. -/
instance : FloatOps XFloat where
  lit m e := .fin ((m : ℚ) / 10 ^ e)
  ofInt i := .fin i
  add := XFloat.lift2 (fun a b => a + b)
  mul := XFloat.lift2 (fun a b => a * b)
  div := XFloat.div
  pow := XFloat.pow
  add_mul_pow acc w f i :=
    XFloat.lift2 (fun a b => a + b) acc (XFloat.lift2 (fun a b => a * b) w (XFloat.pow f i))
  ne := XFloat.ne
  gt := XFloat.gt
  vec_same u v := !(XFloat.ne u.x v.x) && !(XFloat.ne u.y v.y) && !(XFloat.ne u.z v.z)

/-! ## The binary32 and binary64 formats -/

/-- The number of binary digits of `a`; the first argument bounds the recursion. -/
def bit_length_aux : Nat → Nat → Nat
  | 0, _ => 0
  | fuel + 1, a => if a = 0 then 0 else bit_length_aux fuel (a / 2) + 1

/-- The number of binary digits of `a` (`0` for `a = 0`). -/
def bit_length (a : Nat) : Nat := bit_length_aux a a

/-- Rounding of a rational to the nearest number with `p` significant binary digits, ties to
the even significand (the IEEE 754 default rounding). The magnitude is first cut to an
integer `a` of at least `p + 4` digits whose last digit records whether anything was cut off
(a sticky digit), then `a` is rounded to its leading `p` digits. The exponent is not bounded:
neither overflow nor gradual underflow is part of this model. -/
def round_to (p : Nat) (q : ℚ) : ℚ :=
  if q = 0 then 0
  else
    let n := q.num.natAbs
    let k := p + 2 + bit_length q.den
    let a := 2 * (n * 2 ^ k / q.den) + (if n * 2 ^ k % q.den = 0 then 0 else 1)
    let sh := bit_length a - p
    let m := a / 2 ^ sh
    let r := a % 2 ^ sh
    let m1 := if 2 ^ (sh - 1) < r ∨ (r = 2 ^ (sh - 1) ∧ m % 2 = 1) then m + 1 else m
    let v : ℚ := mkRat ((m1 * 2 ^ sh : Nat) : Int) (2 ^ (k + 1))
    if q < 0 then -v else v

/-- Values of C `float` (binary32) in the normal range: a rational with at most 24
significant binary digits, or NaN. -/
inductive Float32
  | nan
  | fin (q : ℚ)
  deriving DecidableEq

/-- A `float` operation: the exact result rounded to 24 digits; NaN is absorbing. -/
def Float32.lift2 (f : ℚ → ℚ → ℚ) : Float32 → Float32 → Float32
  | .fin a, .fin b => .fin (round_to 24 (f a b))
  | _, _ => .nan

/-- Comparison `!=`: NaN differs from everything, itself included. -/
def Float32.ne : Float32 → Float32 → Bool
  | .fin a, .fin b => decide (a ≠ b)
  | _, _ => true

/-- Comparison `>`: false as soon as one side is NaN. -/
def Float32.gt : Float32 → Float32 → Bool
  | .fin a, .fin b => decide (b < a)
  | _, _ => false

/-- Division; a zero divisor gives NaN here, the model has no infinities. -/
def Float32.div : Float32 → Float32 → Float32
  | .fin a, .fin b => if b = 0 then .nan else .fin (round_to 24 (a / b))
  | _, _ => .nan

/-- The power `pow(x, i)` narrowed to `float`. -/
def Float32.pow : Float32 → Int → Float32
  | .fin a, i => .fin (round_to 24 (round_to 53 (a ^ i.toNat)))
  | .nan, _ => .nan

/-- The statement `acc += w * pow(f, i)` of line 921 on `float` variables: the operands are
widened to `double` without change, `pow`, the product and the sum are each rounded to the 53
digits of a `double`, and the assignment rounds the sum to the 24 digits of a `float`. -/
def Float32.add_mul_pow : Float32 → Float32 → Float32 → Int → Float32
  | .fin acc, .fin w, .fin f, i =>
    .fin (round_to 24 (round_to 53 (acc + round_to 53 (w * round_to 53 (f ^ i.toNat)))))
  | _, _, _, _ => .nan

/-- Arithmetic of C `float` on normal-range values: every operation is the exact operation
followed by rounding to nearest, ties to even; a literal is the `float` nearest to its
decimal value. -/
instance : FloatOps Float32 where
  lit m e := .fin (round_to 24 ((m : ℚ) / 10 ^ e))
  ofInt i := .fin (round_to 24 i)
  add := Float32.lift2 (fun a b => a + b)
  mul := Float32.lift2 (fun a b => a * b)
  div := Float32.div
  pow := Float32.pow
  add_mul_pow := Float32.add_mul_pow
  ne := Float32.ne
  gt := Float32.gt
  vec_same u v := !(Float32.ne u.x v.x) && !(Float32.ne u.y v.y) && !(Float32.ne u.z v.z)

/-! ## Auxiliary definitions for the statements -/

/-- The condition of line 739: the effect is always on, or its intensity differs (`!=`) from
its default. -/
def effect_active (e : post_effect_t F) : Bool :=
  e.always_on || FloatOps.ne e.intensity e.default_intensity

/-- The shape shared by the flag loops of lines 561-565 and 738-742: bit `idx + k` is or-ed
into `flags` when the `k`-th effect satisfies `p`. -/
def mask_loop (p : post_effect_t F → Bool) (idx : Nat) (flags : Nat) :
    List (post_effect_t F) → Nat
  | [] => flags
  | e :: es => mask_loop p (idx + 1) (if p e then flags ||| shl1 idx else flags) es

/-- The effect the lookup loop leaves at the matched position (lines 729-732). -/
def set_effect_update (value : Int) (rgb : Option (vec3d F)) (e : post_effect_t F) :
    post_effect_t F :=
  { e with
    intensity := FloatOps.add (FloatOps.div (FloatOps.ofInt value) e.div) e.add
    rgb := match rgb with
      | some v => if !(FloatOps.vec_same vmd_zero_vector v) then v else e.rgb
      | none => e.rgb }

/-- A control call made between frames. -/
inductive control_call (F : Type)
  | set_effect (name : Option String) (value : Int) (rgb : Option (vec3d F))
  | set_defaults

/-- Perform one control call. -/
def control_call.run (env : Env F) : control_call F → PostState F → PostState F
  | .set_effect name value rgb, s => gr_opengl_post_process_set_effect env name value rgb s
  | .set_defaults, s => gr_opengl_post_process_set_defaults s

/-- Perform a sequence of control calls, first to last. -/
def run_control_calls (env : Env F) (cs : List (control_call F)) (s : PostState F) :
    PostState F :=
  cs.foldl (fun s c => c.run env s) s

/-- Whether the parser reads the item without raising. -/
def tbl_item.is_ok {α : Type} : tbl_item α → Bool
  | .ok _ => true
  | .raise _ => false

/-- Whether everything after the `#Effects` section reads without raising: the ship effects,
the light-shaft fields and the `#End` marker. -/
def post_processing_tbl.rest_reads (tbl : post_processing_tbl F) : Bool :=
  (match tbl.ship_effects with
    | some items => items.all tbl_item.is_ok
    | none => true) &&
  (match tbl.light_shafts with
    | some sec =>
      sec.always_on.is_ok && sec.density.is_ok && sec.falloff.is_ok && sec.weight.is_ok &&
        sec.intensity.is_ok && sec.sample_number.is_ok
    | none => true) &&
  tbl.end_marker.is_ok

/-- A table entry for the examples, named after its position. -/
def example_entry (k : Nat) : effect_entry XFloat :=
  { name := "effect " ++ toString k, uniform := "saturation", define := "FLAG_SATURATION",
    always_on := false, default_intensity := .fin 0, div := .fin 1, add := .fin 0,
    rgb := none }

/-- A table of 33 effect entries and nothing else but the `#End` marker. -/
def example_tbl : post_processing_tbl XFloat :=
  { effects := some (((List.range 33).map example_entry).map tbl_item.ok)
    ship_effects := none
    light_shafts := none
    end_marker := .ok () }

/-- The field of the parameter block that belongs to a uniform kind: a float, or the colour
for `Tint`; `Invalid` has no field. -/
def post_data.slot (data : post_data F) : PostEffectUniformType → Option (F ⊕ vec3d F)
  | .Invalid => none
  | .NoiseAmount => some (.inl data.noise_amount)
  | .Saturation => some (.inl data.saturation)
  | .Brightness => some (.inl data.brightness)
  | .Contrast => some (.inl data.contrast)
  | .FilmGrain => some (.inl data.film_grain)
  | .TvStripes => some (.inl data.tv_stripes)
  | .Cutoff => some (.inl data.cutoff)
  | .Tint => some (.inr data.tint)
  | .Dither => some (.inl data.dither)

/-- The value an effect contributes to its field: its colour for `Tint`, its current
intensity otherwise. -/
def post_effect_t.uniform_value (e : post_effect_t F) : F ⊕ vec3d F :=
  if e.uniform_type = .Tint then .inr e.rgb else .inl e.intensity

/-- The calls of the final composite pass from the selection of its variant on (lines
574-629 and 691), for the selected handle and the registry it reads. -/
def final_composite_calls (env : Env F) (handle : Int) (effects : List (post_effect_t F)) :
    List (GLCall F) :=
  [ .shader_set_current (some handle),
    .setTextureUniform "tex" 0,
    .Texture_Enable 0 env.Scene_ldr_texture,
    .setTextureUniform "depth_tex" 1,
    .Texture_Enable 1 env.Scene_depth_texture,
    .set_generic_uniform_data (.post
      (post_data_setter env.timer_milliseconds (env.shader_flags handle) effects
        env.post_data_buffer)),
    .PopFramebufferState,
    .draw_full_screen_textured (FloatOps.lit 0 1) (FloatOps.lit 0 1)
      env.Scene_texture_u_scale env.Scene_texture_u_scale,
    .shader_set_current none ]

/-- The state with the fields blanked that the passes are free to change: the call record,
the log, the last-frame antialiasing mode, and of the device state the blend toggle and mode,
the scissor toggle and the framebuffer binding and checkpoints.  Two states with the same
image agree on every other field. -/
def PostState.frame_of (s : PostState F) : PostState F :=
  { s with
    calls := []
    log := []
    Gr_aa_mode_last_frame := .None
    GL_state := { s.GL_state with
      blend := false
      scissor_test := false
      alpha_blend_mode := .ALPHA_BLEND_NONE
      current_framebuffer := 0
      framebuffer_stack := []
      framebuffer_stack_underflow := false } }

/-! ## Example data -/

/-- A shader cache that answers every request with a fresh handle: kind and flags are packed
into the handle, and the flags can be read back from it. -/
def example_env : Env XFloat :=
  { maybe_create_shader := fun t flags =>
      (flags : Int) * 16 + (match t with
        | .SDR_TYPE_POST_PROCESS_MAIN => 0
        | .SDR_TYPE_POST_PROCESS_BLUR => 1
        | .SDR_TYPE_POST_PROCESS_BLOOM_COMP => 2
        | .SDR_TYPE_POST_PROCESS_BRIGHTPASS => 3
        | .SDR_TYPE_POST_PROCESS_FXAA => 4
        | .SDR_TYPE_POST_PROCESS_FXAA_PREPASS => 5
        | .SDR_TYPE_POST_PROCESS_LIGHTSHAFTS => 6
        | .SDR_TYPE_POST_PROCESS_TONEMAPPING => 7
        | .SDR_TYPE_POST_PROCESS_SMAA_EDGE => 8
        | .SDR_TYPE_POST_PROCESS_SMAA_BLENDING_WEIGHT => 9
        | .SDR_TYPE_POST_PROCESS_SMAA_NEIGHBORHOOD_BLENDING => 10)
    shader_flags := fun h => (h / 16).toNat
    SDR_FLAG_BLUR_HORIZONTAL := 1
    SDR_FLAG_BLUR_VERTICAL := 2
    Scene_color_texture := 11
    Scene_ldr_texture := 12
    Scene_luminance_texture := 13
    Scene_depth_texture := 14
    Cockpit_depth_texture := 15
    Scene_texture_u_scale := .fin 1
    Scene_texture_v_scale := .fin 1
    max_w := 1024
    max_h := 768
    clip_aspect := .fin 1
    Sun_spot := .fin 1
    PI := .fin (3141592654 / 1000000000)
    timer_milliseconds := 1234
    lights := []
    post_data_buffer :=
      { timer := .fin 0, noise_amount := .fin 0, saturation := .fin 0, brightness := .fin 0,
        contrast := .fin 0, film_grain := .fin 0, tv_stripes := .fin 0, cutoff := .fin 0,
        tint := ⟨.fin 0, .fin 0, .fin 0⟩, dither := .fin 0 }
    GLSL_version := 330
    GL_max_renderbuffer_size := 16384
    Scene_texture_initialized := true
    Cmdline_no_fbo := false
    GLAD_GL_ARB_texture_storage := true
    AREATEX_WIDTH := 160
    AREATEX_HEIGHT := 560
    SEARCHTEX_WIDTH := 64
    SEARCHTEX_HEIGHT := 16
    texture_name := fun k => 100 + k
    framebuffer_name := fun k => 200 + k
    opengl_check_for_errors := false }

/-- A registry of three effects, all at their defaults. -/
def example_effects : List (post_effect_t XFloat) :=
  [ { name := "saturation", uniform_type := .Saturation, define_name := "FLAG_SATURATION",
      intensity := .fin 1, default_intensity := .fin 1, div := .fin 50, add := .fin 0,
      rgb := ⟨.fin 0, .fin 0, .fin 0⟩, always_on := true },
    { name := "film grain", uniform_type := .FilmGrain, define_name := "FLAG_GRAIN",
      intensity := .fin 0, default_intensity := .fin 0, div := .fin 50, add := .fin 0,
      rgb := ⟨.fin 0, .fin 0, .fin 0⟩, always_on := false },
    { name := "tint", uniform_type := .Tint, define_name := "FLAG_TINT",
      intensity := .fin 0, default_intensity := .fin 0, div := .fin 1, add := .fin 0,
      rgb := ⟨.fin 0, .fin 0, .fin 0⟩, always_on := false } ]

/-- The state right after a successful initialisation with the registry `effects`, outside a
frame: nothing is pinned and the device toggles are at the values given. -/
def example_state_with (effects : List (post_effect_t XFloat)) (shader_mode : Bool) :
    PostState XFloat :=
  { fxaa_unavailable := false
    zbuffer_saved := false
    ls_on := false
    ls_force_off := false
    ls_density := .fin (1 / 2)
    ls_weight := .fin (1 / 50)
    ls_falloff := .fin 1
    ls_intensity := .fin (1 / 2)
    ls_cpintensity := .fin (1 / 2)
    ls_samplenum := 50
    Post_effects := effects
    Post_initialized := true
    Post_in_frame := false
    Post_active_shader_index := -1
    Bloom_framebuffer := 1
    Bloom_textures := (2, 3)
    Post_framebuffer_id := (4, 0)
    Post_texture_width := 1024
    Post_texture_height := 768
    Smaa_edge_detection_fb := 0
    Smaa_edges_tex := 0
    Smaa_blending_weight_fb := 0
    Smaa_blend_tex := 0
    Smaa_neighborhood_blending_fb := 0
    Smaa_output_tex := 0
    Smaa_search_tex := 0
    Smaa_area_tex := 0
    PostProcessing_override := false
    Gr_aa_mode := .None
    Gr_aa_mode_last_frame := .None
    Gr_post_processing_enabled := true
    GL_rendering_to_texture := false
    Game_subspace_effect := false
    Cmdline_bloom_intensity := 25
    Ship_effects := []
    GL_state :=
      { depth_test := true, depth_mask := true, blend := false, cull_face := true,
        scissor_test := false, shader_mode := shader_mode,
        alpha_blend_mode := .ALPHA_BLEND_NONE, current_framebuffer := 0,
        framebuffer_stack := [], framebuffer_stack_underflow := false }
    calls := []
    log := [] }

/-- The example state with the three-effect registry. -/
def example_state : PostState XFloat := example_state_with example_effects false

/-- A registry whose only effect has a NaN default intensity and is not always-on. -/
def nan_default_effects : List (post_effect_t XFloat) :=
  [ { name := "cutoff", uniform_type := .Cutoff, define_name := "FLAG_CUTOFF",
      intensity := .nan, default_intensity := .nan, div := .fin 1, add := .fin 0,
      rgb := ⟨.fin 0, .fin 0, .fin 0⟩, always_on := false } ]

/-- Three control calls for the examples. -/
def example_calls : List (control_call XFloat) :=
  [ .set_effect (some "film grain") 25 none,
    .set_defaults,
    .set_effect (some "tint") 3 (some ⟨.fin 1, .fin 0, .fin 0⟩) ]

/-! ## Shader headers (lines 936-1022) -/

/-- The function `set_fxaa_defines(sflags)`; the stream is the string written so far.  The
`default` case is marked `UNREACHABLE` in the source and adds nothing here. -/
def set_fxaa_defines (env : Env F) (s : PostState F) (sflags : String) : String :=
  let sflags := sflags ++ "#define FXAA_GLSL_120 0\n"
  let sflags := sflags ++ "#define FXAA_GLSL_130 1\n"
  let sflags := if env.GLSL_version ≥ 400 then sflags ++ "#define FXAA_GATHER4_ALPHA 1\n"
    else sflags
  match s.Gr_aa_mode with
  | .None =>
    sflags ++ "#define FXAA_QUALITY_PRESET 10\n"
      ++ "#define FXAA_QUALITY_EDGE_THRESHOLD (1.0/6.0)\n"
      ++ "#define FXAA_QUALITY_EDGE_THRESHOLD_MIN (1.0/12.0)\n"
      ++ "#define FXAA_QUALITY_SUBPIX 0.33\n"
  | .FXAA_Low =>
    sflags ++ "#define FXAA_QUALITY_PRESET 12\n"
      ++ "#define FXAA_QUALITY_EDGE_THRESHOLD (1.0/8.0)\n"
      ++ "#define FXAA_QUALITY_EDGE_THRESHOLD_MIN (1.0/16.0)\n"
      ++ "#define FXAA_QUALITY_SUBPIX 0.33\n"
  | .FXAA_Medium =>
    sflags ++ "#define FXAA_QUALITY_PRESET 26\n"
      ++ "#define FXAA_QUALITY_EDGE_THRESHOLD (1.0/12.0)\n"
      ++ "#define FXAA_QUALITY_EDGE_THRESHOLD_MIN (1.0/24.0)\n"
      ++ "#define FXAA_QUALITY_SUBPIX 0.33\n"
  | .FXAA_High =>
    sflags ++ "#define FXAA_QUALITY_PRESET 39\n"
      ++ "#define FXAA_QUALITY_EDGE_THRESHOLD (1.0/15.0)\n"
      ++ "#define FXAA_QUALITY_EDGE_THRESHOLD_MIN (1.0/32.0)\n"
      ++ "#define FXAA_QUALITY_SUBPIX 0.33\n"
  | _ => sflags

/-- The function `set_smaa_defines(sflags)`.  The `default` case is marked `UNREACHABLE` in
the source and adds nothing here. -/
def set_smaa_defines (env : Env F) (s : PostState F) (sflags : String) : String :=
  let sflags := if env.GLSL_version ≥ 400 then sflags ++ "#define SMAA_GLSL_4\n"
    else sflags ++ "#define SMAA_GLSL_3\n"
  match s.Gr_aa_mode with
  | .SMAA_Low => sflags ++ "#define SMAA_PRESET_LOW\n"
  | .SMAA_Medium => sflags ++ "#define SMAA_PRESET_MEDIUM\n"
  | .SMAA_High => sflags ++ "#define SMAA_PRESET_HIGH\n"
  | .SMAA_Ultra => sflags ++ "#define SMAA_PRESET_ULTRA\n"
  | _ => sflags

/-- The loop of `opengl_post_shader_header` for the main composite kind (lines 1005-1011),
from index `idx` on. -/
def shader_header_loop (flags : Nat) (idx : Nat) : List (post_effect_t F) → String → String
  | [], sflags => sflags
  | e :: es, sflags =>
    shader_header_loop flags (idx + 1) es
      (if flags &&& shl1 idx ≠ 0 then sflags ++ "#define " ++ e.define_name ++ "\n"
       else sflags)

/-- The function `opengl_post_shader_header(sflags, shader_t, flags)`; the result is the
content of the stream afterwards. -/
def opengl_post_shader_header (env : Env F) (s : PostState F) (sflags : String)
    (shader_t : shader_type) (flags : Nat) : String :=
  if shader_t = .SDR_TYPE_POST_PROCESS_MAIN then
    shader_header_loop flags 0 s.Post_effects sflags
  else if shader_t = .SDR_TYPE_POST_PROCESS_LIGHTSHAFTS then
    sflags ++ ("#define SAMPLE_NUM " ++ toString s.ls_samplenum ++ "\n")
  else if shader_t = .SDR_TYPE_POST_PROCESS_FXAA then set_fxaa_defines env s sflags
  else if shader_t = .SDR_TYPE_POST_PROCESS_SMAA_EDGE ∨
      shader_t = .SDR_TYPE_POST_PROCESS_SMAA_BLENDING_WEIGHT ∨
      shader_t = .SDR_TYPE_POST_PROCESS_SMAA_NEIGHBORHOOD_BLENDING then
    set_smaa_defines env s sflags
  else sflags

/-- The initial value of the global `ls_cpintensity` (line 39), `0.5f * 50 * 0.02f`. -/
def ls_cpintensity_initial : F :=
  FloatOps.mul (FloatOps.mul (FloatOps.lit 5 1) (FloatOps.ofInt 50)) (FloatOps.lit 2 2)

/-- A table with only a `#Light Shafts` section: weight 0.02, falloff 1.0, intensity 0.5 and
50 samples. -/
def example_ls_tbl : post_processing_tbl XFloat :=
  { effects := none
    ship_effects := none
    light_shafts := some
      { always_on := .ok true, density := .ok (.fin (5 / 10)), falloff := .ok (.fin 1),
        weight := .ok (.fin (2 / 100)), intensity := .ok (.fin (5 / 10)),
        sample_number := .ok 50 }
    end_marker := .ok () }

/-- The table of `example_ls_tbl` in binary32: weight `0.02f`, falloff `1.0f`, intensity
`0.5f` and 50 samples. -/
def example_ls_tbl32 : post_processing_tbl Float32 :=
  { effects := none
    ship_effects := none
    light_shafts := some
      { always_on := .ok true, density := .ok (FloatOps.lit 5 1),
        falloff := .ok (FloatOps.lit 10 1), weight := .ok (FloatOps.lit 2 2),
        intensity := .ok (FloatOps.lit 5 1), sample_number := .ok 50 }
    end_marker := .ok () }

/-- The state at program start in binary32: the globals hold their initialisers (lines
35-40), nothing is initialised and no device resource exists. -/
def example_state32 : PostState Float32 :=
  { fxaa_unavailable := false
    zbuffer_saved := false
    ls_on := false
    ls_force_off := false
    ls_density := FloatOps.lit 5 1
    ls_weight := FloatOps.lit 2 2
    ls_falloff := FloatOps.lit 10 1
    ls_intensity := FloatOps.lit 5 1
    ls_cpintensity := ls_cpintensity_initial
    ls_samplenum := 50
    Post_effects := []
    Post_initialized := false
    Post_in_frame := false
    Post_active_shader_index := -1
    Bloom_framebuffer := 0
    Bloom_textures := (0, 0)
    Post_framebuffer_id := (0, 0)
    Post_texture_width := 0
    Post_texture_height := 0
    Smaa_edge_detection_fb := 0
    Smaa_edges_tex := 0
    Smaa_blending_weight_fb := 0
    Smaa_blend_tex := 0
    Smaa_neighborhood_blending_fb := 0
    Smaa_output_tex := 0
    Smaa_search_tex := 0
    Smaa_area_tex := 0
    PostProcessing_override := false
    Gr_aa_mode := .None
    Gr_aa_mode_last_frame := .None
    Gr_post_processing_enabled := true
    GL_rendering_to_texture := false
    Game_subspace_effect := false
    Cmdline_bloom_intensity := 25
    Ship_effects := []
    GL_state :=
      { depth_test := true, depth_mask := true, blend := false, cull_face := true,
        scissor_test := false, shader_mode := false,
        alpha_blend_mode := .ALPHA_BLEND_NONE, current_framebuffer := 0,
        framebuffer_stack := [], framebuffer_stack_underflow := false }
    calls := []
    log := [] }

/-! ## The call record of the passes -/

/-- The calls a state `t` has recorded beyond those of the earlier state `s`. -/
def calls_added (s t : PostState F) : List (GLCall F) :=
  t.calls.drop s.calls.length

/-- The calls of one mip level of a blur pass (lines 179-194). -/
def bloom_blur_level_calls (width height : Int) (pass : Nat) (dest_tex : Nat) (mipmap : Nat) :
    List (GLCall F) :=
  [ .set_generic_uniform_data (.blur
      (if pass ≠ 0 then FloatOps.div (FloatOps.lit 10 1) (FloatOps.ofInt (width >>> mipmap))
       else FloatOps.div (FloatOps.lit 10 1) (FloatOps.ofInt (height >>> mipmap)))
      mipmap),
    .glFramebufferTexture2D dest_tex mipmap,
    .glViewport (width >>> mipmap) (height >>> mipmap),
    .draw_full_screen_textured (FloatOps.lit 0 1) (FloatOps.lit 0 1) (FloatOps.lit 10 1)
      (FloatOps.lit 10 1) ]

/-- The calls of one blur pass (lines 162-195), for the pair `Bloom_textures`. -/
def bloom_blur_pass_calls (env : Env F) (width height : Int) (textures : Nat × Nat)
    (pass : Nat) : List (GLCall F) :=
  [ .maybe_create_shader .SDR_TYPE_POST_PROCESS_BLUR
      (if pass ≠ 0 then env.SDR_FLAG_BLUR_HORIZONTAL else env.SDR_FLAG_BLUR_VERTICAL),
    .shader_set_current (some (env.maybe_create_shader .SDR_TYPE_POST_PROCESS_BLUR
      (if pass ≠ 0 then env.SDR_FLAG_BLUR_HORIZONTAL else env.SDR_FLAG_BLUR_VERTICAL))),
    .setTextureUniform "tex" 0,
    .Texture_Enable 0 (if pass = 0 then textures.1 else textures.2) ] ++
  (List.range MAX_MIP_BLUR_LEVELS).flatMap
    (bloom_blur_level_calls width height pass (if 1 - pass = 0 then textures.1 else textures.2))

/-- The calls of the bright pass and of the mip chain generation (lines 133-159). -/
def bloom_bright_calls (env : Env F) (s : PostState F) : List (GLCall F) :=
  [ .BindFrameBuffer s.Bloom_framebuffer,
    .glFramebufferTexture2D s.Bloom_textures.1 0,
    .glViewport (s.Post_texture_width >>> 1) (s.Post_texture_height >>> 1),
    .glClearColor,
    .glClear true false,
    .maybe_create_shader .SDR_TYPE_POST_PROCESS_BRIGHTPASS 0,
    .shader_set_current (some (env.maybe_create_shader .SDR_TYPE_POST_PROCESS_BRIGHTPASS 0)),
    .setTextureUniform "tex" 0,
    .Texture_Enable 0 env.Scene_color_texture,
    .draw_full_screen_textured (FloatOps.lit 0 1) (FloatOps.lit 0 1) (FloatOps.lit 10 1)
      (FloatOps.lit 10 1),
    .Texture_Enable 0 s.Bloom_textures.1,
    .glGenerateMipmap ]

/-- The calls of the blur stage (lines 161-196): two iterations of pass 0 then pass 1. -/
def bloom_blur_calls (env : Env F) (s : PostState F) : List (GLCall F) :=
  (List.range 2).flatMap (fun _iteration =>
    (List.range 2).flatMap
      (bloom_blur_pass_calls env (s.Post_texture_width >>> 1) (s.Post_texture_height >>> 1)
        s.Bloom_textures))

/-- The calls of the bloom composite (lines 203-223). -/
def bloom_composite_calls (env : Env F) (s : PostState F) : List (GLCall F) :=
  [ .glFramebufferTexture2D env.Scene_color_texture 0,
    .maybe_create_shader .SDR_TYPE_POST_PROCESS_BLOOM_COMP 0,
    .shader_set_current (some (env.maybe_create_shader .SDR_TYPE_POST_PROCESS_BLOOM_COMP 0)),
    .setTextureUniform "tex" 0,
    .set_generic_uniform_data (.bloom_composition MAX_MIP_BLUR_LEVELS
      (FloatOps.div (FloatOps.ofInt s.Cmdline_bloom_intensity) (FloatOps.lit 1000 1))),
    .Texture_Enable 0 s.Bloom_textures.1,
    .glViewport env.max_w env.max_h,
    .draw_full_screen_textured (FloatOps.lit 0 1) (FloatOps.lit 0 1) (FloatOps.lit 10 1)
      (FloatOps.lit 10 1) ]

/-- The calls of `opengl_post_pass_bloom`. -/
def bloom_calls (env : Env F) (s : PostState F) : List (GLCall F) :=
  bloom_bright_calls env s ++ bloom_blur_calls env s ++ bloom_composite_calls env s

/-- What a draw call finds bound: the variant last requested from the shader cache, the
handle made current, the texture on unit 0, the colour attachment (texture and level), the
viewport size and the parameter block set last. -/
structure draw_context (F : Type) where
  requested : Option (shader_type × Nat)
  shader : Option Int
  tex0 : Option Nat
  attachment : Option (Nat × Int)
  viewport : Option (Int × Int)
  uniform : Option (uniform_data F)

/-- The effect of one recorded call on what later draws find bound. -/
def draw_context.step (c : draw_context F) : GLCall F → draw_context F
  | .maybe_create_shader t flags => { c with requested := some (t, flags) }
  | .shader_set_current handle => { c with shader := handle }
  | .Texture_Enable texunit tex => if texunit = 0 then { c with tex0 := some tex } else c
  | .glFramebufferTexture2D tex level => { c with attachment := some (tex, level) }
  | .glViewport w h => { c with viewport := some (w, h) }
  | .set_generic_uniform_data data => { c with uniform := some data }
  | _ => c

/-- Whether the call submits a draw. -/
def GLCall.is_draw : GLCall F → Bool
  | .draw_full_screen_textured _ _ _ _ => true
  | .draw_textured_quad _ _ _ _ _ _ _ _ => true
  | _ => false

/-- The draws of a call record, each with what it finds bound, starting from the context
`c`. -/
def draw_records (c : draw_context F) : List (GLCall F) → List (draw_context F)
  | [] => []
  | x :: rest => if x.is_draw then c :: draw_records c rest else draw_records (c.step x) rest

/-- Whether the draw was issued with a blur variant requested last. -/
def draw_context.is_blur (c : draw_context F) : Bool :=
  match c.requested with
  | some (.SDR_TYPE_POST_PROCESS_BLUR, _) => true
  | _ => false

/-- What is bound after the calls of `l`, starting from the context `c`. -/
def draw_context.after (c : draw_context F) : List (GLCall F) → draw_context F
  | [] => c
  | x :: rest => if x.is_draw then c.after rest else (c.step x).after rest

/-- A context with nothing bound yet. -/
def draw_context.unbound : draw_context F :=
  { requested := none, shader := none, tex0 := none, attachment := none, viewport := none,
    uniform := none }

/-- The draw of blur pass `pass` at mip level `mipmap` with what it finds bound, for the half
sizes `width` and `height` and the pair `Bloom_textures`. -/
def blur_draw (env : Env F) (width height : Int) (textures : Nat × Nat) (pass mipmap : Nat) :
    draw_context F :=
  { requested := some (.SDR_TYPE_POST_PROCESS_BLUR,
      if pass ≠ 0 then env.SDR_FLAG_BLUR_HORIZONTAL else env.SDR_FLAG_BLUR_VERTICAL)
    shader := some (env.maybe_create_shader .SDR_TYPE_POST_PROCESS_BLUR
      (if pass ≠ 0 then env.SDR_FLAG_BLUR_HORIZONTAL else env.SDR_FLAG_BLUR_VERTICAL))
    tex0 := some (if pass = 0 then textures.1 else textures.2)
    attachment := some (if 1 - pass = 0 then textures.1 else textures.2, (mipmap : Int))
    viewport := some (width >>> mipmap, height >>> mipmap)
    uniform := some (.blur
      (if pass ≠ 0 then FloatOps.div (FloatOps.lit 10 1) (FloatOps.ofInt (width >>> mipmap))
       else FloatOps.div (FloatOps.lit 10 1) (FloatOps.ofInt (height >>> mipmap)))
      mipmap) }

/-- The draws of the blur stage in order: two iterations, in each pass 0 then pass 1, in each
pass the mip levels in ascending order. -/
def blur_draws (env : Env F) (width height : Int) (textures : Nat × Nat) :
    List (draw_context F) :=
  (List.range 2).flatMap (fun _iteration =>
    (List.range 2).flatMap (fun pass =>
      (List.range MAX_MIP_BLUR_LEVELS).map (blur_draw env width height textures pass)))

/-- The draw of the bright pass with what it finds bound, starting from the context `c`. -/
def bright_draw (env : Env F) (s : PostState F) (c : draw_context F) : draw_context F :=
  { c with
    requested := some (.SDR_TYPE_POST_PROCESS_BRIGHTPASS, 0)
    shader := some (env.maybe_create_shader .SDR_TYPE_POST_PROCESS_BRIGHTPASS 0)
    tex0 := some env.Scene_color_texture
    attachment := some (s.Bloom_textures.1, 0)
    viewport := some (s.Post_texture_width >>> 1, s.Post_texture_height >>> 1) }

/-- The draw of the bloom composite with what it finds bound. -/
def bloom_composite_draw (env : Env F) (s : PostState F) : draw_context F :=
  { requested := some (.SDR_TYPE_POST_PROCESS_BLOOM_COMP, 0)
    shader := some (env.maybe_create_shader .SDR_TYPE_POST_PROCESS_BLOOM_COMP 0)
    tex0 := some s.Bloom_textures.1
    attachment := some (env.Scene_color_texture, 0)
    viewport := some (env.max_w, env.max_h)
    uniform := some (.bloom_composition MAX_MIP_BLUR_LEVELS
      (FloatOps.div (FloatOps.ofInt s.Cmdline_bloom_intensity) (FloatOps.lit 1000 1))) }

/-- The calls of `opengl_post_pass_tonemap`. -/
def tonemap_calls (env : Env F) : List (GLCall F) :=
  [ .maybe_create_shader .SDR_TYPE_POST_PROCESS_TONEMAPPING 0,
    .shader_set_current (some (env.maybe_create_shader .SDR_TYPE_POST_PROCESS_TONEMAPPING 0)),
    .setTextureUniform "tex" 0,
    .set_generic_uniform_data (.tonemapping (FloatOps.lit 40 1)),
    .glFramebufferTexture2D env.Scene_ldr_texture 0,
    .Texture_Enable 0 env.Scene_color_texture,
    .draw_full_screen_textured (FloatOps.lit 0 1) (FloatOps.lit 0 1)
      env.Scene_texture_u_scale env.Scene_texture_u_scale ]

/-- The calls of `recompile_aa_shader` when the last frame ran mode `old` and the current
mode is `new`: each kind of `old` is looked up and deleted, then each kind of `new` is
requested. -/
def recompile_calls (env : Env F) (old new : AntiAliasMode) : List (GLCall F) :=
  (get_aa_shader_types old).flatMap (fun sdr =>
    [GLCall.maybe_create_shader sdr 0, GLCall.delete_shader (env.maybe_create_shader sdr 0)]) ++
  (get_aa_shader_types new).flatMap (fun sdr => [GLCall.maybe_create_shader sdr 0])

/-- The calls of the mode check both antialiasing passes start with (lines 292-294 and
425-427). -/
def aa_recompile_calls (env : Env F) (s : PostState F) : List (GLCall F) :=
  if s.Gr_aa_mode_last_frame ≠ s.Gr_aa_mode then
    recompile_calls env s.Gr_aa_mode_last_frame s.Gr_aa_mode
  else []

/-- The log lines of the mode check both antialiasing passes start with. -/
def aa_recompile_log (s : PostState F) : List LogMsg :=
  if s.Gr_aa_mode_last_frame ≠ s.Gr_aa_mode then [.recompiling_aa_shaders] else []

/-- The calls of `opengl_post_pass_fxaa`. -/
def fxaa_calls (env : Env F) (s : PostState F) : List (GLCall F) :=
  aa_recompile_calls env s ++
  [ .glDrawBuffer,
    .ColorMask,
    .maybe_create_shader .SDR_TYPE_POST_PROCESS_FXAA_PREPASS 0,
    .shader_set_current (some (env.maybe_create_shader .SDR_TYPE_POST_PROCESS_FXAA_PREPASS 0)),
    .setTextureUniform "tex" 0,
    .glFramebufferTexture2D env.Scene_luminance_texture 0,
    .Texture_Enable 0 env.Scene_ldr_texture,
    .draw_full_screen_textured (FloatOps.lit 0 1) (FloatOps.lit 0 1)
      env.Scene_texture_u_scale env.Scene_texture_u_scale,
    .maybe_create_shader .SDR_TYPE_POST_PROCESS_FXAA 0,
    .shader_set_current (some (env.maybe_create_shader .SDR_TYPE_POST_PROCESS_FXAA 0)),
    .glFramebufferTexture2D env.Scene_ldr_texture 0,
    .setTextureUniform "tex0" 0,
    .set_generic_uniform_data (.fxaa (FloatOps.ofInt s.Post_texture_width)
      (FloatOps.ofInt s.Post_texture_height)),
    .Texture_Enable 0 env.Scene_luminance_texture,
    .draw_full_screen_textured (FloatOps.lit 0 1) (FloatOps.lit 0 1)
      env.Scene_texture_u_scale env.Scene_texture_u_scale,
    .shader_set_current none ]

/-- The calls of the three SMAA stages (lines 322-401). -/
def smaa_stage_calls (env : Env F) (s : PostState F) : List (GLCall F) :=
  [ .BindFrameBuffer s.Smaa_edge_detection_fb,
    .glClearBufferfv,
    .maybe_create_shader .SDR_TYPE_POST_PROCESS_SMAA_EDGE 0,
    .shader_set_current (some (env.maybe_create_shader .SDR_TYPE_POST_PROCESS_SMAA_EDGE 0)),
    .setTextureUniform "colorTex" 0,
    .Texture_Enable 0 env.Scene_ldr_texture,
    .draw_full_screen_textured (FloatOps.lit 0 1) (FloatOps.lit 0 1)
      env.Scene_texture_u_scale env.Scene_texture_u_scale,
    .BindFrameBuffer s.Smaa_blending_weight_fb,
    .glClearBufferfv,
    .maybe_create_shader .SDR_TYPE_POST_PROCESS_SMAA_BLENDING_WEIGHT 0,
    .shader_set_current
      (some (env.maybe_create_shader .SDR_TYPE_POST_PROCESS_SMAA_BLENDING_WEIGHT 0)),
    .setTextureUniform "edgesTex" 0,
    .setTextureUniform "areaTex" 1,
    .setTextureUniform "searchTex" 2,
    .Texture_Enable 0 s.Smaa_edges_tex,
    .Texture_Enable 1 s.Smaa_area_tex,
    .Texture_Enable 2 s.Smaa_search_tex,
    .draw_full_screen_textured (FloatOps.lit 0 1) (FloatOps.lit 0 1)
      env.Scene_texture_u_scale env.Scene_texture_u_scale,
    .BindFrameBuffer s.Smaa_neighborhood_blending_fb,
    .glClearBufferfv,
    .maybe_create_shader .SDR_TYPE_POST_PROCESS_SMAA_NEIGHBORHOOD_BLENDING 0,
    .shader_set_current
      (some (env.maybe_create_shader .SDR_TYPE_POST_PROCESS_SMAA_NEIGHBORHOOD_BLENDING 0)),
    .setTextureUniform "colorTex" 0,
    .setTextureUniform "blendTex" 1,
    .Texture_Enable 0 env.Scene_ldr_texture,
    .Texture_Enable 1 s.Smaa_blend_tex,
    .draw_full_screen_textured (FloatOps.lit 0 1) (FloatOps.lit 0 1)
      env.Scene_texture_u_scale env.Scene_texture_u_scale ]

/-- The calls of `smaa_resolve`. -/
def smaa_resolve_calls (env : Env F) (s : PostState F) : List (GLCall F) :=
  [ .shader_set_passthrough,
    .Texture_Enable 0 s.Smaa_output_tex,
    if s.GL_rendering_to_texture then
      .draw_textured_quad (FloatOps.lit 0 1) (FloatOps.lit 0 1) (FloatOps.lit 0 1)
        (FloatOps.lit 0 1) (FloatOps.ofInt env.max_w) (FloatOps.ofInt env.max_h)
        env.Scene_texture_u_scale env.Scene_texture_v_scale
    else
      .draw_textured_quad (FloatOps.lit 0 1) (FloatOps.lit 0 1) (FloatOps.lit 0 1)
        env.Scene_texture_v_scale (FloatOps.ofInt env.max_w) (FloatOps.ofInt env.max_h)
        env.Scene_texture_u_scale (FloatOps.lit 0 1) ]

/-- The calls of `opengl_post_pass_smaa`. -/
def smaa_calls (env : Env F) (s : PostState F) : List (GLCall F) :=
  aa_recompile_calls env s ++
  [ .PushFramebufferState,
    .ColorMask,
    .set_generic_uniform_data (.smaa (FloatOps.ofInt s.Post_texture_width)
      (FloatOps.ofInt s.Post_texture_height)) ] ++
  smaa_stage_calls env s ++ [.PopFramebufferState] ++ smaa_resolve_calls env s

/-- Whether the loop of `opengl_post_lightshafts` draws for the light: it has glare and its
dot product with the view forward axis exceeds `0.7f`. -/
def lightshaft_qualifies (l : global_light F) : Bool :=
  l.has_glare && FloatOps.gt l.dot_fvec (FloatOps.lit 7 1)

/-- The calls the loop of `opengl_post_lightshafts` issues for the light it draws (lines
486-510). -/
def lightshaft_calls (env : Env F) (s : PostState F) (l : global_light F) : List (GLCall F) :=
  [ .set_generic_uniform_data (.lightshaft
      (FloatOps.add (FloatOps.mul (FloatOps.div l.asin_dot_rvec env.PI) (FloatOps.lit 15 1))
        (FloatOps.lit 5 1))
      (FloatOps.add (FloatOps.mul (FloatOps.mul (FloatOps.div l.asin_dot_uvec env.PI)
        (FloatOps.lit 15 1)) env.clip_aspect) (FloatOps.lit 5 1))
      s.ls_density s.ls_falloff s.ls_weight (FloatOps.mul env.Sun_spot s.ls_intensity)
      (FloatOps.mul env.Sun_spot s.ls_cpintensity)),
    .setTextureUniform "scene" 0,
    .setTextureUniform "cockpit" 1,
    .Texture_Enable 0 env.Scene_depth_texture,
    .Texture_Enable 1 env.Cockpit_depth_texture,
    .draw_full_screen_textured (FloatOps.lit 0 1) (FloatOps.lit 0 1)
      env.Scene_texture_u_scale env.Scene_texture_u_scale ]

/-- The condition under which `opengl_post_lightshafts` enters its loop (line 468). -/
def lightshafts_enabled (s : PostState F) : Bool :=
  !s.Game_subspace_effect && s.ls_on && !s.ls_force_off

/-- The light `opengl_post_lightshafts` draws for, if any. -/
def lightshafts_light (env : Env F) (s : PostState F) : Option (global_light F) :=
  if lightshafts_enabled s then env.lights.find? lightshaft_qualifies else none

/-- The calls of `opengl_post_lightshafts`. -/
def lightshafts_calls (env : Env F) (s : PostState F) : List (GLCall F) :=
  [ .maybe_create_shader .SDR_TYPE_POST_PROCESS_LIGHTSHAFTS 0,
    .shader_set_current (some (env.maybe_create_shader .SDR_TYPE_POST_PROCESS_LIGHTSHAFTS 0)) ] ++
  (match lightshafts_light env s with
   | some l => lightshaft_calls env s l
   | none => [])

/-- The device state `opengl_post_lightshafts` leaves: blending off in additive mode after a
draw, unchanged without one. -/
def opengl_state.after_lightshafts (g : opengl_state) (drawn : Bool) : opengl_state :=
  if drawn then { g with blend := false, alpha_blend_mode := .ALPHA_BLEND_ADDITIVE } else g

/-- Three lights with glare, at the dot products 0.7, 0.701 and 0.9 with the view forward
axis. -/
def example_lights : List (global_light XFloat) :=
  [ { has_glare := true, dot_fvec := .fin (7 / 10), asin_dot_rvec := .fin 0,
      asin_dot_uvec := .fin 0 },
    { has_glare := true, dot_fvec := .fin (701 / 1000), asin_dot_rvec := .fin (1 / 10),
      asin_dot_uvec := .fin 0 },
    { has_glare := true, dot_fvec := .fin (9 / 10), asin_dot_rvec := .fin (2 / 10),
      asin_dot_uvec := .fin 0 } ]

/-- The example environment with the three example lights. -/
def example_lights_env : Env XFloat := { example_env with lights := example_lights }

/-- The example state with light shafts switched on. -/
def example_lights_state : PostState XFloat := { example_state with ls_on := true }

/-- Whether `gr_opengl_post_process_end` runs an antialiasing pass (lines 538-545). -/
def aa_pass_runs (s : PostState F) : Bool :=
  !s.GL_rendering_to_texture &&
    (gr_is_smaa_mode s.Gr_aa_mode || (gr_is_fxaa_mode s.Gr_aa_mode && !s.fxaa_unavailable))

/-- The calls of the antialiasing step of `gr_opengl_post_process_end` (lines 538-545). -/
def aa_calls (env : Env F) (s : PostState F) : List (GLCall F) :=
  if !s.GL_rendering_to_texture then
    if gr_is_smaa_mode s.Gr_aa_mode then smaa_calls env s
    else if gr_is_fxaa_mode s.Gr_aa_mode && !s.fxaa_unavailable then fxaa_calls env s
    else []
  else []

/-- The calls of `post_process_end_passes`. -/
def end_passes_calls (env : Env F) (s : PostState F) : List (GLCall F) :=
  [.PushFramebufferState] ++ bloom_calls env s ++ tonemap_calls env ++ aa_calls env s ++
    lightshafts_calls env s ++ [.PopFramebufferState, .glClearColor, .glClear true false]

/-- The calls of `gr_opengl_post_process_end`: those of the passes, the request for the
always-on variant when nothing is pinned, and those of the final composite. -/
def post_process_end_calls (env : Env F) (s : PostState F) : List (GLCall F) :=
  end_passes_calls env s ++
  (if s.Post_active_shader_index < 0 then
    [GLCall.maybe_create_shader .SDR_TYPE_POST_PROCESS_MAIN (always_on_flags 0 0 s.Post_effects)]
   else []) ++
  final_composite_calls env (post_sdr_handle env s) s.Post_effects

/-- The calls of `gr_opengl_post_process_begin` when it opens a frame. -/
def post_process_begin_calls (s : PostState F) : List (GLCall F) :=
  [ .PushFramebufferState,
    .BindFrameBuffer s.Post_framebuffer_id.1,
    .glDrawBuffer,
    .glClearColor,
    .glClear true true ]

/-- Modelled from the spec: the effect of `GL_state.PopFramebufferState()` on the cached
device state, as in `GL_state_PopFramebufferState`. -/
def opengl_state.pop (g : opengl_state) : opengl_state :=
  match g.framebuffer_stack with
  | [] => { g with framebuffer_stack_underflow := true }
  | fb :: rest => { g with current_framebuffer := fb, framebuffer_stack := rest }

/-- The calls of `post_process_end_composite`: the request for the always-on variant when
nothing is pinned, then the final composite up to its draw. -/
def end_composite_calls_list (env : Env F) (s : PostState F) : List (GLCall F) :=
  (if s.Post_active_shader_index < 0 then
    [GLCall.maybe_create_shader .SDR_TYPE_POST_PROCESS_MAIN (always_on_flags 0 0 s.Post_effects)]
   else []) ++
  (final_composite_calls env (post_sdr_handle env s) s.Post_effects).dropLast

/-- A call as the framebuffer bookkeeping sees it: a checkpoint push or pop, a binding, or a
draw. -/
inductive fb_op
  | push
  | pop
  | bind (id : Nat)
  | draw
  deriving DecidableEq, Repr

/-- The framebuffer operation of a call, if it is one. -/
def GLCall.fb_op : GLCall F → Option fb_op
  | .PushFramebufferState => some .push
  | .PopFramebufferState => some .pop
  | .BindFrameBuffer id => some (.bind id)
  | .draw_full_screen_textured _ _ _ _ => some .draw
  | .draw_textured_quad _ _ _ _ _ _ _ _ => some .draw
  | _ => none

/-- The framebuffer operations of a call record, in order. -/
def fb_trace (l : List (GLCall F)) : List fb_op :=
  l.filterMap GLCall.fb_op

/-- The framebuffer bookkeeping replayed over a trace: the current binding, the checkpoint
stack, whether a pop ever found the stack empty, and the binding each draw was issued
with. -/
structure fb_state where
  current : Nat
  stack : List Nat
  underflow : Bool
  draws : List Nat
  deriving DecidableEq, Repr

/-- Modelled from the spec: one framebuffer operation, with the push, pop and bind of
`GL_state_PushFramebufferState`, `GL_state_PopFramebufferState` and
`GL_state_BindFrameBuffer`; a draw records the binding it is issued with. -/
def fb_state.step (v : fb_state) : fb_op → fb_state
  | .push => { v with stack := v.current :: v.stack }
  | .pop =>
    match v.stack with
    | [] => { v with underflow := true }
    | fb :: rest => { v with current := fb, stack := rest }
  | .bind id => { v with current := id }
  | .draw => { v with draws := v.draws ++ [v.current] }

/-- Replay a trace from the state `v`. -/
def fb_state.run (v : fb_state) (ops : List fb_op) : fb_state :=
  ops.foldl fb_state.step v

/-- The handle a call deletes from the shader cache, if it deletes one. -/
def GLCall.deleted : GLCall F → Option Int
  | .delete_shader handle => some handle
  | _ => none

/-- The variant (kind and flags) a call requests from the shader cache, if it requests
one. -/
def GLCall.requested : GLCall F → Option (shader_type × Nat)
  | .maybe_create_shader t flags => some (t, flags)
  | _ => none

/-- The five kinds of the antialiasing shaders: FXAA, the FXAA prepass and the three SMAA
stages. -/
def shader_type.is_aa : shader_type → Bool
  | .SDR_TYPE_POST_PROCESS_FXAA => true
  | .SDR_TYPE_POST_PROCESS_FXAA_PREPASS => true
  | .SDR_TYPE_POST_PROCESS_SMAA_EDGE => true
  | .SDR_TYPE_POST_PROCESS_SMAA_BLENDING_WEIGHT => true
  | .SDR_TYPE_POST_PROCESS_SMAA_NEIGHBORHOOD_BLENDING => true
  | _ => false

/-- The requests among `calls` for a variant of an antialiasing kind, in call order. -/
def aa_requests (calls : List (GLCall F)) : List (shader_type × Nat) :=
  (calls.filterMap GLCall.requested).filter (fun p => p.1.is_aa)

/-- The framebuffer operations of the antialiasing step of a frame. -/
def aa_fb_trace (s : PostState F) : List fb_op :=
  if !s.GL_rendering_to_texture then
    if gr_is_smaa_mode s.Gr_aa_mode then
      [ .push, .bind s.Smaa_edge_detection_fb, .draw, .bind s.Smaa_blending_weight_fb, .draw,
        .bind s.Smaa_neighborhood_blending_fb, .draw, .pop, .draw ]
    else if gr_is_fxaa_mode s.Gr_aa_mode && !s.fxaa_unavailable then [.draw, .draw]
    else []
  else []

/-- The example state with the last-frame tracker `old` and the current mode `new`. -/
def example_aa_state (old new : AntiAliasMode) : PostState XFloat :=
  { example_state with Gr_aa_mode_last_frame := old, Gr_aa_mode := new }

/-! ## Initialisation and shutdown (lines 1024-1356) -/

/-- Append a sequence of calls to the call record. -/
def PostState.call_seq (s : PostState F) (cs : List (GLCall F)) : PostState F :=
  { s with calls := s.calls ++ cs }

/-- The number of names a call asks `glGenTextures` for. -/
def GLCall.textures_generated : GLCall F → Nat
  | .glGenTextures n => n
  | _ => 0

/-- The number of names a call asks `glGenFramebuffers` for. -/
def GLCall.framebuffers_generated : GLCall F → Nat
  | .glGenFramebuffers n => n
  | _ => 0

/-- The number of texture names handed out in a call record. -/
def textures_generated (l : List (GLCall F)) : Nat :=
  (l.map GLCall.textures_generated).sum

/-- The number of framebuffer names handed out in a call record. -/
def framebuffers_generated (l : List (GLCall F)) : Nat :=
  (l.map GLCall.framebuffers_generated).sum

/-- The short-circuit test of lines 1042-1045: the four bloom variants are requested in turn
until one comes back negative; the first component tells whether one did. -/
def init_shaders_bloom (env : Env F) (s : PostState F) : Bool × PostState F :=
  let r := gr_opengl_maybe_create_shader env .SDR_TYPE_POST_PROCESS_BRIGHTPASS 0 s
  if r.1 < 0 then (true, r.2)
  else
    let r := gr_opengl_maybe_create_shader env .SDR_TYPE_POST_PROCESS_BLUR
      env.SDR_FLAG_BLUR_HORIZONTAL r.2
    if r.1 < 0 then (true, r.2)
    else
      let r := gr_opengl_maybe_create_shader env .SDR_TYPE_POST_PROCESS_BLUR
        env.SDR_FLAG_BLUR_VERTICAL r.2
      if r.1 < 0 then (true, r.2)
      else
        let r := gr_opengl_maybe_create_shader env .SDR_TYPE_POST_PROCESS_BLOOM_COMP 0 r.2
        (decide (r.1 < 0), r.2)

/-- The function `opengl_post_init_shaders()`. -/
def opengl_post_init_shaders (env : Env F) (s : PostState F) : Bool × PostState F :=
  let flags := always_on_flags 0 0 s.Post_effects
  let r := gr_opengl_maybe_create_shader env .SDR_TYPE_POST_PROCESS_MAIN flags s
  if r.1 < 0 then (false, r.2)
  else
    let r := init_shaders_bloom env r.2
    let s := if r.1 then { r.2 with Cmdline_bloom_intensity := 0 } else r.2
    let s :=
      if gr_is_fxaa_mode s.Gr_aa_mode then
        let s := (gr_opengl_maybe_create_shader env .SDR_TYPE_POST_PROCESS_FXAA 0 s).2
        (gr_opengl_maybe_create_shader env .SDR_TYPE_POST_PROCESS_FXAA_PREPASS 0 s).2
      else s
    let s :=
      if gr_is_smaa_mode s.Gr_aa_mode then
        let s := (gr_opengl_maybe_create_shader env .SDR_TYPE_POST_PROCESS_SMAA_EDGE 0 s).2
        let s := (gr_opengl_maybe_create_shader env
          .SDR_TYPE_POST_PROCESS_SMAA_BLENDING_WEIGHT 0 s).2
        (gr_opengl_maybe_create_shader env
          .SDR_TYPE_POST_PROCESS_SMAA_NEIGHBORHOOD_BLENDING 0 s).2
      else s
    (true, s)

/-- The body of the loop of `opengl_setup_bloom_textures` (lines 1078-1092). -/
def setup_bloom_texture (width height : Int) (s : PostState F) (tex : Nat) : PostState F :=
  s.call_seq
    [ .Texture_SetActiveUnit 0,
      .Texture_SetTarget,
      .Texture_Enable_target (s.Bloom_texture tex),
      .glTexImage2D "GL_RGBA16F" width height,
      .glGenerateMipmap,
      .glTexParameteri "GL_TEXTURE_MIN_FILTER" (.inr "GL_LINEAR_MIPMAP_LINEAR"),
      .glTexParameteri "GL_TEXTURE_MAG_FILTER" (.inr "GL_LINEAR"),
      .glTexParameteri "GL_TEXTURE_WRAP_S" (.inr "GL_CLAMP_TO_EDGE"),
      .glTexParameteri "GL_TEXTURE_WRAP_T" (.inr "GL_CLAMP_TO_EDGE"),
      .glTexParameteri "GL_TEXTURE_WRAP_R" (.inr "GL_CLAMP_TO_EDGE"),
      .glTexParameteri "GL_TEXTURE_MAX_LEVEL" (.inl ((MAX_MIP_BLUR_LEVELS : Int) - 1)) ]

/-- The function `opengl_setup_bloom_textures()`. -/
def opengl_setup_bloom_textures (env : Env F) (s : PostState F) : PostState F :=
  let s : PostState F := { s.call (.glGenFramebuffers 1) with
    Bloom_framebuffer := env.framebuffer_name (framebuffers_generated s.calls) }
  let s : PostState F := { s.call (.glGenTextures 2) with
    Bloom_textures := (env.texture_name (textures_generated s.calls),
      env.texture_name (textures_generated s.calls + 1)) }
  let width : Int := s.Post_texture_width >>> 1
  let height : Int := s.Post_texture_height >>> 1
  let s := (List.range 2).foldl (setup_bloom_texture width height) s
  GL_state_BindFrameBuffer 0 s

/-- The allocation and the sampling parameters the SMAA texture setups share (lines
1107-1118, 1139-1150, 1171-1182): storage of the size of the scene for a render target. -/
def smaa_target_storage (env : Env F) (s : PostState F) : PostState F :=
  let s :=
    if env.GLAD_GL_ARB_texture_storage then
      s.call (.glTexStorage2D "GL_RGBA8" s.Post_texture_width s.Post_texture_height)
    else
      s.call_seq
        [ .glTexParameteri "GL_TEXTURE_BASE_LEVEL" (.inl 0),
          .glTexParameteri "GL_TEXTURE_MAX_LEVEL" (.inl 0),
          .glTexImage2D "GL_RGBA8" s.Post_texture_width s.Post_texture_height ]
  s.call_seq
    [ .glTexParameteri "GL_TEXTURE_WRAP_S" (.inr "GL_CLAMP_TO_EDGE"),
      .glTexParameteri "GL_TEXTURE_WRAP_T" (.inr "GL_CLAMP_TO_EDGE"),
      .glTexParameteri "GL_TEXTURE_MAG_FILTER" (.inr "GL_LINEAR"),
      .glTexParameteri "GL_TEXTURE_MIN_FILTER" (.inr "GL_LINEAR") ]

/-- The function `setup_smaa_edges_resources()`. -/
def setup_smaa_edges_resources (env : Env F) (s : PostState F) : PostState F :=
  let s : PostState F := { s.call (.glGenTextures 1) with
    Smaa_edges_tex := env.texture_name (textures_generated s.calls) }
  let s := s.call_seq
    [ .Texture_SetActiveUnit 0,
      .Texture_SetTarget,
      .Texture_Enable_target s.Smaa_edges_tex,
      .set_object_label s.Smaa_edges_tex "SMAA Edge detection texture" ]
  let s := smaa_target_storage env s
  let s : PostState F := { s.call (.glGenFramebuffers 1) with
    Smaa_edge_detection_fb := env.framebuffer_name (framebuffers_generated s.calls) }
  let s := GL_state_BindFrameBuffer s.Smaa_edge_detection_fb s
  s.call_seq
    [ .set_object_label s.Smaa_edge_detection_fb "SMAA Edge detection framebuffer",
      .glFramebufferTexture2D s.Smaa_edges_tex 0,
      .glDrawBuffer ]

/-- The function `setup_smaa_blending_weight_resources()`. -/
def setup_smaa_blending_weight_resources (env : Env F) (s : PostState F) : PostState F :=
  let s : PostState F := { s.call (.glGenTextures 1) with
    Smaa_blend_tex := env.texture_name (textures_generated s.calls) }
  let s := s.call_seq
    [ .Texture_SetActiveUnit 0,
      .Texture_SetTarget,
      .Texture_Enable_target s.Smaa_blend_tex,
      .set_object_label s.Smaa_blend_tex "SMAA Blending weight calculation texture" ]
  let s := smaa_target_storage env s
  let s : PostState F := { s.call (.glGenFramebuffers 1) with
    Smaa_blending_weight_fb := env.framebuffer_name (framebuffers_generated s.calls) }
  let s := GL_state_BindFrameBuffer s.Smaa_blending_weight_fb s
  s.call_seq
    [ .set_object_label s.Smaa_blending_weight_fb
        "SMAA Blending widght calculation framebuffer",
      .glFramebufferTexture2D s.Smaa_blend_tex 0,
      .glDrawBuffer ]

/-- The function `setup_smaa_neighborhood_blending_resources()`. -/
def setup_smaa_neighborhood_blending_resources (env : Env F) (s : PostState F) :
    PostState F :=
  let s : PostState F := { s.call (.glGenTextures 1) with
    Smaa_output_tex := env.texture_name (textures_generated s.calls) }
  let s := s.call_seq
    [ .Texture_SetActiveUnit 0,
      .Texture_SetTarget,
      .Texture_Enable_target s.Smaa_output_tex,
      .set_object_label s.Smaa_output_tex "SMAA output texture" ]
  let s := smaa_target_storage env s
  let s : PostState F := { s.call (.glGenFramebuffers 1) with
    Smaa_neighborhood_blending_fb := env.framebuffer_name (framebuffers_generated s.calls) }
  let s := GL_state_BindFrameBuffer s.Smaa_neighborhood_blending_fb s
  s.call_seq
    [ .set_object_label s.Smaa_neighborhood_blending_fb
        "SMAA neighborhood blending framebuffer",
      .glFramebufferTexture2D s.Smaa_output_tex 0,
      .glDrawBuffer ]

/-- The function `load_smaa_texture(width, height, format, pixels, name)`; `rg8` tells
whether `format` is `GL_RG8` (otherwise it is `GL_R8`).  The new name is returned. -/
def load_smaa_texture (env : Env F) (width height : Int) (rg8 : Bool) (name : String)
    (s : PostState F) : Nat × PostState F :=
  let tex := env.texture_name (textures_generated s.calls)
  let format := if rg8 then "GL_RG8" else "GL_R8"
  let s := s.call (.glGenTextures 1)
  let s := s.call_seq
    [ .Texture_SetActiveUnit 0,
      .Texture_SetTarget,
      .Texture_Enable_target tex,
      .set_object_label tex name ]
  let s :=
    if env.GLAD_GL_ARB_texture_storage then
      s.call (.glTexStorage2D format width height)
    else
      s.call_seq
        [ .glTexParameteri "GL_TEXTURE_BASE_LEVEL" (.inl 0),
          .glTexParameteri "GL_TEXTURE_MAX_LEVEL" (.inl 0),
          .glTexImage2D format s.Post_texture_width s.Post_texture_height ]
  let s := s.call_seq
    [ .glTexSubImage2D width height (if rg8 then "GL_RG" else "GL_RED"),
      .glTexParameteri "GL_TEXTURE_WRAP_S" (.inr "GL_CLAMP_TO_EDGE"),
      .glTexParameteri "GL_TEXTURE_WRAP_T" (.inr "GL_CLAMP_TO_EDGE"),
      .glTexParameteri "GL_TEXTURE_MAG_FILTER" (.inr "GL_LINEAR"),
      .glTexParameteri "GL_TEXTURE_MIN_FILTER" (.inr "GL_LINEAR") ]
  (tex, s)

/-- The function `setup_smaa_resources()`. -/
def setup_smaa_resources (env : Env F) (s : PostState F) : PostState F :=
  let s := GL_state_PushFramebufferState s
  let r := load_smaa_texture env env.AREATEX_WIDTH env.AREATEX_HEIGHT true
    "SMAA Area Texture" s
  let s : PostState F := { r.2 with Smaa_area_tex := r.1 }
  let r := load_smaa_texture env env.SEARCHTEX_WIDTH env.SEARCHTEX_HEIGHT false
    "SMAA Search Texture" s
  let s : PostState F := { r.2 with Smaa_search_tex := r.1 }
  let s := setup_smaa_edges_resources env s
  let s := setup_smaa_blending_weight_resources env s
  let s := setup_smaa_neighborhood_blending_resources env s
  GL_state_PopFramebufferState s

/-- The function `opengl_post_init_framebuffer()`; the first component is `rval`. -/
def opengl_post_init_framebuffer (env : Env F) (s : PostState F) : Bool × PostState F :=
  let s : PostState F := { s with Post_texture_width := env.max_w, Post_texture_height := env.max_h }
  let s :=
    if s.Post_texture_width > env.GL_max_renderbuffer_size then
      { s with Post_texture_width := env.GL_max_renderbuffer_size }
    else s
  let s :=
    if s.Post_texture_height > env.GL_max_renderbuffer_size then
      { s with Post_texture_height := env.GL_max_renderbuffer_size }
    else s
  let s := opengl_setup_bloom_textures env s
  let s := if s.Gr_aa_mode ≠ .None then setup_smaa_resources env s else s
  let s := GL_state_BindFrameBuffer 0 s
  (if env.opengl_check_for_errors then false else true, s)

/-- The function `opengl_post_process_shutdown_bloom()`. -/
def opengl_post_process_shutdown_bloom (s : PostState F) : PostState F :=
  let s :=
    if s.Bloom_textures.1 ≠ 0 then
      { s.call (.glDeleteTextures s.Bloom_textures.1) with
        Bloom_textures := (0, s.Bloom_textures.2) }
    else s
  let s :=
    if s.Bloom_textures.2 ≠ 0 then
      { s.call (.glDeleteTextures s.Bloom_textures.2) with
        Bloom_textures := (s.Bloom_textures.1, 0) }
    else s
  if s.Bloom_framebuffer > 0 then
    { s.call (.glDeleteFramebuffers s.Bloom_framebuffer) with Bloom_framebuffer := 0 }
  else s

/-- The function `opengl_post_process_init()`, reading the table `tbl`. -/
def opengl_post_process_init (env : Env F) (tbl : post_processing_tbl F) (s : PostState F) :
    PostState F :=
  let s : PostState F := { s with Post_initialized := false }
  let r := opengl_post_init_table tbl s
  if !r.1 then
    { r.2.logmsg .unable_to_read_table with Gr_post_processing_enabled := false }
  else if !r.2.Gr_post_processing_enabled then r.2
  else if !env.Scene_texture_initialized then r.2
  else if env.Cmdline_no_fbo then { r.2 with Gr_post_processing_enabled := false }
  else
    let r := opengl_post_init_shaders env r.2
    if !r.1 then
      { r.2.logmsg .unable_to_initialize_shaders with Gr_post_processing_enabled := false }
    else
      let r := opengl_post_init_framebuffer env r.2
      if !r.1 then
        { r.2.logmsg .unable_to_initialize_framebuffer with
          Gr_post_processing_enabled := false }
      else { r.2 with Post_initialized := true }

/-- The function `opengl_post_process_shutdown()`. -/
def opengl_post_process_shutdown (s : PostState F) : PostState F :=
  if !s.Post_initialized then s
  else
    let s :=
      if s.Post_framebuffer_id.1 ≠ 0 then
        let s : PostState F := { s.call (.glDeleteFramebuffers s.Post_framebuffer_id.1) with
          Post_framebuffer_id := (0, s.Post_framebuffer_id.2) }
        if s.Post_framebuffer_id.2 ≠ 0 then
          { s.call (.glDeleteFramebuffers s.Post_framebuffer_id.2) with
            Post_framebuffer_id := (s.Post_framebuffer_id.1, 0) }
        else s
      else s
    let s : PostState F := { s with Post_effects := [] }
    let s := opengl_post_process_shutdown_bloom s
    { s with Post_in_frame := false, Post_active_shader_index := 0, Post_initialized := false }

/-- The name a call releases with `glDeleteTextures` or `glDeleteFramebuffers`, if it
releases one. -/
def GLCall.released : GLCall F → Option Nat
  | .glDeleteTextures tex => some tex
  | .glDeleteFramebuffers id => some id
  | _ => none

/-- The surface and framebuffer handles the pipeline owns, in the order: post framebuffers,
bloom framebuffer, bloom textures, SMAA edge, blend and output textures, their three
framebuffers, SMAA area and search textures. -/
def PostState.owned_handles (s : PostState F) : List Nat :=
  [ s.Post_framebuffer_id.1, s.Post_framebuffer_id.2, s.Bloom_framebuffer,
    s.Bloom_textures.1, s.Bloom_textures.2, s.Smaa_edges_tex, s.Smaa_blend_tex,
    s.Smaa_output_tex, s.Smaa_edge_detection_fb, s.Smaa_blending_weight_fb,
    s.Smaa_neighborhood_blending_fb, s.Smaa_area_tex, s.Smaa_search_tex ]

/-- A table without sections: only the `#End` marker. -/
def example_empty_tbl : post_processing_tbl XFloat :=
  { effects := none, ship_effects := none, light_shafts := none, end_marker := .ok () }

/-- A state before the first initialisation: no handle is allocated, post-processing is
enabled and the SMAA-High mode is selected. -/
def example_fresh_state : PostState XFloat :=
  { example_state_with [] false with
    Post_initialized := false
    Bloom_framebuffer := 0
    Bloom_textures := (0, 0)
    Post_framebuffer_id := (0, 0)
    Gr_aa_mode := .SMAA_High }

/-- The example environment with the error check after the framebuffer setup failing. -/
def example_failing_env : Env XFloat :=
  { example_env with opengl_check_for_errors := true }

/-- The calls of `opengl_post_process_shutdown_bloom`. -/
def shutdown_bloom_calls (s : PostState F) : List (GLCall F) :=
  (if s.Bloom_textures.1 ≠ 0 then [GLCall.glDeleteTextures s.Bloom_textures.1] else []) ++
  (if s.Bloom_textures.2 ≠ 0 then [GLCall.glDeleteTextures s.Bloom_textures.2] else []) ++
  (if s.Bloom_framebuffer > 0 then [GLCall.glDeleteFramebuffers s.Bloom_framebuffer] else [])

/-- The calls of `opengl_post_process_shutdown` on an initialized pipeline. -/
def shutdown_calls (s : PostState F) : List (GLCall F) :=
  (if s.Post_framebuffer_id.1 ≠ 0 then
    GLCall.glDeleteFramebuffers s.Post_framebuffer_id.1 ::
      (if s.Post_framebuffer_id.2 ≠ 0 then [GLCall.glDeleteFramebuffers s.Post_framebuffer_id.2]
       else [])
   else []) ++
  shutdown_bloom_calls s

/-- The calls of `setup_bloom_texture` for the texture `tex`. -/
def setup_bloom_texture_calls (width height : Int) (tex : Nat) : List (GLCall F) :=
  [ .Texture_SetActiveUnit 0,
    .Texture_SetTarget,
    .Texture_Enable_target tex,
    .glTexImage2D "GL_RGBA16F" width height,
    .glGenerateMipmap,
    .glTexParameteri "GL_TEXTURE_MIN_FILTER" (.inr "GL_LINEAR_MIPMAP_LINEAR"),
    .glTexParameteri "GL_TEXTURE_MAG_FILTER" (.inr "GL_LINEAR"),
    .glTexParameteri "GL_TEXTURE_WRAP_S" (.inr "GL_CLAMP_TO_EDGE"),
    .glTexParameteri "GL_TEXTURE_WRAP_T" (.inr "GL_CLAMP_TO_EDGE"),
    .glTexParameteri "GL_TEXTURE_WRAP_R" (.inr "GL_CLAMP_TO_EDGE"),
    .glTexParameteri "GL_TEXTURE_MAX_LEVEL" (.inl ((MAX_MIP_BLUR_LEVELS : Int) - 1)) ]

/-- The calls of `opengl_setup_bloom_textures` for a scene of size `w` by `h`, when the
driver hands out the texture names `t0`, `t1`. -/
def setup_bloom_calls (w h : Int) (t0 t1 : Nat) : List (GLCall F) :=
  [.glGenFramebuffers 1, .glGenTextures 2] ++
  setup_bloom_texture_calls (w >>> 1) (h >>> 1) t0 ++
  setup_bloom_texture_calls (w >>> 1) (h >>> 1) t1 ++ [.BindFrameBuffer 0]

/-- The calls of `smaa_target_storage` for a scene of size `w` by `h`. -/
def smaa_target_storage_calls (env : Env F) (w h : Int) : List (GLCall F) :=
  (if env.GLAD_GL_ARB_texture_storage then [GLCall.glTexStorage2D "GL_RGBA8" w h]
   else
    [ GLCall.glTexParameteri "GL_TEXTURE_BASE_LEVEL" (.inl 0),
      GLCall.glTexParameteri "GL_TEXTURE_MAX_LEVEL" (.inl 0),
      GLCall.glTexImage2D "GL_RGBA8" w h ]) ++
  [ .glTexParameteri "GL_TEXTURE_WRAP_S" (.inr "GL_CLAMP_TO_EDGE"),
    .glTexParameteri "GL_TEXTURE_WRAP_T" (.inr "GL_CLAMP_TO_EDGE"),
    .glTexParameteri "GL_TEXTURE_MAG_FILTER" (.inr "GL_LINEAR"),
    .glTexParameteri "GL_TEXTURE_MIN_FILTER" (.inr "GL_LINEAR") ]

/-- The calls of one of the three SMAA render target setups, for the new texture `tex`, the
new framebuffer `fb` and their labels. -/
def smaa_target_calls (env : Env F) (w h : Int) (tex fb : Nat) (tex_label fb_label : String) :
    List (GLCall F) :=
  [ .glGenTextures 1,
    .Texture_SetActiveUnit 0,
    .Texture_SetTarget,
    .Texture_Enable_target tex,
    .set_object_label tex tex_label ] ++
  smaa_target_storage_calls env w h ++
  [ .glGenFramebuffers 1,
    .BindFrameBuffer fb,
    .set_object_label fb fb_label,
    .glFramebufferTexture2D tex 0,
    .glDrawBuffer ]

/-- The calls of `load_smaa_texture` for the new texture `tex`. -/
def load_smaa_texture_calls (env : Env F) (w h : Int) (width height : Int) (rg8 : Bool)
    (name : String) (tex : Nat) : List (GLCall F) :=
  [ .glGenTextures 1,
    .Texture_SetActiveUnit 0,
    .Texture_SetTarget,
    .Texture_Enable_target tex,
    .set_object_label tex name ] ++
  (if env.GLAD_GL_ARB_texture_storage then
    [GLCall.glTexStorage2D (if rg8 then "GL_RG8" else "GL_R8") width height]
   else
    [ GLCall.glTexParameteri "GL_TEXTURE_BASE_LEVEL" (.inl 0),
      GLCall.glTexParameteri "GL_TEXTURE_MAX_LEVEL" (.inl 0),
      GLCall.glTexImage2D (if rg8 then "GL_RG8" else "GL_R8") w h ]) ++
  [ .glTexSubImage2D width height (if rg8 then "GL_RG" else "GL_RED"),
    .glTexParameteri "GL_TEXTURE_WRAP_S" (.inr "GL_CLAMP_TO_EDGE"),
    .glTexParameteri "GL_TEXTURE_WRAP_T" (.inr "GL_CLAMP_TO_EDGE"),
    .glTexParameteri "GL_TEXTURE_MAG_FILTER" (.inr "GL_LINEAR"),
    .glTexParameteri "GL_TEXTURE_MIN_FILTER" (.inr "GL_LINEAR") ]

/-- The calls of `setup_smaa_resources` for a scene of size `w` by `h`, when the driver
hands out texture names from `env.texture_name tg` on and framebuffer names from
`env.framebuffer_name fg` on. -/
def setup_smaa_calls (env : Env F) (w h : Int) (tg fg : Nat) : List (GLCall F) :=
  [.PushFramebufferState] ++
  load_smaa_texture_calls env w h env.AREATEX_WIDTH env.AREATEX_HEIGHT true
    "SMAA Area Texture" (env.texture_name tg) ++
  load_smaa_texture_calls env w h env.SEARCHTEX_WIDTH env.SEARCHTEX_HEIGHT false
    "SMAA Search Texture" (env.texture_name (tg + 1)) ++
  smaa_target_calls env w h (env.texture_name (tg + 2)) (env.framebuffer_name fg)
    "SMAA Edge detection texture" "SMAA Edge detection framebuffer" ++
  smaa_target_calls env w h (env.texture_name (tg + 3)) (env.framebuffer_name (fg + 1))
    "SMAA Blending weight calculation texture"
    "SMAA Blending widght calculation framebuffer" ++
  smaa_target_calls env w h (env.texture_name (tg + 4)) (env.framebuffer_name (fg + 2))
    "SMAA output texture" "SMAA neighborhood blending framebuffer" ++
  [.PopFramebufferState]

/-- The size `opengl_post_init_framebuffer` gives the scene along one axis (lines
1245-1254). -/
def clamp_size (env : Env F) (x : Int) : Int :=
  if x > env.GL_max_renderbuffer_size then env.GL_max_renderbuffer_size else x

/-- The calls of `opengl_post_init_framebuffer` when an antialiasing mode is selected, with
texture names handed out from `env.texture_name tg` on and framebuffer names from
`env.framebuffer_name fg` on. -/
def init_framebuffer_calls (env : Env F) (tg fg : Nat) : List (GLCall F) :=
  setup_bloom_calls (clamp_size env env.max_w) (clamp_size env env.max_h)
    (env.texture_name tg) (env.texture_name (tg + 1)) ++
  setup_smaa_calls env (clamp_size env env.max_w) (clamp_size env env.max_h) (tg + 2) (fg + 1) ++
  [.BindFrameBuffer 0]

/-- The fresh example state after the table stage of the initialisation. -/
def example_table_state : PostState XFloat :=
  { example_fresh_state with Ship_effects := [se1] }

/-- The fresh example state after the shader stage of the initialisation: the eight
variants of the SMAA-High mode are requested. -/
def example_shaders_state : PostState XFloat :=
  { example_table_state with
    calls :=
      [ .maybe_create_shader .SDR_TYPE_POST_PROCESS_MAIN 0,
        .maybe_create_shader .SDR_TYPE_POST_PROCESS_BRIGHTPASS 0,
        .maybe_create_shader .SDR_TYPE_POST_PROCESS_BLUR 1,
        .maybe_create_shader .SDR_TYPE_POST_PROCESS_BLUR 2,
        .maybe_create_shader .SDR_TYPE_POST_PROCESS_BLOOM_COMP 0,
        .maybe_create_shader .SDR_TYPE_POST_PROCESS_SMAA_EDGE 0,
        .maybe_create_shader .SDR_TYPE_POST_PROCESS_SMAA_BLENDING_WEIGHT 0,
        .maybe_create_shader .SDR_TYPE_POST_PROCESS_SMAA_NEIGHBORHOOD_BLENDING 0 ] }

/-- A table entry for an always-on saturation effect. -/
def example_always_on_entry : effect_entry XFloat :=
  { name := "saturation", uniform := "saturation", define := "FLAG_SATURATION",
    always_on := true, default_intensity := .fin 1, div := .fin 50, add := .fin 0,
    rgb := none }

/-- A table whose `#Effects` section holds one always-on effect. -/
def example_always_on_tbl : post_processing_tbl XFloat :=
  { effects := some [.ok example_always_on_entry]
    ship_effects := none
    light_shafts := none
    end_marker := .ok () }

/-- The pipeline after its first initialisation: `opengl_post_process_init` run on the fresh
example state with the one-effect table. -/
def example_first_init : PostState XFloat :=
  opengl_post_process_init example_env example_always_on_tbl example_fresh_state

/-- The pipeline after `opengl_post_process_shutdown` and a second
`opengl_post_process_init` with the same table. -/
def example_second_init : PostState XFloat :=
  opengl_post_process_init example_env example_always_on_tbl
    (opengl_post_process_shutdown example_first_init)

/-- The calls of `opengl_post_init_framebuffer` when no antialiasing mode is selected, with
texture names handed out from `env.texture_name tg` on. -/
def init_framebuffer_calls_none (env : Env F) (tg : Nat) : List (GLCall F) :=
  setup_bloom_calls (clamp_size env env.max_w) (clamp_size env env.max_h)
    (env.texture_name tg) (env.texture_name (tg + 1)) ++
  [.BindFrameBuffer 0]

/-! ## Lemmas on bit masks -/

theorem shl1_eq_two_pow {i : Nat} (h : i < 32) : shl1 i = 2 ^ i := by
  unfold shl1
  rw [Nat.one_shiftLeft]
  exact Nat.mod_eq_of_lt (Nat.pow_lt_pow_right (by norm_num) h)

theorem set_effect_flags_eq_mask_loop (es : List (post_effect_t F)) :
    ∀ idx f, set_effect_flags idx f es = mask_loop effect_active idx f es := by
  induction es with
  | nil => intro idx f; rfl
  | cons e es ih => intro idx f; simp only [set_effect_flags, mask_loop, effect_active, ih]

theorem always_on_flags_eq_mask_loop (es : List (post_effect_t F)) :
    ∀ idx f, always_on_flags idx f es = mask_loop (fun e => e.always_on) idx f es := by
  induction es with
  | nil => intro idx f; rfl
  | cons e es ih => intro idx f; simp only [always_on_flags, mask_loop, ih]

theorem mask_loop_testBit (p : post_effect_t F → Bool) (es : List (post_effect_t F)) :
    ∀ idx f, idx + es.length ≤ 32 → ∀ i,
      (mask_loop p idx f es).testBit i
        = (f.testBit i || (decide (idx ≤ i) && ((es[i - idx]?).map p).getD false)) := by
  induction es with
  | nil => intro idx f _ i; simp [mask_loop]
  | cons e es ih =>
    intro idx f h i
    have hlen : idx + 1 + es.length ≤ 32 := by simp at h; omega
    have hidx : idx < 32 := by omega
    simp only [mask_loop]
    rw [ih (idx + 1) _ hlen i]
    rcases Nat.lt_trichotomy i idx with hlt | heq | hgt
    · have h1 : ¬ idx + 1 ≤ i := by omega
      have h2 : ¬ idx ≤ i := by omega
      have h3 : idx ≠ i := by omega
      by_cases hp : p e = true
      · simp [hp, h1, h2, h3, shl1_eq_two_pow hidx, Nat.testBit_two_pow]
      · simp [hp, h1, h2]
    · subst heq
      have h1 : ¬ i + 1 ≤ i := by omega
      by_cases hp : p e = true
      · simp [hp, h1, shl1_eq_two_pow hidx, Nat.testBit_two_pow]
      · simp [hp, h1]
    · have h1 : idx + 1 ≤ i := by omega
      have h2 : idx ≤ i := by omega
      have h3 : idx ≠ i := by omega
      have h4 : i - idx = (i - (idx + 1)) + 1 := by omega
      by_cases hp : p e = true
      · simp [hp, h1, h2, h3, h4, shl1_eq_two_pow hidx, Nat.testBit_two_pow]
      · simp [hp, h1, h2, h4]

theorem getElem?_append_cons_length {α : Type} (x : α) (post : List α) :
    ∀ pre : List α, (pre ++ x :: post)[pre.length]? = some x := by
  intro pre
  induction pre with
  | nil => simp
  | cons y ys ih => simpa using ih

theorem mask_loop_testBit_iff (p : post_effect_t F → Bool) (es : List (post_effect_t F))
    (h : es.length ≤ 32) (i : Nat) :
    (mask_loop p 0 0 es).testBit i = true ↔ ∃ hi : i < es.length, p es[i] = true := by
  rw [mask_loop_testBit p es 0 0 (by omega) i]
  by_cases hi : i < es.length
  · simp [hi, List.getElem?_eq_getElem]
  · simp [hi, List.getElem?_eq_none (Nat.le_of_not_lt hi)]

/-! ## Lemmas on the effect lookup -/

theorem set_effect_lookup_split (name : String) (value : Int) (rgb : Option (vec3d F))
    (e : post_effect_t F) (post : List (post_effect_t F)) :
    ∀ pre : List (post_effect_t F), (∀ x ∈ pre, stricmp x.name name ≠ 0) →
      stricmp e.name name = 0 →
      set_effect_lookup name value rgb (pre ++ e :: post)
        = pre ++ set_effect_update value rgb e :: post := by
  intro pre
  induction pre with
  | nil => intro _ he; simp [set_effect_lookup, set_effect_update, he]
  | cons x xs ih =>
    intro hpre he
    have hx : stricmp x.name name ≠ 0 := hpre x (List.mem_cons_self _ _)
    have hxs : ∀ y ∈ xs, stricmp y.name name ≠ 0 :=
      fun y hy => hpre y (List.mem_cons_of_mem _ hy)
    simp [set_effect_lookup, hx, ih hxs he]

theorem set_effect_lookup_no_match (name : String) (value : Int) (rgb : Option (vec3d F)) :
    ∀ es : List (post_effect_t F), (∀ x ∈ es, stricmp x.name name ≠ 0) →
      set_effect_lookup name value rgb es = es := by
  intro es
  induction es with
  | nil => intro _; rfl
  | cons x xs ih =>
    intro h
    have hx : stricmp x.name name ≠ 0 := h x (List.mem_cons_self _ _)
    have hxs : ∀ y ∈ xs, stricmp y.name name ≠ 0 := fun y hy => h y (List.mem_cons_of_mem _ hy)
    simp [set_effect_lookup, hx, ih hxs]

theorem exists_first_match (name : String) :
    ∀ es : List (post_effect_t F), (∃ e ∈ es, stricmp e.name name = 0) →
      ∃ pre e post, es = pre ++ e :: post ∧ (∀ x ∈ pre, stricmp x.name name ≠ 0) ∧
        stricmp e.name name = 0 := by
  intro es
  induction es with
  | nil => intro h; obtain ⟨e, he, _⟩ := h; simp at he
  | cons x xs ih =>
    intro h
    by_cases hx : stricmp x.name name = 0
    · exact ⟨[], x, xs, rfl, by simp, hx⟩
    · obtain ⟨e, he, hm⟩ := h
      have hmem : e ∈ xs := by
        rcases List.mem_cons.mp he with heq | hmem
        · subst heq; exact absurd hm hx
        · exact hmem
      obtain ⟨pre, e2, post, hsplit, hpre, he2⟩ := ih ⟨e, hmem, hm⟩
      refine ⟨x :: pre, e2, post, by simp [hsplit], ?_, he2⟩
      intro y hy
      rcases List.mem_cons.mp hy with heq | hmem2
      · subst heq; exact hx
      · exact hpre y hmem2

theorem set_effect_lookup_length (name : String) (value : Int) (rgb : Option (vec3d F)) :
    ∀ es : List (post_effect_t F), (set_effect_lookup name value rgb es).length = es.length := by
  intro es
  induction es with
  | nil => rfl
  | cons x xs ih =>
    by_cases hx : stricmp x.name name = 0
    · simp [set_effect_lookup, hx]
    · simp [set_effect_lookup, hx, ih]

/-- The state `gr_opengl_post_process_set_effect` leaves for a name other than the reserved
one, in an initialised pipeline. -/
theorem set_effect_registry_path (env : Env F) (s : PostState F) (name : String) (value : Int)
    (rgb : Option (vec3d F)) (hinit : s.Post_initialized = true)
    (hname : stricmp "lightshafts" name ≠ 0) :
    gr_opengl_post_process_set_effect env (some name) value rgb s
      = { s with
          Post_effects := set_effect_lookup name value rgb s.Post_effects
          calls := s.calls ++ [GLCall.maybe_create_shader .SDR_TYPE_POST_PROCESS_MAIN
            (set_effect_flags 0 0 (set_effect_lookup name value rgb s.Post_effects))]
          Post_active_shader_index := env.maybe_create_shader .SDR_TYPE_POST_PROCESS_MAIN
            (set_effect_flags 0 0 (set_effect_lookup name value rgb s.Post_effects)) } := by
  simp [gr_opengl_post_process_set_effect, hinit, hname, gr_opengl_maybe_create_shader,
    PostState.call]

/-! ## C1 -/

/-- C1: in an initialised pipeline whose registry has at most 32 effects, the flag mask that
`gr_opengl_post_process_set_effect` hands to the shader cache (and whose handle it pins) has
bit `i` set exactly when `i` is below the registry size and effect `i` of the updated registry
is always-on or has an intensity that differs from its default; for the effect matched by
name, the bit is set exactly when `value / div + add != default` or the effect is always-on. -/
theorem set_effect_mask_bits (env : Env F) (s : PostState F) (name : String) (value : Int)
    (rgb : Option (vec3d F)) (hinit : s.Post_initialized = true)
    (hname : stricmp "lightshafts" name ≠ 0) (hsize : s.Post_effects.length ≤ 32) :
    ∃ m : Nat,
      (gr_opengl_post_process_set_effect env (some name) value rgb s).calls
        = s.calls ++ [GLCall.maybe_create_shader .SDR_TYPE_POST_PROCESS_MAIN m] ∧
      (gr_opengl_post_process_set_effect env (some name) value rgb s).Post_active_shader_index
        = env.maybe_create_shader .SDR_TYPE_POST_PROCESS_MAIN m ∧
      (∀ i : Nat, m.testBit i = true ↔
        ∃ hi : i < (gr_opengl_post_process_set_effect env (some name) value rgb
            s).Post_effects.length,
          ((gr_opengl_post_process_set_effect env (some name) value rgb
              s).Post_effects[i]).always_on = true ∨
          FloatOps.ne
            ((gr_opengl_post_process_set_effect env (some name) value rgb
              s).Post_effects[i]).intensity
            ((gr_opengl_post_process_set_effect env (some name) value rgb
              s).Post_effects[i]).default_intensity = true) ∧
      (∀ pre e post, s.Post_effects = pre ++ e :: post →
        (∀ x ∈ pre, stricmp x.name name ≠ 0) → stricmp e.name name = 0 →
        (m.testBit pre.length = true ↔
          (FloatOps.ne (FloatOps.add (FloatOps.div (FloatOps.ofInt value) e.div) e.add)
              e.default_intensity = true ∨ e.always_on = true))) := by
  rw [set_effect_registry_path env s name value rgb hinit hname]
  have hlen : (set_effect_lookup name value rgb s.Post_effects).length ≤ 32 := by
    rw [set_effect_lookup_length]; exact hsize
  refine ⟨set_effect_flags 0 0 (set_effect_lookup name value rgb s.Post_effects),
    rfl, rfl, ?_, ?_⟩
  · intro i
    rw [set_effect_flags_eq_mask_loop, mask_loop_testBit_iff _ _ hlen i]
    simp [effect_active]
  · intro pre e post hsplit hpre he
    have hlen2 : 0 + (set_effect_lookup name value rgb s.Post_effects).length ≤ 32 := by
      omega
    rw [set_effect_flags_eq_mask_loop, mask_loop_testBit _ _ 0 0 hlen2, hsplit,
      set_effect_lookup_split name value rgb e post pre hpre he, Nat.sub_zero,
      getElem?_append_cons_length]
    simp only [Nat.zero_testBit, Bool.false_or, Nat.zero_le, decide_True, Bool.true_and,
      Option.map, Option.getD_some, effect_active, set_effect_update, Bool.or_eq_true]
    exact or_comm

/-- C1, at the example state: raising "film grain" to 25 sets exactly the bits of the
always-on effect 0 and of effect 1. -/
theorem set_effect_mask_bits_witness :
    example_state.Post_initialized = true ∧ stricmp "lightshafts" "Film Grain" ≠ 0 ∧
    example_state.Post_effects.length ≤ 32 ∧
    ∃ m : Nat,
      (gr_opengl_post_process_set_effect example_env (some "Film Grain") 25 none
          example_state).calls
        = example_state.calls ++ [GLCall.maybe_create_shader .SDR_TYPE_POST_PROCESS_MAIN m] ∧
      (gr_opengl_post_process_set_effect example_env (some "Film Grain") 25 none
          example_state).Post_active_shader_index
        = example_env.maybe_create_shader .SDR_TYPE_POST_PROCESS_MAIN m ∧
      (∀ i : Nat, m.testBit i = true ↔
        ∃ hi : i < (gr_opengl_post_process_set_effect example_env (some "Film Grain") 25 none
            example_state).Post_effects.length,
          ((gr_opengl_post_process_set_effect example_env (some "Film Grain") 25 none
              example_state).Post_effects[i]).always_on = true ∨
          FloatOps.ne
            ((gr_opengl_post_process_set_effect example_env (some "Film Grain") 25 none
              example_state).Post_effects[i]).intensity
            ((gr_opengl_post_process_set_effect example_env (some "Film Grain") 25 none
              example_state).Post_effects[i]).default_intensity = true) ∧
      (∀ pre e post, example_state.Post_effects = pre ++ e :: post →
        (∀ x ∈ pre, stricmp x.name "Film Grain" ≠ 0) → stricmp e.name "Film Grain" = 0 →
        (m.testBit pre.length = true ↔
          (FloatOps.ne (FloatOps.add (FloatOps.div (FloatOps.ofInt 25) e.div) e.add)
              e.default_intensity = true ∨ e.always_on = true))) :=
  ⟨rfl, by decide, by decide,
    set_effect_mask_bits example_env example_state "Film Grain" 25 none rfl (by decide)
      (by decide)⟩

/-! ## C2 -/

/-- C2: in an initialised pipeline, for a name other than the reserved one that matches some
registered effect, `gr_opengl_post_process_set_effect` rewrites exactly the first matching
effect: its intensity becomes `value / div + add`, its colour becomes the supplied triple
when one is supplied and is not the zero vector and is kept otherwise, its other fields and
every other effect (later effects of the same name included) are unchanged. -/
theorem set_effect_updates_first_match (env : Env F) (s : PostState F) (name : String)
    (value : Int) (rgb : Option (vec3d F)) (hinit : s.Post_initialized = true)
    (hname : stricmp "lightshafts" name ≠ 0)
    (hmatch : ∃ e ∈ s.Post_effects, stricmp e.name name = 0) :
    ∃ pre e post,
      s.Post_effects = pre ++ e :: post ∧
      (∀ x ∈ pre, stricmp x.name name ≠ 0) ∧
      stricmp e.name name = 0 ∧
      (gr_opengl_post_process_set_effect env (some name) value rgb s).Post_effects
        = pre ++
          { name := e.name
            uniform_type := e.uniform_type
            define_name := e.define_name
            intensity := FloatOps.add (FloatOps.div (FloatOps.ofInt value) e.div) e.add
            default_intensity := e.default_intensity
            div := e.div
            add := e.add
            rgb := match rgb with
              | some v => if FloatOps.vec_same vmd_zero_vector v = false then v else e.rgb
              | none => e.rgb
            always_on := e.always_on } :: post := by
  obtain ⟨pre, e, post, hsplit, hpre, he⟩ := exists_first_match name s.Post_effects hmatch
  refine ⟨pre, e, post, hsplit, hpre, he, ?_⟩
  rw [set_effect_registry_path env s name value rgb hinit hname]
  show set_effect_lookup name value rgb s.Post_effects = _
  rw [hsplit, set_effect_lookup_split name value rgb e post pre hpre he]
  cases rgb with
  | none => rfl
  | some v => cases hv : FloatOps.vec_same vmd_zero_vector v <;> simp [set_effect_update, hv]

/-- C2, at the example state: "TINT" with a colour rewrites the third effect only. -/
theorem set_effect_updates_first_match_witness :
    example_state.Post_initialized = true ∧ stricmp "lightshafts" "TINT" ≠ 0 ∧
    (∃ e ∈ example_state.Post_effects, stricmp e.name "TINT" = 0) ∧
    ∃ pre e post,
      example_state.Post_effects = pre ++ e :: post ∧
      (∀ x ∈ pre, stricmp x.name "TINT" ≠ 0) ∧
      stricmp e.name "TINT" = 0 ∧
      (gr_opengl_post_process_set_effect example_env (some "TINT") 3
          (some ⟨.fin 1, .fin 0, .fin 0⟩) example_state).Post_effects
        = pre ++
          { name := e.name
            uniform_type := e.uniform_type
            define_name := e.define_name
            intensity := FloatOps.add (FloatOps.div (FloatOps.ofInt 3) e.div) e.add
            default_intensity := e.default_intensity
            div := e.div
            add := e.add
            rgb := match (some ⟨.fin 1, .fin 0, .fin 0⟩ : Option (vec3d XFloat)) with
              | some v => if FloatOps.vec_same vmd_zero_vector v = false then v else e.rgb
              | none => e.rgb
            always_on := e.always_on } :: post :=
  ⟨rfl, by decide, by decide,
    set_effect_updates_first_match example_env example_state "TINT" 3
      (some ⟨.fin 1, .fin 0, .fin 0⟩) rfl (by decide) (by decide)⟩

/-! ## C3 -/

/-- C3, refuted as stated: at the example state the unknown name "warp" leaves the registry
alone, yet the pinned selection `Post_active_shader_index` changes from "none" (`-1`) to the
handle of the variant for the current flags. -/
theorem set_effect_unknown_name_changes_pin :
    example_state.Post_initialized = true ∧
    (∀ e ∈ example_state.Post_effects, stricmp e.name "warp" ≠ 0) ∧
    stricmp "lightshafts" "warp" ≠ 0 ∧
    example_state.Post_active_shader_index = -1 ∧
    (gr_opengl_post_process_set_effect example_env (some "warp") 7 none
      example_state).Post_active_shader_index = 16 ∧
    gr_opengl_post_process_set_effect example_env (some "warp") 7 none example_state
      ≠ example_state := by
  have hpin : (gr_opengl_post_process_set_effect example_env (some "warp") 7 none
      example_state).Post_active_shader_index = 16 := by
    rw [set_effect_registry_path example_env example_state "warp" 7 none rfl (by decide),
      set_effect_lookup_no_match "warp" 7 none example_state.Post_effects (by decide)]
    decide
  refine ⟨rfl, by decide, by decide, rfl, hpin, ?_⟩
  intro h
  rw [h] at hpin
  exact absurd hpin (by decide)

/-- C3, amended: in an initialised pipeline, for a name that matches no registered effect
and is not the reserved one, `gr_opengl_post_process_set_effect` leaves every effect and the
light-shaft parameters unchanged; it only requests the composite variant for the flags of
the unchanged registry and pins the handle it gets. -/
theorem set_effect_unknown_name (env : Env F) (s : PostState F) (name : String) (value : Int)
    (rgb : Option (vec3d F)) (hinit : s.Post_initialized = true)
    (hname : stricmp "lightshafts" name ≠ 0)
    (hnone : ∀ e ∈ s.Post_effects, stricmp e.name name ≠ 0) :
    gr_opengl_post_process_set_effect env (some name) value rgb s
      = { s with
          calls := s.calls ++ [GLCall.maybe_create_shader .SDR_TYPE_POST_PROCESS_MAIN
            (set_effect_flags 0 0 s.Post_effects)]
          Post_active_shader_index := env.maybe_create_shader .SDR_TYPE_POST_PROCESS_MAIN
            (set_effect_flags 0 0 s.Post_effects) } := by
  rw [set_effect_registry_path env s name value rgb hinit hname,
    set_effect_lookup_no_match name value rgb s.Post_effects hnone]

/-- C3 amended, at the example state with the unknown name "warp". -/
theorem set_effect_unknown_name_witness :
    example_state.Post_initialized = true ∧ stricmp "lightshafts" "warp" ≠ 0 ∧
    (∀ e ∈ example_state.Post_effects, stricmp e.name "warp" ≠ 0) ∧
    gr_opengl_post_process_set_effect example_env (some "warp") 7 none example_state
      = { example_state with
          calls := example_state.calls ++
            [GLCall.maybe_create_shader .SDR_TYPE_POST_PROCESS_MAIN
              (set_effect_flags 0 0 example_state.Post_effects)]
          Post_active_shader_index :=
            example_env.maybe_create_shader .SDR_TYPE_POST_PROCESS_MAIN
              (set_effect_flags 0 0 example_state.Post_effects) } :=
  ⟨rfl, by decide, by decide,
    set_effect_unknown_name example_env example_state "warp" 7 none rfl (by decide)
      (by decide)⟩

/-! ## C4 -/

theorem stricmp_chars_eq_zero_of_lower_eq :
    ∀ a b : List Char, a.map Char.toLower = b.map Char.toLower → stricmp_chars a b = 0 := by
  intro a
  induction a with
  | nil =>
    intro b h
    cases b with
    | nil => rfl
    | cons c cs => simp at h
  | cons x xs ih =>
    intro b h
    cases b with
    | nil => simp at h
    | cons c cs =>
      simp only [List.map_cons, List.cons.injEq] at h
      simp [stricmp_chars, h.1, ih cs h.2]

/-- C4: in an initialised pipeline, for every letter-case variant of the name "lightshafts"
and every value, `gr_opengl_post_process_set_effect` sets `ls_intensity` to `value / 100.0f`
and `ls_on` to `value != 0` and changes nothing else: registry, pinned selection,
`ls_cpintensity` and the call record are as before. -/
theorem set_effect_lightshafts (env : Env F) (s : PostState F) (name : String) (value : Int)
    (rgb : Option (vec3d F)) (hinit : s.Post_initialized = true)
    (hname : name.toList.map Char.toLower = "lightshafts".toList) :
    gr_opengl_post_process_set_effect env (some name) value rgb s
      = { s with
          ls_intensity := FloatOps.div (FloatOps.ofInt value) (FloatOps.lit 1000 1)
          ls_on := decide (value ≠ 0) } := by
  have h0 : stricmp "lightshafts" name = 0 := by
    apply stricmp_chars_eq_zero_of_lower_eq
    rw [hname]
    decide
  simp [gr_opengl_post_process_set_effect, hinit, h0]

/-- C4, at the example state, which gets a second effect named "lightshafts": the name
"LightShafts" still only touches the two light-shaft globals. -/
theorem set_effect_lightshafts_witness :
    (example_state_with
      (example_effects ++
        [{ name := "lightshafts", uniform_type := .Invalid, define_name := "FLAG_LS",
           intensity := .fin 0, default_intensity := .fin 0, div := .fin 1, add := .fin 0,
           rgb := ⟨.fin 0, .fin 0, .fin 0⟩, always_on := false }]) false).Post_initialized
      = true ∧
    "LightShafts".toList.map Char.toLower = "lightshafts".toList ∧
    gr_opengl_post_process_set_effect example_env (some "LightShafts") 40 none
        (example_state_with
          (example_effects ++
            [{ name := "lightshafts", uniform_type := .Invalid, define_name := "FLAG_LS",
               intensity := .fin 0, default_intensity := .fin 0, div := .fin 1,
               add := .fin 0, rgb := ⟨.fin 0, .fin 0, .fin 0⟩, always_on := false }]) false)
      = { example_state_with
          (example_effects ++
            [{ name := "lightshafts", uniform_type := .Invalid, define_name := "FLAG_LS",
               intensity := .fin 0, default_intensity := .fin 0, div := .fin 1,
               add := .fin 0, rgb := ⟨.fin 0, .fin 0, .fin 0⟩, always_on := false }]) false
          with
          ls_intensity := FloatOps.div (FloatOps.ofInt 40) (FloatOps.lit 1000 1)
          ls_on := decide ((40 : Int) ≠ 0) } :=
  ⟨rfl, by decide, set_effect_lightshafts example_env _ "LightShafts" 40 none rfl (by decide)⟩

/-! ## C5 -/

theorem set_defaults_initialized (s : PostState F) (hinit : s.Post_initialized = true) :
    gr_opengl_post_process_set_defaults s
      = { s with
          Post_effects :=
            s.Post_effects.map (fun e => { e with intensity := e.default_intensity })
          Post_active_shader_index := -1 } := by
  simp [gr_opengl_post_process_set_defaults, hinit]

theorem flags_of_defaults (es : List (post_effect_t F))
    (hnan : ∀ e ∈ es, FloatOps.ne e.default_intensity e.default_intensity = false) :
    ∀ idx f,
      set_effect_flags idx f (es.map (fun e => { e with intensity := e.default_intensity }))
        = always_on_flags idx f
            (es.map (fun e => { e with intensity := e.default_intensity })) := by
  induction es with
  | nil => intro idx f; rfl
  | cons e es ih =>
    intro idx f
    have he : FloatOps.ne e.default_intensity e.default_intensity = false :=
      hnan e (List.mem_cons_self _ _)
    have hes : ∀ x ∈ es, FloatOps.ne x.default_intensity x.default_intensity = false :=
      fun x hx => hnan x (List.mem_cons_of_mem _ hx)
    simp only [List.map_cons, set_effect_flags, always_on_flags, he, Bool.or_false]
    exact ih hes _ _

theorem mapUniformNameToType_log_frame (u : String) (s : PostState F) :
    (mapUniformNameToType_log u s).Post_effects = s.Post_effects ∧
    (mapUniformNameToType_log u s).log.count LogMsg.max_effects_warning
      = s.log.count LogMsg.max_effects_warning := by
  unfold mapUniformNameToType_log
  split
  · simp [PostState.logmsg, List.count_append, List.count_singleton]
  · exact ⟨rfl, rfl⟩

theorem init_table_effects_all_ok (entries : List (effect_entry F)) :
    ∀ (warned : Bool) (s : PostState F), s.Post_effects.length ≤ 32 →
      (init_table_effects (entries.map tbl_item.ok) warned s).2 = none ∧
      (init_table_effects (entries.map tbl_item.ok) warned s).1.Post_effects
        = s.Post_effects ++
          (entries.take (32 - s.Post_effects.length)).map effect_of_entry ∧
      (init_table_effects (entries.map tbl_item.ok) warned s).1.log.count
          LogMsg.max_effects_warning
        = s.log.count LogMsg.max_effects_warning +
          (if warned = false ∧ 32 < s.Post_effects.length + entries.length then 1 else 0) := by
  induction entries with
  | nil =>
    intro warned s hs
    have : ¬ 32 < s.Post_effects.length := by omega
    simp [init_table_effects, this]
  | cons ent rest ih =>
    intro warned s hs
    obtain ⟨he, hc⟩ := mapUniformNameToType_log_frame ent.uniform s
    simp only [List.map_cons, init_table_effects]
    generalize mapUniformNameToType_log ent.uniform s = s1 at he hc
    rw [← he, ← hc]
    rw [← he] at hs
    by_cases hlt : s1.Post_effects.length < 32
    · rw [if_pos hlt]
      obtain ⟨h1, h2, h3⟩ := ih warned
        { s1 with Post_effects := s1.Post_effects ++ [effect_of_entry ent] }
        (by simp; omega)
      refine ⟨h1, ?_, ?_⟩
      · rw [h2]
        have hk : 32 - s1.Post_effects.length = (32 - (s1.Post_effects.length + 1)) + 1 := by
          omega
        simp [hk]
      · rw [h3]
        simp [Nat.add_assoc, Nat.add_comm 1]
    · rw [if_neg hlt]
      have hk : 32 - s1.Post_effects.length = 0 := by omega
      have hgt : 32 < s1.Post_effects.length + (rest.length + 1) := by omega
      cases warned with
      | false =>
        obtain ⟨h1, h2, h3⟩ := ih true (s1.logmsg LogMsg.max_effects_warning) hs
        simp only [Bool.not_false, if_true]
        refine ⟨h1, ?_, ?_⟩
        · rw [h2]; simp [PostState.logmsg, hk]
        · rw [h3]
          simp [PostState.logmsg, List.count_append, List.count_singleton, hgt]
      | true =>
        obtain ⟨h1, h2, h3⟩ := ih true s1 hs
        simp only [Bool.not_true, Bool.false_eq_true, if_false]
        refine ⟨h1, ?_, ?_⟩
        · rw [h2]; simp [hk]
        · rw [h3]; simp

theorem init_table_ship_effects_frame (items : List (tbl_item ship_effect)) :
    ∀ s : PostState F,
      (init_table_ship_effects items s).1.Post_effects = s.Post_effects ∧
      (init_table_ship_effects items s).1.log = s.log ∧
      ((init_table_ship_effects items s).2 = none ↔ items.all tbl_item.is_ok = true) := by
  induction items with
  | nil => intro s; simp [init_table_ship_effects]
  | cons it rest ih =>
    intro s
    cases it with
    | ok se =>
      obtain ⟨h1, h2, h3⟩ := ih { s with Ship_effects := s.Ship_effects ++ [se] }
      simp only [init_table_ship_effects, List.all_cons, tbl_item.is_ok, Bool.true_and]
      exact ⟨h1, h2, h3⟩
    | raise what => simp [init_table_ship_effects, tbl_item.is_ok]

theorem init_table_light_shafts_frame (sec : light_shafts_section F) (s : PostState F) :
    (init_table_light_shafts sec s).1.Post_effects = s.Post_effects ∧
    (init_table_light_shafts sec s).1.log = s.log ∧
    ((init_table_light_shafts sec s).2 = none ↔
      (sec.always_on.is_ok && sec.density.is_ok && sec.falloff.is_ok && sec.weight.is_ok &&
        sec.intensity.is_ok && sec.sample_number.is_ok) = true) := by
  obtain ⟨a, b, c, d, e, f⟩ := sec
  cases a <;> cases b <;> cases c <;> cases d <;> cases e <;> cases f <;>
    simp [init_table_light_shafts, tbl_item.is_ok]

theorem tbl_then_ok (r : PostState F × Option String)
    (f : PostState F → PostState F × Option String) :
    ((tbl_then r f).2 = none ↔ r.2 = none ∧ (f r.1).2 = none) := by
  unfold tbl_then
  cases h : r.2 <;> simp

theorem tbl_then_frame {α : Type} (g : PostState F → α) (r : PostState F × Option String)
    (f : PostState F → PostState F × Option String) (hf : ∀ u, g (f u).1 = g u) :
    g (tbl_then r f).1 = g r.1 := by
  unfold tbl_then
  cases h : r.2 <;> simp [hf]

theorem init_table_tail_frame (tbl : post_processing_tbl F)
    (r : PostState F × Option String) :
    (tbl_then (tbl_then (tbl_then r (init_table_ship_effects_section tbl.ship_effects))
        (init_table_light_shafts_section tbl.light_shafts))
      (init_table_end_marker tbl.end_marker)).1.Post_effects = r.1.Post_effects ∧
    (tbl_then (tbl_then (tbl_then r (init_table_ship_effects_section tbl.ship_effects))
        (init_table_light_shafts_section tbl.light_shafts))
      (init_table_end_marker tbl.end_marker)).1.log = r.1.log ∧
    (r.2 = none →
      ((tbl_then (tbl_then (tbl_then r (init_table_ship_effects_section tbl.ship_effects))
          (init_table_light_shafts_section tbl.light_shafts))
        (init_table_end_marker tbl.end_marker)).2 = none ↔ tbl.rest_reads = true)) := by
  have hship : ∀ u : PostState F,
      (init_table_ship_effects_section tbl.ship_effects u).1.Post_effects = u.Post_effects ∧
      (init_table_ship_effects_section tbl.ship_effects u).1.log = u.log ∧
      ((init_table_ship_effects_section tbl.ship_effects u).2 = none ↔
        (match tbl.ship_effects with
          | some items => items.all tbl_item.is_ok
          | none => true) = true) := by
    intro u
    unfold init_table_ship_effects_section
    cases tbl.ship_effects with
    | none => simp
    | some items => exact init_table_ship_effects_frame items _
  have hls : ∀ u : PostState F,
      (init_table_light_shafts_section tbl.light_shafts u).1.Post_effects = u.Post_effects ∧
      (init_table_light_shafts_section tbl.light_shafts u).1.log = u.log ∧
      ((init_table_light_shafts_section tbl.light_shafts u).2 = none ↔
        (match tbl.light_shafts with
          | some sec =>
            sec.always_on.is_ok && sec.density.is_ok && sec.falloff.is_ok &&
              sec.weight.is_ok && sec.intensity.is_ok && sec.sample_number.is_ok
          | none => true) = true) := by
    intro u
    unfold init_table_light_shafts_section
    cases tbl.light_shafts with
    | none => simp
    | some sec => exact init_table_light_shafts_frame sec u
  have hem : ∀ u : PostState F,
      (init_table_end_marker tbl.end_marker u).1 = u ∧
      ((init_table_end_marker tbl.end_marker u).2 = none ↔ tbl.end_marker.is_ok = true) := by
    intro u
    unfold init_table_end_marker
    cases tbl.end_marker <;> simp [tbl_item.is_ok]
  refine ⟨?_, ?_, ?_⟩
  · rw [tbl_then_frame (fun u => u.Post_effects) _ _ (fun u => by rw [(hem u).1]),
      tbl_then_frame (fun u => u.Post_effects) _ _ (fun u => (hls u).1),
      tbl_then_frame (fun u => u.Post_effects) _ _ (fun u => (hship u).1)]
  · rw [tbl_then_frame (fun u => u.log) _ _ (fun u => by rw [(hem u).1]),
      tbl_then_frame (fun u => u.log) _ _ (fun u => (hls u).2.1),
      tbl_then_frame (fun u => u.log) _ _ (fun u => (hship u).2.1)]
  · intro hr
    rw [tbl_then_ok, tbl_then_ok, tbl_then_ok, (hem _).2, (hls _).2.2, (hship _).2.2]
    simp [post_processing_tbl.rest_reads, hr, and_assoc]

theorem init_table_try_all_ok (tbl : post_processing_tbl F) (entries : List (effect_entry F))
    (s : PostState F) (hempty : s.Post_effects = [])
    (heff : tbl.effects = some (entries.map tbl_item.ok)) :
    (init_table_try tbl s).1.Post_effects = (entries.take 32).map effect_of_entry ∧
    (init_table_try tbl s).1.log.count LogMsg.max_effects_warning
      = s.log.count LogMsg.max_effects_warning + (if 32 < entries.length then 1 else 0) ∧
    ((init_table_try tbl s).2 = none ↔ tbl.rest_reads = true) := by
  obtain ⟨h1, h2, h3⟩ := init_table_effects_all_ok entries false s (by simp [hempty])
  simp only [hempty, List.nil_append, List.length_nil, Nat.sub_zero, Nat.zero_add,
    true_and] at h2 h3
  have hsec : init_table_effects_section tbl.effects s
      = init_table_effects (entries.map tbl_item.ok) false s := by
    simp [init_table_effects_section, heff]
  obtain ⟨t1, t2, t3⟩ := init_table_tail_frame tbl (init_table_effects_section tbl.effects s)
  unfold init_table_try
  rw [hsec] at t1 t2 t3 ⊢
  exact ⟨t1.trans h2, by rw [t2]; exact h3, t3 h1⟩

/-- C6: when `opengl_post_init_table` reads `n` well-formed effect entries into an empty
registry, the registry afterwards has `min n 32` effects and its effect number `i` is table
entry number `i`, field by field: the same name, define, always-on flag, divisor and offset,
the default intensity as both intensity and default, the colour of the entry (the zero vector
when the entry gives none) and the uniform kind that the entry's uniform name spells,
compared without case (`Invalid` for an unknown name). It never holds more than 32 effects,
the over-cap warning is written exactly once when `n > 32` and not at all when `n <= 32`, and
the number of entries has no part in the result: the load reports success exactly when the
rest of the table reads. -/
theorem init_table_caps_registry (tbl : post_processing_tbl F)
    (entries : List (effect_entry F)) (s : PostState F) (hempty : s.Post_effects = [])
    (heff : tbl.effects = some (entries.map tbl_item.ok)) :
    (opengl_post_init_table tbl s).2.Post_effects.length = min entries.length 32 ∧
    (∀ i : Nat, i < min entries.length 32 →
      ∃ (ent : effect_entry F) (e : post_effect_t F),
        entries[i]? = some ent ∧
        (opengl_post_init_table tbl s).2.Post_effects[i]? = some e ∧
        e.name = ent.name ∧
        e.uniform_type =
          (if stricmp ent.uniform "noise_amount" = 0 then PostEffectUniformType.NoiseAmount
           else if stricmp ent.uniform "saturation" = 0 then PostEffectUniformType.Saturation
           else if stricmp ent.uniform "brightness" = 0 then PostEffectUniformType.Brightness
           else if stricmp ent.uniform "contrast" = 0 then PostEffectUniformType.Contrast
           else if stricmp ent.uniform "film_grain" = 0 then PostEffectUniformType.FilmGrain
           else if stricmp ent.uniform "tv_stripes" = 0 then PostEffectUniformType.TvStripes
           else if stricmp ent.uniform "cutoff" = 0 then PostEffectUniformType.Cutoff
           else if stricmp ent.uniform "dither" = 0 then PostEffectUniformType.Dither
           else if stricmp ent.uniform "tint" = 0 then PostEffectUniformType.Tint
           else PostEffectUniformType.Invalid) ∧
        e.define_name = ent.define ∧
        e.always_on = ent.always_on ∧
        e.default_intensity = ent.default_intensity ∧
        e.intensity = ent.default_intensity ∧
        e.div = ent.div ∧
        e.add = ent.add ∧
        e.rgb = ent.rgb.getD ⟨FloatOps.lit 0 1, FloatOps.lit 0 1, FloatOps.lit 0 1⟩) ∧
    (opengl_post_init_table tbl s).2.Post_effects.length ≤ 32 ∧
    (opengl_post_init_table tbl s).2.log.count LogMsg.max_effects_warning
      = s.log.count LogMsg.max_effects_warning + (if 32 < entries.length then 1 else 0) ∧
    (opengl_post_init_table tbl s).1 = tbl.rest_reads := by
  obtain ⟨h1, h2, h3⟩ := init_table_try_all_ok tbl entries s hempty heff
  have hreg : (opengl_post_init_table tbl s).2.Post_effects
      = (entries.take 32).map effect_of_entry := by
    unfold opengl_post_init_table
    cases hx : (init_table_try tbl s).2 <;> simp [hx, h1, PostState.logmsg]
  refine ⟨?_, ?_, ?_, ?_, ?_⟩
  · rw [hreg]; simp [Nat.min_comm]
  · intro i hi
    have hin : i < entries.length := lt_of_lt_of_le hi (Nat.min_le_left _ _)
    have hi32 : i < 32 := lt_of_lt_of_le hi (Nat.min_le_right _ _)
    refine ⟨entries[i], effect_of_entry entries[i], List.getElem?_eq_getElem hin, ?_,
      rfl, rfl, rfl, rfl, rfl, rfl, rfl, rfl, ?_⟩
    · rw [hreg, List.getElem?_map, List.getElem?_take_of_lt hi32,
        List.getElem?_eq_getElem hin]
      rfl
    · unfold effect_of_entry vmd_zero_vector
      cases entries[i].rgb <;> rfl
  · rw [hreg]; simp
  · unfold opengl_post_init_table
    cases hx : (init_table_try tbl s).2 <;>
      simp [hx, h2, PostState.logmsg, List.count_append, List.count_singleton]
  · unfold opengl_post_init_table
    cases hx : (init_table_try tbl s).2 with
    | none => simp [hx, h3.mp hx]
    | some what =>
      have : ¬ tbl.rest_reads = true := fun hh => by
        have := h3.mpr hh; simp [hx] at this
      simp only [Bool.not_eq_true] at this
      simp [hx, this]

/-- C6, at a table of 33 entries `effect 0` .. `effect 32` read into the empty registry of a
fresh state: 32 effects are kept, each the table entry of its index, one warning is written
and the load succeeds. -/
theorem init_table_caps_registry_witness :
    (example_state_with [] false).Post_effects = [] ∧
    example_tbl.effects = some (((List.range 33).map example_entry).map tbl_item.ok) ∧
    (opengl_post_init_table example_tbl (example_state_with [] false)).2.Post_effects.length
      = min ((List.range 33).map example_entry).length 32 ∧
    (∀ i : Nat, i < min ((List.range 33).map example_entry).length 32 →
      ∃ (ent : effect_entry XFloat) (e : post_effect_t XFloat),
        ((List.range 33).map example_entry)[i]? = some ent ∧
        (opengl_post_init_table example_tbl
          (example_state_with [] false)).2.Post_effects[i]? = some e ∧
        e.name = ent.name ∧
        e.uniform_type =
          (if stricmp ent.uniform "noise_amount" = 0 then PostEffectUniformType.NoiseAmount
           else if stricmp ent.uniform "saturation" = 0 then PostEffectUniformType.Saturation
           else if stricmp ent.uniform "brightness" = 0 then PostEffectUniformType.Brightness
           else if stricmp ent.uniform "contrast" = 0 then PostEffectUniformType.Contrast
           else if stricmp ent.uniform "film_grain" = 0 then PostEffectUniformType.FilmGrain
           else if stricmp ent.uniform "tv_stripes" = 0 then PostEffectUniformType.TvStripes
           else if stricmp ent.uniform "cutoff" = 0 then PostEffectUniformType.Cutoff
           else if stricmp ent.uniform "dither" = 0 then PostEffectUniformType.Dither
           else if stricmp ent.uniform "tint" = 0 then PostEffectUniformType.Tint
           else PostEffectUniformType.Invalid) ∧
        e.define_name = ent.define ∧
        e.always_on = ent.always_on ∧
        e.default_intensity = ent.default_intensity ∧
        e.intensity = ent.default_intensity ∧
        e.div = ent.div ∧
        e.add = ent.add ∧
        e.rgb = ent.rgb.getD ⟨FloatOps.lit 0 1, FloatOps.lit 0 1, FloatOps.lit 0 1⟩) ∧
    (opengl_post_init_table example_tbl (example_state_with [] false)).2.Post_effects.length
      ≤ 32 ∧
    (opengl_post_init_table example_tbl (example_state_with [] false)).2.log.count
        LogMsg.max_effects_warning
      = (example_state_with [] false).log.count LogMsg.max_effects_warning +
        (if 32 < ((List.range 33).map example_entry).length then 1 else 0) ∧
    (opengl_post_init_table example_tbl (example_state_with [] false)).1
      = example_tbl.rest_reads :=
  ⟨rfl, rfl,
    init_table_caps_registry example_tbl ((List.range 33).map example_entry)
      (example_state_with [] false) rfl rfl⟩

/-! ## C7, lemmas on the parameter setter -/

theorem and_shl1_ne_zero (flags : Nat) {idx : Nat} (h : idx < 32) :
    flags &&& shl1 idx ≠ 0 ↔ flags.testBit idx = true := by
  rw [shl1_eq_two_pow h, Nat.and_two_pow]
  cases hb : flags.testBit idx <;> simp

theorem post_data_write_slot_ne (e : post_effect_t F) (data : post_data F)
    (k : PostEffectUniformType) (h : e.uniform_type ≠ k) :
    (post_data_write e data).slot k = data.slot k := by
  unfold post_data_write
  cases he : e.uniform_type <;> cases k <;> simp_all [post_data.slot]

theorem post_data_write_slot_eq (e : post_effect_t F) (data : post_data F)
    (k : PostEffectUniformType) (h : e.uniform_type = k) (hk : k ≠ .Invalid) :
    (post_data_write e data).slot k = some e.uniform_value := by
  subst h
  unfold post_data_write post_effect_t.uniform_value
  cases he : e.uniform_type <;> simp_all [post_data.slot]

theorem post_data_write_timer (e : post_effect_t F) (data : post_data F) :
    (post_data_write e data).timer = data.timer := by
  unfold post_data_write
  cases e.uniform_type <;> rfl

theorem post_data_write_invalid (e : post_effect_t F) (data : post_data F)
    (h : e.uniform_type = .Invalid) : post_data_write e data = data := by
  unfold post_data_write
  rw [h]

theorem post_data_loop_unwritten (flags : Nat) (k : PostEffectUniformType)
    (es : List (post_effect_t F)) :
    ∀ (idx : Nat) (data : post_data F), idx + es.length ≤ 32 →
      (∀ i x, es[i]? = some x → flags.testBit (idx + i) = true → x.uniform_type ≠ k) →
      (post_data_loop flags idx es data).slot k = data.slot k := by
  induction es with
  | nil => intro idx data _ _; rfl
  | cons e es ih =>
    intro idx data hlen h
    have hidx : idx < 32 := by simp at hlen; omega
    simp only [post_data_loop]
    rw [ih (idx + 1) _ (by simp at hlen ⊢; omega)
      (fun i x hx hb => h (i + 1) x (by simpa using hx) (by rw [← hb]; congr 1; omega))]
    by_cases hb : flags.testBit idx = true
    · rw [if_pos ((and_shl1_ne_zero flags hidx).mpr hb)]
      exact post_data_write_slot_ne e data k (h 0 e (by simp) (by simpa using hb))
    · rw [if_neg (fun hc => hb ((and_shl1_ne_zero flags hidx).mp hc))]

theorem post_data_loop_last_writer (flags : Nat) (k : PostEffectUniformType)
    (hk : k ≠ .Invalid) (es : List (post_effect_t F)) :
    ∀ (idx : Nat) (data : post_data F) (j : Nat) (e : post_effect_t F),
      idx + es.length ≤ 32 → es[j]? = some e → flags.testBit (idx + j) = true →
      e.uniform_type = k →
      (∀ i x, j < i → es[i]? = some x → flags.testBit (idx + i) = true →
        x.uniform_type ≠ k) →
      (post_data_loop flags idx es data).slot k = some e.uniform_value := by
  induction es with
  | nil => intro idx data j e _ hj; simp at hj
  | cons y ys ih =>
    intro idx data j e hlen hj hb he hlater
    have hidx : idx < 32 := by simp at hlen; omega
    have hlen2 : idx + 1 + ys.length ≤ 32 := by simp at hlen ⊢; omega
    simp only [post_data_loop]
    cases j with
    | zero =>
      simp only [List.getElem?_cons_zero, Option.some.injEq] at hj
      subst hj
      rw [post_data_loop_unwritten flags k ys (idx + 1) _ hlen2
        (fun i x hx hbi => hlater (i + 1) x (by omega) (by simpa using hx)
          (by rw [← hbi]; congr 1; omega))]
      rw [if_pos ((and_shl1_ne_zero flags hidx).mpr (by simpa using hb))]
      exact post_data_write_slot_eq y data k he hk
    | succ j =>
      exact ih (idx + 1) _ j e hlen2 (by simpa using hj)
        (by rw [← hb]; congr 1; omega) he
        (fun i x hji hx hbi => hlater (i + 1) x (by omega) (by simpa using hx)
          (by rw [← hbi]; congr 1; omega))

theorem post_data_loop_timer (flags : Nat) (es : List (post_effect_t F)) :
    ∀ (idx : Nat) (data : post_data F),
      (post_data_loop flags idx es data).timer = data.timer := by
  induction es with
  | nil => intro idx data; rfl
  | cons e es ih =>
    intro idx data
    simp only [post_data_loop]
    rw [ih]
    split
    · exact post_data_write_timer e data
    · rfl

theorem post_data_loop_congr (flags flags2 : Nat) (es : List (post_effect_t F)) :
    ∀ (idx : Nat) (data : post_data F), idx + es.length ≤ 32 →
      (∀ i x, es[i]? = some x → x.uniform_type ≠ .Invalid →
        flags2.testBit (idx + i) = flags.testBit (idx + i)) →
      post_data_loop flags2 idx es data = post_data_loop flags idx es data := by
  induction es with
  | nil => intro idx data _ _; rfl
  | cons e es ih =>
    intro idx data hlen h
    have hidx : idx < 32 := by simp at hlen; omega
    simp only [post_data_loop]
    have hstep : (if flags2 &&& shl1 idx ≠ 0 then post_data_write e data else data)
        = (if flags &&& shl1 idx ≠ 0 then post_data_write e data else data) := by
      by_cases hinv : e.uniform_type = .Invalid
      · rw [post_data_write_invalid e data hinv]; simp
      · have hb := h 0 e (by simp) hinv
        simp only [Nat.add_zero] at hb
        by_cases h1 : flags.testBit idx = true
        · rw [if_pos ((and_shl1_ne_zero flags hidx).mpr h1),
            if_pos ((and_shl1_ne_zero flags2 hidx).mpr (hb.trans h1))]
        · rw [if_neg (fun hc => h1 ((and_shl1_ne_zero flags hidx).mp hc)),
            if_neg (fun hc => h1 (hb ▸ (and_shl1_ne_zero flags2 hidx).mp hc))]
    rw [hstep]
    exact ih (idx + 1) _ (by simp at hlen ⊢; omega)
      (fun i x hx hinv => by
        have := h (i + 1) x (by simpa using hx) hinv
        rw [show idx + 1 + i = idx + (i + 1) by omega]
        exact this)

/-! ## What the passes leave alone -/

@[simp] theorem frame_of_call (s : PostState F) (c : GLCall F) :
    (s.call c).frame_of = s.frame_of := rfl

@[simp] theorem frame_of_logmsg (s : PostState F) (m : LogMsg) :
    (s.logmsg m).frame_of = s.frame_of := rfl

@[simp] theorem frame_of_Blend (v : Bool) (s : PostState F) :
    (GL_state_Blend v s).2.frame_of = s.frame_of := rfl

@[simp] theorem frame_of_ScissorTest (v : Bool) (s : PostState F) :
    (GL_state_ScissorTest v s).2.frame_of = s.frame_of := rfl

@[simp] theorem frame_of_SetAlphaBlendMode (m : gr_alpha_blend) (s : PostState F) :
    (GL_state_SetAlphaBlendMode m s).frame_of = s.frame_of := rfl

@[simp] theorem frame_of_BindFrameBuffer (id : Nat) (s : PostState F) :
    (GL_state_BindFrameBuffer id s).frame_of = s.frame_of := rfl

@[simp] theorem frame_of_PushFramebufferState (s : PostState F) :
    (GL_state_PushFramebufferState s).frame_of = s.frame_of := rfl

@[simp] theorem frame_of_PopFramebufferState (s : PostState F) :
    (GL_state_PopFramebufferState s).frame_of = s.frame_of := by
  unfold GL_state_PopFramebufferState
  cases s.GL_state.framebuffer_stack <;> rfl

@[simp] theorem frame_of_maybe_create_shader (env : Env F) (t : shader_type) (flags : Nat)
    (s : PostState F) :
    (gr_opengl_maybe_create_shader env t flags s).2.frame_of = s.frame_of := rfl

@[simp] theorem frame_of_shader_set_current (h : Option Int) (s : PostState F) :
    (opengl_shader_set_current h s).frame_of = s.frame_of := rfl

@[simp] theorem frame_of_shader_set_current_created (env : Env F) (t : shader_type)
    (flags : Nat) (s : PostState F) :
    (opengl_shader_set_current_created env t flags s).frame_of = s.frame_of := rfl

theorem frame_of_foldl {α : Type} (f : PostState F → α → PostState F)
    (h : ∀ s x, (f s x).frame_of = s.frame_of) :
    ∀ (l : List α) (s : PostState F), (l.foldl f s).frame_of = s.frame_of := by
  intro l
  induction l with
  | nil => intro s; rfl
  | cons x xs ih => intro s; rw [List.foldl_cons, ih, h]

@[simp] theorem frame_of_tonemap (env : Env F) (s : PostState F) :
    (opengl_post_pass_tonemap env s).frame_of = s.frame_of := by
  simp [opengl_post_pass_tonemap]

@[simp] theorem frame_of_bloom_blur_level (width height : Int) (pass dest_tex : Nat)
    (s : PostState F) (mipmap : Nat) :
    (bloom_blur_level width height pass dest_tex s mipmap).frame_of = s.frame_of := by
  simp [bloom_blur_level]

@[simp] theorem frame_of_bloom_blur_pass (env : Env F) (width height : Int) (s : PostState F)
    (pass : Nat) : (bloom_blur_pass env width height s pass).frame_of = s.frame_of := by
  unfold bloom_blur_pass
  rw [frame_of_foldl _ (fun s x => frame_of_bloom_blur_level _ _ _ _ s x)]
  split <;> simp

@[simp] theorem frame_of_bloom (env : Env F) (s : PostState F) :
    (opengl_post_pass_bloom env s).frame_of = s.frame_of := by
  unfold opengl_post_pass_bloom
  simp only [frame_of_ScissorTest, frame_of_SetAlphaBlendMode, frame_of_call,
    frame_of_shader_set_current_created]
  rw [frame_of_foldl _ (fun s _ => frame_of_foldl _ (fun s x => frame_of_bloom_blur_pass env
    _ _ s x) _ s)]
  simp

@[simp] theorem frame_of_recompile_aa_shader (env : Env F) (s : PostState F) :
    (recompile_aa_shader env s).frame_of = s.frame_of := by
  unfold recompile_aa_shader
  show (List.foldl _ (List.foldl _ (s.logmsg LogMsg.recompiling_aa_shaders) _) _).frame_of = _
  rw [frame_of_foldl _ (fun s x => frame_of_maybe_create_shader env x 0 s)]
  rw [frame_of_foldl _ (fun s x => by simp)]
  simp

@[simp] theorem frame_of_fxaa (env : Env F) (s : PostState F) :
    (opengl_post_pass_fxaa env s).frame_of = s.frame_of := by
  unfold opengl_post_pass_fxaa
  simp only [frame_of_call, frame_of_shader_set_current_created, frame_of_shader_set_current]
  split <;> simp

@[simp] theorem frame_of_smaa_detect_edges (env : Env F) (s : PostState F) :
    (smaa_detect_edges env s).frame_of = s.frame_of := by
  simp [smaa_detect_edges]

@[simp] theorem frame_of_smaa_calculate_blending_weights (env : Env F) (s : PostState F) :
    (smaa_calculate_blending_weights env s).frame_of = s.frame_of := by
  simp [smaa_calculate_blending_weights]

@[simp] theorem frame_of_smaa_neighborhood_blending (env : Env F) (s : PostState F) :
    (smaa_neighborhood_blending env s).frame_of = s.frame_of := by
  simp [smaa_neighborhood_blending]

@[simp] theorem frame_of_smaa_resolve (env : Env F) (s : PostState F) :
    (smaa_resolve env s).frame_of = s.frame_of := by
  unfold smaa_resolve
  dsimp only
  split <;> simp

@[simp] theorem frame_of_smaa (env : Env F) (s : PostState F) :
    (opengl_post_pass_smaa env s).frame_of = s.frame_of := by
  unfold opengl_post_pass_smaa
  simp only [frame_of_smaa_resolve, frame_of_PopFramebufferState,
    frame_of_smaa_neighborhood_blending, frame_of_smaa_calculate_blending_weights,
    frame_of_smaa_detect_edges, frame_of_call, frame_of_PushFramebufferState]
  split <;> simp

@[simp] theorem frame_of_lightshafts_loop (env : Env F) (lights : List (global_light F)) :
    ∀ s : PostState F, (lightshafts_loop env lights s).frame_of = s.frame_of := by
  induction lights with
  | nil => intro s; rfl
  | cons l rest ih =>
    intro s
    unfold lightshafts_loop
    split
    · exact ih s
    · split
      · simp
      · exact ih s

@[simp] theorem frame_of_lightshafts (env : Env F) (s : PostState F) :
    (opengl_post_lightshafts env s).frame_of = s.frame_of := by
  unfold opengl_post_lightshafts
  dsimp only
  split <;> simp

@[simp] theorem frame_of_end_passes (env : Env F) (s : PostState F) :
    (post_process_end_passes env s).frame_of = s.frame_of := by
  unfold post_process_end_passes
  simp only [frame_of_call, frame_of_PopFramebufferState, frame_of_lightshafts]
  split
  · split
    · simp
    · split <;> simp
  · simp

theorem frame_of_Post_effects {s t : PostState F} (h : t.frame_of = s.frame_of) :
    t.Post_effects = s.Post_effects := by
  show t.frame_of.Post_effects = s.frame_of.Post_effects
  rw [h]

theorem frame_of_Post_active_shader_index {s t : PostState F} (h : t.frame_of = s.frame_of) :
    t.Post_active_shader_index = s.Post_active_shader_index := by
  show t.frame_of.Post_active_shader_index = s.frame_of.Post_active_shader_index
  rw [h]

/-- The calls the final composite stage adds: the request for the always-on variant when
nothing is pinned, then the calls of `final_composite_calls` up to the draw. -/
theorem end_composite_calls (env : Env F) (s : PostState F) :
    (post_process_end_composite env s).calls
      = s.calls ++
        (if s.Post_active_shader_index < 0 then
          [GLCall.maybe_create_shader .SDR_TYPE_POST_PROCESS_MAIN
            (always_on_flags 0 0 s.Post_effects)]
         else []) ++
        (final_composite_calls env (post_sdr_handle env s) s.Post_effects).dropLast := by
  unfold post_process_end_composite
  by_cases h : s.Post_active_shader_index < 0
  · simp [h, final_composite_calls, GL_state_PopFramebufferState, PostState.call,
      opengl_shader_set_current, gr_opengl_maybe_create_shader, post_sdr_handle]
    cases s.GL_state.framebuffer_stack <;> simp
  · simp [h, final_composite_calls, GL_state_PopFramebufferState, PostState.call,
      opengl_shader_set_current, gr_opengl_maybe_create_shader, post_sdr_handle]
    cases s.GL_state.framebuffer_stack <;> simp

/-- The call record and the registry `gr_opengl_post_process_end` leaves are those of its
passes and final composite, run from the entry state with the four toggles off and texture
shading on (lines 523-528), plus the last `opengl_shader_set_current()`. -/
theorem end_calls (env : Env F) (s : PostState F) :
    ∃ s1 : PostState F, s1.Post_effects = s.Post_effects ∧
      s1.Post_active_shader_index = s.Post_active_shader_index ∧
      (gr_opengl_post_process_end env s).calls
        = (post_process_end_composite env (post_process_end_passes env s1)).calls ++
          [GLCall.shader_set_current none] ∧
      (gr_opengl_post_process_end env s).Post_effects
        = (post_process_end_composite env (post_process_end_passes env s1)).Post_effects := by
  refine ⟨GL_state_Texture_SetShaderMode true (GL_state_CullFace false
    (GL_state_Blend false (GL_state_DepthMask false
      (GL_state_DepthTest false s).2).2).2).2, ?_, ?_, ?_, ?_⟩
  · simp only [GL_state_DepthTest, GL_state_DepthMask, GL_state_Blend, GL_state_CullFace,
      GL_state_Texture_SetShaderMode]
  · simp only [GL_state_DepthTest, GL_state_DepthMask, GL_state_Blend, GL_state_CullFace,
      GL_state_Texture_SetShaderMode]
  · simp only [gr_opengl_post_process_end, GL_state_DepthTest, GL_state_DepthMask,
      GL_state_Blend, GL_state_CullFace, GL_state_Texture_SetShaderMode,
      opengl_shader_set_current, PostState.call]
  · simp only [gr_opengl_post_process_end, GL_state_DepthTest, GL_state_DepthMask,
      GL_state_Blend, GL_state_CullFace, GL_state_Texture_SetShaderMode,
      opengl_shader_set_current, PostState.call]

/-- The call record of `gr_opengl_post_process_end` ends with the calls of the final
composite pass, made with the handle `post_sdr_handle` selects in the state at entry and
with the registry at entry. -/
theorem end_calls_suffix (env : Env F) (s : PostState F) :
    ∃ pre, (gr_opengl_post_process_end env s).calls
      = pre ++ final_composite_calls env (post_sdr_handle env s) s.Post_effects := by
  obtain ⟨s1, he, hp, hc, _⟩ := end_calls env s
  have hfe : (post_process_end_passes env s1).Post_effects = s.Post_effects :=
    (frame_of_Post_effects (frame_of_end_passes env s1)).trans he
  have hfp : (post_process_end_passes env s1).Post_active_shader_index
      = s.Post_active_shader_index :=
    (frame_of_Post_active_shader_index (frame_of_end_passes env s1)).trans hp
  have hh : post_sdr_handle env (post_process_end_passes env s1) = post_sdr_handle env s := by
    unfold post_sdr_handle
    rw [hfe, hfp]
  rw [hc, end_composite_calls, hh, hfe]
  refine ⟨(post_process_end_passes env s1).calls ++
    (if (post_process_end_passes env s1).Post_active_shader_index < 0 then
      [GLCall.maybe_create_shader .SDR_TYPE_POST_PROCESS_MAIN
        (always_on_flags 0 0 s.Post_effects)]
     else []), ?_⟩
  simp [final_composite_calls]

/-! ## C7, the statement -/

/-- C7: for a registry of at most 32 effects and any variant flags, the parameter setter of
the final composite pass leaves in the field of each uniform kind `k` the value (colour for
`Tint`, intensity otherwise) of the highest-index effect of kind `k` whose bit is in the
flags; a field whose kind has no selected effect keeps what the block held before; effects
of kind `Invalid` write nothing, so their bits have no influence on the block; the timer field is
`timer_get_milliseconds() % 100 + 1`; and the block `gr_opengl_post_process_end` hands to the
final composite pass is the one this setter fills from the registry at call time and the
flags of the selected variant. -/
theorem post_data_setter_packing (ms : Int) (flags : Nat) (effects : List (post_effect_t F))
    (data : post_data F) (hsize : effects.length ≤ 32) :
    (∀ k j e, k ≠ PostEffectUniformType.Invalid → effects[j]? = some e →
      flags.testBit j = true → e.uniform_type = k →
      (∀ i x, j < i → effects[i]? = some x → flags.testBit i = true → x.uniform_type ≠ k) →
      (post_data_setter ms flags effects data).slot k = some e.uniform_value) ∧
    (∀ k, (∀ i x, effects[i]? = some x → flags.testBit i = true → x.uniform_type ≠ k) →
      (post_data_setter ms flags effects data).slot k = data.slot k) ∧
    (∀ flags2 : Nat,
      (∀ i x, effects[i]? = some x → x.uniform_type ≠ PostEffectUniformType.Invalid →
        flags2.testBit i = flags.testBit i) →
      post_data_setter ms flags2 effects data = post_data_setter ms flags effects data) ∧
    (post_data_setter ms flags effects data).timer
      = FloatOps.ofInt (Int.tmod ms 100 + 1) ∧
    (∀ (env : Env F) (s : PostState F),
      ∃ pre, (gr_opengl_post_process_end env s).calls
        = pre ++
          [ GLCall.shader_set_current (some (post_sdr_handle env s)),
            GLCall.setTextureUniform "tex" 0,
            GLCall.Texture_Enable 0 env.Scene_ldr_texture,
            GLCall.setTextureUniform "depth_tex" 1,
            GLCall.Texture_Enable 1 env.Scene_depth_texture,
            GLCall.set_generic_uniform_data (uniform_data.post
              (post_data_setter env.timer_milliseconds
                (env.shader_flags (post_sdr_handle env s)) s.Post_effects
                env.post_data_buffer)),
            GLCall.PopFramebufferState,
            GLCall.draw_full_screen_textured (FloatOps.lit 0 1) (FloatOps.lit 0 1)
              env.Scene_texture_u_scale env.Scene_texture_u_scale,
            GLCall.shader_set_current none ]) := by
  have hlen : 0 + effects.length ≤ 32 := by omega
  refine ⟨?_, ?_, ?_, ?_, fun env s => end_calls_suffix env s⟩
  · intro k j e hk hj hb he hlater
    exact post_data_loop_last_writer flags k hk effects 0 _ j e hlen hj
      (by simpa using hb) he (fun i x hji hx hbi => hlater i x hji hx (by simpa using hbi))
  · intro k h
    unfold post_data_setter
    rw [post_data_loop_unwritten flags k effects 0 _ hlen
      (fun i x hx hbi => h i x hx (by simpa using hbi))]
    cases k <;> rfl
  · intro flags2 h
    exact post_data_loop_congr flags flags2 effects 0 _ hlen
      (fun i x hx hinv => by simpa using h i x hx hinv)
  · unfold post_data_setter
    rw [post_data_loop_timer]

/-- C7, at the example registry with the flags of effects 0 and 2 (binary 101). -/
theorem post_data_setter_packing_witness :
    example_effects.length ≤ 32 ∧
    (post_data_setter 1234 5 example_effects example_env.post_data_buffer).slot .Saturation
      = some (.inl (.fin 1)) ∧
    (post_data_setter 1234 5 example_effects example_env.post_data_buffer).slot .FilmGrain
      = example_env.post_data_buffer.slot .FilmGrain :=
  ⟨by decide,
    (post_data_setter_packing 1234 5 example_effects example_env.post_data_buffer
      (by decide)).1 .Saturation 0 _ (by decide) rfl (by decide) rfl
      (by
        intro i x hji hx hb
        match i, hji, hx with
        | 1, _, hx => cases hx; decide
        | 2, _, hx => cases hx; decide
        | (n + 3), _, hx => simp [example_effects] at hx),
    (post_data_setter_packing 1234 5 example_effects example_env.post_data_buffer
      (by decide)).2.1 .FilmGrain
      (by
        intro i x hx hb
        match i, hx, hb with
        | 0, hx, _ => cases hx; decide
        | 1, _, hb => exact absurd hb (by decide)
        | 2, hx, _ => cases hx; decide
        | (n + 3), hx, _ => simp [example_effects] at hx)⟩

/-! ## C8 -/

theorem flags_of_fresh (es : List (post_effect_t F))
    (hfresh : ∀ e ∈ es, e.intensity = e.default_intensity)
    (hnan : ∀ e ∈ es, FloatOps.ne e.default_intensity e.default_intensity = false) :
    ∀ idx f, set_effect_flags idx f es = always_on_flags idx f es := by
  induction es with
  | nil => intro idx f; rfl
  | cons e es ih =>
    intro idx f
    have h1 : e.intensity = e.default_intensity := hfresh e (List.mem_cons_self _ _)
    have h2 : FloatOps.ne e.default_intensity e.default_intensity = false :=
      hnan e (List.mem_cons_self _ _)
    simp only [set_effect_flags, always_on_flags, h1, h2, Bool.or_false]
    exact ih (fun x hx => hfresh x (List.mem_cons_of_mem _ hx))
      (fun x hx => hnan x (List.mem_cons_of_mem _ hx)) _ _

theorem set_effect_lookup_defaults (name : String) (value : Int) (rgb : Option (vec3d F))
    (P : F → Prop) :
    ∀ es : List (post_effect_t F), (∀ e ∈ es, P e.default_intensity) →
      ∀ e ∈ set_effect_lookup name value rgb es, P e.default_intensity := by
  intro es
  induction es with
  | nil => intro _ e he; simp [set_effect_lookup] at he
  | cons x xs ih =>
    intro h e he
    unfold set_effect_lookup at he
    split at he
    · rcases List.mem_cons.mp he with heq | hmem
      · rw [heq]; exact h x (List.mem_cons_self _ _)
      · exact h e (List.mem_cons_of_mem _ hmem)
    · rcases List.mem_cons.mp he with heq | hmem
      · rw [heq]; exact h x (List.mem_cons_self _ _)
      · exact ih (fun y hy => h y (List.mem_cons_of_mem _ hy)) e hmem

/-- The invariant of the control calls: the pipeline is initialised, the registry has at most
32 effects, no default is NaN, and the handle the final composite would select is the one
the cache gives for the active mask. -/
theorem control_call_invariant (env : Env F)
    (hcache : ∀ m, 0 ≤ env.maybe_create_shader .SDR_TYPE_POST_PROCESS_MAIN m)
    (c : control_call F) (s : PostState F)
    (hinv : s.Post_initialized = true ∧ s.Post_effects.length ≤ 32 ∧
      (∀ e ∈ s.Post_effects, FloatOps.ne e.default_intensity e.default_intensity = false) ∧
      post_sdr_handle env s = env.maybe_create_shader .SDR_TYPE_POST_PROCESS_MAIN
        (set_effect_flags 0 0 s.Post_effects)) :
    (c.run env s).Post_initialized = true ∧ (c.run env s).Post_effects.length ≤ 32 ∧
      (∀ e ∈ (c.run env s).Post_effects,
        FloatOps.ne e.default_intensity e.default_intensity = false) ∧
      post_sdr_handle env (c.run env s)
        = env.maybe_create_shader .SDR_TYPE_POST_PROCESS_MAIN
          (set_effect_flags 0 0 (c.run env s).Post_effects) := by
  obtain ⟨hinit, hsize, hnan, hsel⟩ := hinv
  cases c with
  | set_defaults =>
    simp only [control_call.run]
    rw [set_defaults_initialized s hinit]
    refine ⟨hinit, by simpa using hsize, ?_, ?_⟩
    · intro e he
      simp only [List.mem_map] at he
      obtain ⟨x, hx, rfl⟩ := he
      exact hnan x hx
    · simp only [post_sdr_handle]
      rw [if_pos (by decide), flags_of_defaults s.Post_effects hnan 0 0]
  | set_effect name value rgb =>
    simp only [control_call.run]
    cases name with
    | none =>
      have : gr_opengl_post_process_set_effect env none value rgb s = s := by
        simp [gr_opengl_post_process_set_effect]
      rw [this]
      exact ⟨hinit, hsize, hnan, hsel⟩
    | some name =>
      by_cases hls : stricmp "lightshafts" name = 0
      · have : gr_opengl_post_process_set_effect env (some name) value rgb s
            = { s with
                ls_intensity := FloatOps.div (FloatOps.ofInt value) (FloatOps.lit 1000 1)
                ls_on := decide (value ≠ 0) } := by
          simp [gr_opengl_post_process_set_effect, hinit, hls]
        rw [this]
        exact ⟨hinit, hsize, hnan, hsel⟩
      · rw [set_effect_registry_path env s name value rgb hinit hls]
        refine ⟨hinit, ?_, ?_, ?_⟩
        · show (set_effect_lookup name value rgb s.Post_effects).length ≤ 32
          rw [set_effect_lookup_length]; exact hsize
        · exact set_effect_lookup_defaults name value rgb
            (fun d => FloatOps.ne d d = false) s.Post_effects hnan
        · simp only [post_sdr_handle]
          rw [if_neg (not_lt.mpr (hcache _))]

theorem run_control_calls_invariant (env : Env F)
    (hcache : ∀ m, 0 ≤ env.maybe_create_shader .SDR_TYPE_POST_PROCESS_MAIN m)
    (cs : List (control_call F)) :
    ∀ s : PostState F,
      (s.Post_initialized = true ∧ s.Post_effects.length ≤ 32 ∧
        (∀ e ∈ s.Post_effects, FloatOps.ne e.default_intensity e.default_intensity = false) ∧
        post_sdr_handle env s = env.maybe_create_shader .SDR_TYPE_POST_PROCESS_MAIN
          (set_effect_flags 0 0 s.Post_effects)) →
      ((run_control_calls env cs s).Post_initialized = true ∧
        (run_control_calls env cs s).Post_effects.length ≤ 32 ∧
        (∀ e ∈ (run_control_calls env cs s).Post_effects,
          FloatOps.ne e.default_intensity e.default_intensity = false) ∧
        post_sdr_handle env (run_control_calls env cs s)
          = env.maybe_create_shader .SDR_TYPE_POST_PROCESS_MAIN
            (set_effect_flags 0 0 (run_control_calls env cs s).Post_effects)) := by
  induction cs with
  | nil => intro s h; exact h
  | cons c cs ih =>
    intro s h
    exact ih (c.run env s) (control_call_invariant env hcache c s h)

theorem example_env_cache (m : Nat) :
    0 ≤ example_env.maybe_create_shader .SDR_TYPE_POST_PROCESS_MAIN m ∧
    example_env.shader_flags (example_env.maybe_create_shader .SDR_TYPE_POST_PROCESS_MAIN m)
      = m := by
  simp only [example_env]
  constructor
  · omega
  · have h : ((m : Int) * 16 + 0) / 16 = (m : Int) := by omega
    rw [h]; simp

/-- C8, refuted as stated: with a NaN default on an effect that is not always-on, after
`set_effect("cutoff", 5)` and `set_defaults` nothing is pinned, so the final composite takes
the variant of the always-on flags (none), while the active mask of the registry has bit 0
set, since the NaN intensity differs (`!=`) from the NaN default. -/
theorem composite_variant_nan_mismatch :
    (example_state_with nan_default_effects false).Post_initialized = true ∧
    (∀ e ∈ (example_state_with nan_default_effects false).Post_effects,
      e.intensity = e.default_intensity) ∧
    (example_state_with nan_default_effects false).Post_active_shader_index = -1 ∧
    (∀ m, 0 ≤ example_env.maybe_create_shader .SDR_TYPE_POST_PROCESS_MAIN m ∧
      example_env.shader_flags
        (example_env.maybe_create_shader .SDR_TYPE_POST_PROCESS_MAIN m) = m) ∧
    example_env.shader_flags (post_sdr_handle example_env
      (run_control_calls example_env
        [.set_effect (some "cutoff") 5 none, .set_defaults]
        (example_state_with nan_default_effects false))) = 0 ∧
    set_effect_flags 0 0
      (run_control_calls example_env
        [.set_effect (some "cutoff") 5 none, .set_defaults]
        (example_state_with nan_default_effects false)).Post_effects = 1 := by
  refine ⟨rfl, by decide, rfl, example_env_cache, ?_, ?_⟩
  · have hs : ∀ t : PostState XFloat, t.Post_initialized = true →
        post_sdr_handle example_env (gr_opengl_post_process_set_defaults t)
          = example_env.maybe_create_shader .SDR_TYPE_POST_PROCESS_MAIN
              (always_on_flags 0 0 (gr_opengl_post_process_set_defaults t).Post_effects) := by
      intro t ht
      rw [set_defaults_initialized t ht]
      simp [post_sdr_handle]
    have hinit : (gr_opengl_post_process_set_effect example_env (some "cutoff") 5 none
        (example_state_with nan_default_effects false)).Post_initialized = true := by
      rw [set_effect_registry_path _ _ _ _ _ rfl (by decide)]
      rfl
    simp only [run_control_calls, List.foldl, control_call.run]
    rw [hs _ hinit, (example_env_cache _).2, set_defaults_initialized _ hinit,
      set_effect_registry_path _ _ _ _ _ rfl (by decide)]
    decide
  · have hinit : (gr_opengl_post_process_set_effect example_env (some "cutoff") 5 none
        (example_state_with nan_default_effects false)).Post_initialized = true := by
      rw [set_effect_registry_path _ _ _ _ _ rfl (by decide)]
      rfl
    simp only [run_control_calls, List.foldl, control_call.run]
    rw [set_defaults_initialized _ hinit,
      set_effect_registry_path _ _ _ _ _ rfl (by decide)]
    decide

/-- C8, amended: start from a freshly initialised pipeline (at most 32 effects, every
intensity at its default, nothing pinned) in which no default intensity is NaN, and assume
the cache answers every request for a main composite variant with a valid handle whose flags
are the requested ones.  After any sequence of `gr_opengl_post_process_set_effect` and
`gr_opengl_post_process_set_defaults` calls, the handle the final composite pass of
`gr_opengl_post_process_end` selects is the one requested for the active mask `m` of the
current registry (bit `i` set iff effect `i` is always-on or its intensity differs from its
default), the calls of that pass are made with it, and the bit of every always-on effect is
in the selected variant whatever its intensity. -/
theorem composite_variant_follows_active_mask (env : Env F) (s0 : PostState F)
    (cs : List (control_call F))
    (hinit : s0.Post_initialized = true) (hsize : s0.Post_effects.length ≤ 32)
    (hfresh : ∀ e ∈ s0.Post_effects, e.intensity = e.default_intensity)
    (hpin : s0.Post_active_shader_index = -1)
    (hnan : ∀ e ∈ s0.Post_effects,
      FloatOps.ne e.default_intensity e.default_intensity = false)
    (hcache : ∀ m, 0 ≤ env.maybe_create_shader .SDR_TYPE_POST_PROCESS_MAIN m ∧
      env.shader_flags (env.maybe_create_shader .SDR_TYPE_POST_PROCESS_MAIN m) = m) :
    ∃ m : Nat,
      (∀ i : Nat, m.testBit i = true ↔
        ∃ hi : i < (run_control_calls env cs s0).Post_effects.length,
          ((run_control_calls env cs s0).Post_effects[i]).always_on = true ∨
          FloatOps.ne ((run_control_calls env cs s0).Post_effects[i]).intensity
            ((run_control_calls env cs s0).Post_effects[i]).default_intensity = true) ∧
      post_sdr_handle env (run_control_calls env cs s0)
        = env.maybe_create_shader .SDR_TYPE_POST_PROCESS_MAIN m ∧
      env.shader_flags (post_sdr_handle env (run_control_calls env cs s0)) = m ∧
      (∃ pre, (gr_opengl_post_process_end env (run_control_calls env cs s0)).calls
        = pre ++ final_composite_calls env
            (env.maybe_create_shader .SDR_TYPE_POST_PROCESS_MAIN m)
            (run_control_calls env cs s0).Post_effects) ∧
      (∀ i (hi : i < (run_control_calls env cs s0).Post_effects.length),
        ((run_control_calls env cs s0).Post_effects[i]).always_on = true →
        (env.shader_flags (post_sdr_handle env (run_control_calls env cs s0))).testBit i
          = true) := by
  have h0 : post_sdr_handle env s0 = env.maybe_create_shader .SDR_TYPE_POST_PROCESS_MAIN
      (set_effect_flags 0 0 s0.Post_effects) := by
    simp only [post_sdr_handle, hpin]
    rw [if_pos (by decide), flags_of_fresh s0.Post_effects hfresh hnan 0 0]
  obtain ⟨_, hlen, _, hsel⟩ := run_control_calls_invariant env (fun m => (hcache m).1) cs s0
    ⟨hinit, hsize, hnan, h0⟩
  have hbits : ∀ i : Nat,
      (set_effect_flags 0 0 (run_control_calls env cs s0).Post_effects).testBit i = true ↔
        ∃ hi : i < (run_control_calls env cs s0).Post_effects.length,
          ((run_control_calls env cs s0).Post_effects[i]).always_on = true ∨
          FloatOps.ne ((run_control_calls env cs s0).Post_effects[i]).intensity
            ((run_control_calls env cs s0).Post_effects[i]).default_intensity = true := by
    intro i
    rw [set_effect_flags_eq_mask_loop, mask_loop_testBit_iff _ _ hlen i]
    simp [effect_active]
  refine ⟨set_effect_flags 0 0 (run_control_calls env cs s0).Post_effects, hbits, hsel, ?_,
    ?_, ?_⟩
  · rw [hsel, (hcache _).2]
  · obtain ⟨pre, hpre⟩ := end_calls_suffix env (run_control_calls env cs s0)
    exact ⟨pre, by rw [hpre, hsel]⟩
  · intro i hi hon
    rw [hsel, (hcache _).2]
    exact (hbits i).mpr ⟨hi, Or.inl hon⟩

/-- C8 amended, at the example state after three control calls. -/
theorem composite_variant_follows_active_mask_witness :
    example_state.Post_initialized = true ∧ example_state.Post_effects.length ≤ 32 ∧
    (∀ e ∈ example_state.Post_effects, e.intensity = e.default_intensity) ∧
    example_state.Post_active_shader_index = -1 ∧
    (∀ e ∈ example_state.Post_effects,
      FloatOps.ne e.default_intensity e.default_intensity = false) ∧
    (∀ m, 0 ≤ example_env.maybe_create_shader .SDR_TYPE_POST_PROCESS_MAIN m ∧
      example_env.shader_flags
        (example_env.maybe_create_shader .SDR_TYPE_POST_PROCESS_MAIN m) = m) ∧
    ∃ m : Nat,
      (∀ i : Nat, m.testBit i = true ↔
        ∃ hi : i < (run_control_calls example_env example_calls
            example_state).Post_effects.length,
          ((run_control_calls example_env example_calls
              example_state).Post_effects[i]).always_on = true ∨
          FloatOps.ne
            ((run_control_calls example_env example_calls
              example_state).Post_effects[i]).intensity
            ((run_control_calls example_env example_calls
              example_state).Post_effects[i]).default_intensity = true) ∧
      post_sdr_handle example_env (run_control_calls example_env example_calls example_state)
        = example_env.maybe_create_shader .SDR_TYPE_POST_PROCESS_MAIN m ∧
      example_env.shader_flags
        (post_sdr_handle example_env
          (run_control_calls example_env example_calls example_state)) = m ∧
      (∃ pre, (gr_opengl_post_process_end example_env
          (run_control_calls example_env example_calls example_state)).calls
        = pre ++ final_composite_calls example_env
            (example_env.maybe_create_shader .SDR_TYPE_POST_PROCESS_MAIN m)
            (run_control_calls example_env example_calls example_state).Post_effects) ∧
      (∀ i (hi : i < (run_control_calls example_env example_calls
          example_state).Post_effects.length),
        ((run_control_calls example_env example_calls
          example_state).Post_effects[i]).always_on = true →
        (example_env.shader_flags (post_sdr_handle example_env
          (run_control_calls example_env example_calls example_state))).testBit i = true) :=
  ⟨rfl, by decide, by decide, rfl, by decide, example_env_cache,
    composite_variant_follows_active_mask example_env example_state example_calls rfl
      (by decide) (by decide) rfl (by decide) example_env_cache⟩

/-! ## C9 -/

/-- C9: `gr_opengl_post_process_begin` returns the state unchanged when the pipeline is not
initialised, a frame is already open, or the override flag is set; otherwise it pushes one
checkpoint holding the current binding, binds the first post framebuffer, selects the draw
buffer, clears colour and depth once and sets the frame-open flag, changing nothing else.
A second call in a row therefore does nothing more: two calls equal one. -/
theorem begin_frame_guarded (s : PostState F) :
    gr_opengl_post_process_begin s
      = (if s.Post_initialized = false ∨ s.Post_in_frame = true ∨
            s.PostProcessing_override = true then s
         else
          { s with
            GL_state := { s.GL_state with
              framebuffer_stack :=
                s.GL_state.current_framebuffer :: s.GL_state.framebuffer_stack
              current_framebuffer := s.Post_framebuffer_id.1 }
            calls := s.calls ++
              [GLCall.PushFramebufferState, GLCall.BindFrameBuffer s.Post_framebuffer_id.1,
               GLCall.glDrawBuffer, GLCall.glClearColor, GLCall.glClear true true]
            Post_in_frame := true }) ∧
    gr_opengl_post_process_begin (gr_opengl_post_process_begin s)
      = gr_opengl_post_process_begin s := by
  have h1 : ∀ t : PostState F, gr_opengl_post_process_begin t
      = (if t.Post_initialized = false ∨ t.Post_in_frame = true ∨
            t.PostProcessing_override = true then t
         else
          { t with
            GL_state := { t.GL_state with
              framebuffer_stack :=
                t.GL_state.current_framebuffer :: t.GL_state.framebuffer_stack
              current_framebuffer := t.Post_framebuffer_id.1 }
            calls := t.calls ++
              [GLCall.PushFramebufferState, GLCall.BindFrameBuffer t.Post_framebuffer_id.1,
               GLCall.glDrawBuffer, GLCall.glClearColor, GLCall.glClear true true]
            Post_in_frame := true }) := by
    intro t
    unfold gr_opengl_post_process_begin
    cases hi : t.Post_initialized <;> cases hf : t.Post_in_frame <;>
      cases ho : t.PostProcessing_override <;>
      simp [hi, hf, ho, GL_state_PushFramebufferState, GL_state_BindFrameBuffer,
        PostState.call]
  refine ⟨h1 s, ?_⟩
  by_cases hg : s.Post_initialized = false ∨ s.Post_in_frame = true ∨
      s.PostProcessing_override = true
  · rw [h1 s, if_pos hg, h1 s, if_pos hg]
  · rw [h1 s, if_neg hg, h1, if_pos (Or.inr (Or.inl rfl))]

/-! ## C10 -/

theorem end_toggles (env : Env F) (s : PostState F) :
    (gr_opengl_post_process_end env s).GL_state.depth_test = s.GL_state.depth_test ∧
    (gr_opengl_post_process_end env s).GL_state.depth_mask = s.GL_state.depth_mask ∧
    (gr_opengl_post_process_end env s).GL_state.blend = s.GL_state.blend ∧
    (gr_opengl_post_process_end env s).GL_state.cull_face = s.GL_state.cull_face ∧
    (gr_opengl_post_process_end env s).GL_state.shader_mode = false ∧
    (gr_opengl_post_process_end env s).Post_in_frame = false := by
  simp only [gr_opengl_post_process_end, GL_state_DepthTest, GL_state_DepthMask,
    GL_state_Blend, GL_state_CullFace, GL_state_Texture_SetShaderMode,
    opengl_shader_set_current, PostState.call, and_self]

/-- C10, refuted as stated: entered with texture shading mode on, the example frame ends
with it off, so that setting is not the one it was before the call. -/
theorem end_frame_shader_mode_not_restored :
    (example_state_with example_effects true).GL_state.shader_mode = true ∧
    (gr_opengl_post_process_end example_env
      (example_state_with example_effects true)).GL_state.shader_mode = false :=
  ⟨rfl, (end_toggles example_env (example_state_with example_effects true)).2.2.2.2.1⟩

/-- C10, amended: for every state at entry and every combination of optional passes, after
`gr_opengl_post_process_end` the depth-test, depth-mask, blend and cull-face toggles have the
values they had right before the call, texture shading mode is off (whatever it was at
entry), and the frame-open flag is false. -/
theorem end_frame_restores_toggles (env : Env F) (s : PostState F) :
    (gr_opengl_post_process_end env s).GL_state.depth_test = s.GL_state.depth_test ∧
    (gr_opengl_post_process_end env s).GL_state.depth_mask = s.GL_state.depth_mask ∧
    (gr_opengl_post_process_end env s).GL_state.blend = s.GL_state.blend ∧
    (gr_opengl_post_process_end env s).GL_state.cull_face = s.GL_state.cull_face ∧
    (gr_opengl_post_process_end env s).GL_state.shader_mode = false ∧
    (gr_opengl_post_process_end env s).Post_in_frame = false :=
  end_toggles env s

/-! ## C20 -/

theorem string_foldl_append (l : List String) :
    ∀ acc : String, l.foldl (fun r x => r ++ x) acc = acc ++ String.join l := by
  induction l with
  | nil => intro acc; simp [String.join]
  | cons a l ih =>
    intro acc
    have h : String.join (a :: l) = a ++ String.join l := by
      simp only [String.join, List.foldl_cons, String.empty_append]
      exact ih a
    rw [List.foldl_cons, ih, h, String.append_assoc]

theorem shader_header_loop_eq (flags : Nat) (es : List (post_effect_t F)) :
    ∀ (idx : Nat) (sflags : String), idx + es.length ≤ 32 →
      shader_header_loop flags idx es sflags
        = sflags ++ String.join
            (((es.enumFrom idx).filter (fun p => flags.testBit p.1)).map
              (fun p => "#define " ++ p.2.define_name ++ "\n")) := by
  induction es with
  | nil => intro idx sflags _; simp [shader_header_loop, String.join]
  | cons e es ih =>
    intro idx sflags h
    have hidx : idx < 32 := by simp at h; omega
    simp only [shader_header_loop, List.enumFrom_cons]
    rw [ih (idx + 1) _ (by simp at h ⊢; omega)]
    by_cases hb : flags.testBit idx = true
    · rw [if_pos ((and_shl1_ne_zero flags hidx).mpr hb), List.filter_cons_of_pos (by simpa using hb)]
      simp only [List.map_cons]
      rw [← string_foldl_append, ← string_foldl_append, List.foldl_cons]
      simp only [String.append_assoc]
    · rw [if_neg (fun hc => hb ((and_shl1_ne_zero flags hidx).mp hc)),
        List.filter_cons_of_neg (by simpa using hb)]

theorem enumFrom_filter_length {α : Type} (p : Nat → Bool) (es : List α) :
    ∀ idx : Nat, ((es.enumFrom idx).filter (fun q => p q.1)).length
      = ((List.range' idx es.length).filter p).length := by
  induction es with
  | nil => intro idx; simp
  | cons e es ih =>
    intro idx
    simp only [List.enumFrom_cons, List.length_cons, List.range'_succ, List.filter_cons]
    cases p idx <;> simp [ih (idx + 1)]

/-- C20: for the main composite kind, a registry of at most 32 effects and any flag mask,
`opengl_post_shader_header` appends to the stream exactly the lines
`"#define " + define_name + "\n"` of the effects whose bit is set in the mask, in registry
order and nothing else; the number of lines is the number of set bits below the registry
size, so bits at or above the registry size emit nothing. -/
theorem shader_header_main_defines (env : Env F) (s : PostState F) (sflags : String)
    (flags : Nat) (hsize : s.Post_effects.length ≤ 32) :
    opengl_post_shader_header env s sflags .SDR_TYPE_POST_PROCESS_MAIN flags
      = sflags ++ String.join
          ((s.Post_effects.enum.filter (fun p => flags.testBit p.1)).map
            (fun p => "#define " ++ p.2.define_name ++ "\n")) ∧
    ((s.Post_effects.enum.filter (fun p => flags.testBit p.1)).map
        (fun p => "#define " ++ p.2.define_name ++ "\n")).length
      = ((List.range s.Post_effects.length).filter (fun i => flags.testBit i)).length ∧
    (∀ p ∈ s.Post_effects.enum.filter (fun p => flags.testBit p.1),
      p.1 < s.Post_effects.length ∧ s.Post_effects[p.1]? = some p.2) := by
  refine ⟨?_, ?_, ?_⟩
  · simp only [opengl_post_shader_header, if_true]
    exact shader_header_loop_eq flags s.Post_effects 0 sflags (by omega)
  · rw [List.length_map, List.enum, enumFrom_filter_length (fun i => flags.testBit i),
      List.range_eq_range']
  · intro p hp
    have hmem := (List.mem_filter.mp hp).1
    obtain ⟨i, e⟩ := p
    have := List.mk_mem_enum_iff_getElem?.mp hmem
    refine ⟨?_, this⟩
    by_contra hlt
    rw [List.getElem?_eq_none (Nat.le_of_not_lt hlt)] at this
    exact absurd this (by simp)

/-- C20, at the example registry with the mask of effects 0 and 2. -/
theorem shader_header_main_defines_witness :
    example_state.Post_effects.length ≤ 32 ∧
    opengl_post_shader_header example_env example_state "" .SDR_TYPE_POST_PROCESS_MAIN 5
      = "" ++ String.join
          ((example_state.Post_effects.enum.filter (fun p => Nat.testBit 5 p.1)).map
            (fun p => "#define " ++ p.2.define_name ++ "\n")) :=
  ⟨by decide,
    (shader_header_main_defines example_env example_state "" 5 (by decide)).1⟩

/-! ## C13 -/

theorem ls_cpintensity_fold (w f : ℚ) :
    ∀ m : Nat,
      (List.range m).foldl
        (fun (acc : XFloat) (k : Nat) =>
          FloatOps.add_mul_pow acc (XFloat.fin w) (XFloat.fin f) ((k : Int) + 1))
        (XFloat.fin w)
        = XFloat.fin (w * Finset.sum (Finset.range (m + 1)) (fun k => f ^ k)) := by
  intro m
  induction m with
  | zero => simp
  | succ m ih =>
    rw [List.range_succ, List.foldl_append, ih, Finset.sum_range_succ _ (m + 1)]
    simp only [List.foldl_cons, List.foldl_nil, FloatOps.add_mul_pow, XFloat.lift2,
      XFloat.pow]
    have h : ((m : Int) + 1).toNat = m + 1 := by omega
    rw [h]
    congr 1
    ring

theorem ls_cpintensity_of_exact (w f i : ℚ) (n : Int) (hn : 1 ≤ n) :
    ls_cpintensity_of (XFloat.fin w) (XFloat.fin f) (XFloat.fin i) n
      = XFloat.fin (i * w * Finset.sum (Finset.range n.toNat) (fun k => f ^ k)) := by
  unfold ls_cpintensity_of
  rw [ls_cpintensity_fold w f (n - 1).toNat]
  have h : (n - 1).toNat + 1 = n.toNat := by omega
  rw [h]
  simp only [FloatOps.mul, XFloat.lift2]
  congr 1
  ring

theorem init_table_effects_ls_cpintensity (items : List (tbl_item (effect_entry F))) :
    ∀ (warned : Bool) (s : PostState F),
      (init_table_effects items warned s).1.ls_cpintensity = s.ls_cpintensity := by
  induction items with
  | nil => intro warned s; rfl
  | cons it rest ih =>
    intro warned s
    cases it with
    | raise what => rfl
    | ok ent =>
      simp only [init_table_effects]
      have h0 : (mapUniformNameToType_log ent.uniform s).ls_cpintensity = s.ls_cpintensity := by
        unfold mapUniformNameToType_log
        split <;> rfl
      split
      · rw [ih]; exact h0
      · split
        · rw [ih]; exact h0
        · rw [ih]; exact h0

theorem init_table_ship_effects_ls_cpintensity (items : List (tbl_item ship_effect)) :
    ∀ s : PostState F,
      (init_table_ship_effects items s).1.ls_cpintensity = s.ls_cpintensity := by
  induction items with
  | nil => intro s; rfl
  | cons it rest ih =>
    intro s
    cases it with
    | raise what => rfl
    | ok se => simp only [init_table_ship_effects]; rw [ih]

theorem init_table_result_ls_cpintensity (tbl : post_processing_tbl F) (s : PostState F) :
    (opengl_post_init_table tbl s).2.ls_cpintensity
      = (tbl_then
          (tbl_then (init_table_effects_section tbl.effects s)
            (init_table_ship_effects_section tbl.ship_effects))
          (init_table_light_shafts_section tbl.light_shafts)).1.ls_cpintensity := by
  have hem : ∀ u : PostState F, (init_table_end_marker tbl.end_marker u).1 = u := by
    intro u
    unfold init_table_end_marker
    cases tbl.end_marker <;> rfl
  have h1 : (init_table_try tbl s).1.ls_cpintensity
      = (tbl_then
          (tbl_then (init_table_effects_section tbl.effects s)
            (init_table_ship_effects_section tbl.ship_effects))
          (init_table_light_shafts_section tbl.light_shafts)).1.ls_cpintensity := by
    unfold init_table_try
    exact tbl_then_frame (fun u => u.ls_cpintensity) _ _ (fun u => by rw [hem u])
  unfold opengl_post_init_table
  cases hx : (init_table_try tbl s).2 <;> simp [hx, h1, PostState.logmsg]

/-- When the sections before it read and the `#Light Shafts` section reads in full, the
table load leaves the accumulation of lines 919-922 in `ls_cpintensity`. -/
theorem init_table_ls_cpintensity_loaded (tbl : post_processing_tbl F) (s : PostState F)
    (lson : Bool) (d w f i : F) (n : Int)
    (hbefore : (tbl_then (init_table_effects_section tbl.effects s)
      (init_table_ship_effects_section tbl.ship_effects)).2 = none)
    (hsec : tbl.light_shafts = some
      { always_on := .ok lson, density := .ok d, falloff := .ok f,
        weight := .ok w, intensity := .ok i, sample_number := .ok n }) :
    (opengl_post_init_table tbl s).2.ls_cpintensity = ls_cpintensity_of w f i n := by
  rw [init_table_result_ls_cpintensity]
  generalize tbl_then (init_table_effects_section tbl.effects s)
    (init_table_ship_effects_section tbl.ship_effects) = r at hbefore
  obtain ⟨u, x⟩ := r
  simp only at hbefore
  subst hbefore
  simp only [tbl_then, hsec, init_table_light_shafts_section, init_table_light_shafts]

/-- A table without a `#Light Shafts` section leaves `ls_cpintensity` as it was. -/
theorem init_table_ls_cpintensity_absent (tbl : post_processing_tbl F) (s : PostState F)
    (hnone : tbl.light_shafts = none) :
    (opengl_post_init_table tbl s).2.ls_cpintensity = s.ls_cpintensity := by
  rw [init_table_result_ls_cpintensity]
  simp only [hnone, init_table_light_shafts_section]
  rw [tbl_then_frame (fun u => u.ls_cpintensity) _ _ (fun u => rfl)]
  rw [tbl_then_frame (fun u => u.ls_cpintensity) _ _ (fun u => by
    unfold init_table_ship_effects_section
    cases tbl.ship_effects with
    | none => rfl
    | some items => exact init_table_ship_effects_ls_cpintensity items _)]
  unfold init_table_effects_section
  cases tbl.effects with
  | none => rfl
  | some items => exact init_table_effects_ls_cpintensity items false s

/-- Values of `round_to`: numbers that fit are kept, a tie goes to the even significand, the
sign is carried over, and `0.02` and `0.1` round to the known `float` and `double`. -/
theorem round_to_values :
    round_to 24 (1 / 2) = 1 / 2 ∧
    round_to 24 25 = 25 ∧
    round_to 24 16777215 = 16777215 ∧
    round_to 24 16777217 = 16777216 ∧
    round_to 24 16777219 = 16777220 ∧
    round_to 24 (268435450 / 536870912) = 1 / 2 ∧
    round_to 24 (2 / 100) = 5368709 / 268435456 ∧
    round_to 24 (-(2 / 100)) = -(5368709 / 268435456) ∧
    round_to 24 (1 / 3) = 11184811 / 33554432 ∧
    round_to 53 (1 / 10) = 3602879701896397 / 36028797018963968 := by
  decide!

/-- The running sum of line 921 in binary32 at weight `0.02f` and falloff `1.0f`: the first
additions are exact, the sum after 49 of them is below `50 * 0.02f`. -/
theorem ls_running_sum_binary32 :
    (List.range 1).foldl
        (fun acc (k : Nat) =>
          FloatOps.add_mul_pow acc (FloatOps.lit 2 2 : Float32) (FloatOps.lit 10 1)
            ((k : Int) + 1))
        (FloatOps.lit 2 2)
      = Float32.fin (2 * (5368709 / 268435456)) ∧
    (List.range 49).foldl
        (fun acc (k : Nat) =>
          FloatOps.add_mul_pow acc (FloatOps.lit 2 2 : Float32) (FloatOps.lit 10 1)
            ((k : Int) + 1))
        (FloatOps.lit 2 2)
      = Float32.fin (16777209 / 16777216) ∧
    (16777209 / 16777216 : ℚ) < 50 * (5368709 / 268435456) := by
  decide!

/-- The accumulation of lines 919-922 in binary32 at the default parameters. -/
theorem ls_cpintensity_of_binary32_default :
    ls_cpintensity_of (FloatOps.lit 2 2 : Float32) (FloatOps.lit 10 1) (FloatOps.lit 5 1) 50
      = Float32.fin (16777209 / 33554432) := by
  decide!

/-- The initialiser `0.5f * 50 * 0.02f` of line 39 in binary32. -/
theorem ls_cpintensity_initial_binary32 :
    (ls_cpintensity_initial : Float32) = Float32.fin (1 / 2) := by
  decide!

/-- The table load of the binary32 example. -/
theorem init_table_binary32_default :
    (opengl_post_init_table example_ls_tbl32 example_state32).2.ls_cpintensity
      = Float32.fin (16777209 / 33554432) := by
  rw [init_table_ls_cpintensity_loaded example_ls_tbl32 example_state32 true
    (FloatOps.lit 5 1) (FloatOps.lit 2 2) (FloatOps.lit 10 1) (FloatOps.lit 5 1) 50 rfl rfl]
  exact ls_cpintensity_of_binary32_default

/-- C13, counterexample: in binary32 (the arithmetic of C `float`, with the sum of line 921
carried in `double`), loading weight `0.02f`, falloff `1.0f`, intensity `0.5f` and 50 samples
leaves `ls_cpintensity = 16777209 / 33554432` (about 0.49999997). That is not `0.5`, not the
built-in initial value `0.5f * 50 * 0.02f` (which is `0.5`), not the exact value
`intensity * weight * 50` of the loaded floats and not that value rounded to `float`. -/
theorem binary32_light_shafts_rounding :
    example_ls_tbl32.light_shafts = some
      { always_on := .ok true, density := .ok (FloatOps.lit 5 1),
        falloff := .ok (FloatOps.lit 10 1), weight := .ok (FloatOps.lit 2 2),
        intensity := .ok (FloatOps.lit 5 1), sample_number := .ok 50 } ∧
    (FloatOps.lit 2 2 : Float32) = Float32.fin (5368709 / 268435456) ∧
    (FloatOps.lit 10 1 : Float32) = Float32.fin 1 ∧
    (FloatOps.lit 5 1 : Float32) = Float32.fin (1 / 2) ∧
    (opengl_post_init_table example_ls_tbl32 example_state32).1 = true ∧
    (opengl_post_init_table example_ls_tbl32 example_state32).2.ls_cpintensity
      = Float32.fin (16777209 / 33554432) ∧
    (opengl_post_init_table example_ls_tbl32 example_state32).2.ls_cpintensity
      ≠ Float32.fin (1 / 2) ∧
    (opengl_post_init_table example_ls_tbl32 example_state32).2.ls_cpintensity
      ≠ Float32.fin (1 / 2 * (5368709 / 268435456) * 50) ∧
    (opengl_post_init_table example_ls_tbl32 example_state32).2.ls_cpintensity
      ≠ Float32.fin (round_to 24 (1 / 2 * (5368709 / 268435456) * 50)) ∧
    (opengl_post_init_table example_ls_tbl32 example_state32).2.ls_cpintensity
      ≠ (ls_cpintensity_initial : Float32) ∧
    (ls_cpintensity_initial : Float32) = Float32.fin (1 / 2) := by
  rw [init_table_binary32_default, ls_cpintensity_initial_binary32]
  refine ⟨rfl, ?_, ?_, ?_, rfl, rfl, ?_, ?_, ?_, ?_, rfl⟩ <;> decide!

/-- C13: when the sections before it read and the `#Light Shafts` section supplies weight
`w`, falloff `f`, intensity `i` and a sample count `n >= 1`, `opengl_post_init_table` leaves
in `ls_cpintensity` the `float` product of `i` with the running sum that starts at `w` and
takes `acc += w * pow(f, k)` for `k = 1 .. n - 1` in this order, each step rounded. In exact
arithmetic (finite values of `XFloat`) this is `i * w * (f^0 + ... + f^(n-1))`, and
`i * w * n` for `f = 1`. In binary32 the rounding shows: weight `0.02f`, falloff `1.0f`,
`n = 50`, intensity `0.5f` give `16777209 / 33554432`, while the initial value
`0.5f * 50 * 0.02f` of the global, which is left as it is when the section is absent, is
`0.5`. -/
theorem light_shafts_cpintensity (tbl : post_processing_tbl F) (s : PostState F)
    (lson : Bool) (d w f i : F) (n : Int) (hn : 1 ≤ n)
    (hbefore : (tbl_then (init_table_effects_section tbl.effects s)
      (init_table_ship_effects_section tbl.ship_effects)).2 = none)
    (hsec : tbl.light_shafts = some
      { always_on := .ok lson, density := .ok d, falloff := .ok f,
        weight := .ok w, intensity := .ok i, sample_number := .ok n }) :
    (opengl_post_init_table tbl s).2.ls_cpintensity
      = FloatOps.mul
          ((List.range (n - 1).toNat).foldl
            (fun acc (k : Nat) => FloatOps.add_mul_pow acc w f ((k : Int) + 1)) w)
          i ∧
    (∀ (tblx : post_processing_tbl XFloat) (sx : PostState XFloat) (lsonx : Bool)
        (dq wq fq iq : ℚ),
      (tbl_then (init_table_effects_section tblx.effects sx)
        (init_table_ship_effects_section tblx.ship_effects)).2 = none →
      tblx.light_shafts = some
        { always_on := .ok lsonx, density := .ok (.fin dq), falloff := .ok (.fin fq),
          weight := .ok (.fin wq), intensity := .ok (.fin iq), sample_number := .ok n } →
      (opengl_post_init_table tblx sx).2.ls_cpintensity
        = .fin (iq * wq * Finset.sum (Finset.range n.toNat) (fun k => fq ^ k)) ∧
      (fq = 1 → (opengl_post_init_table tblx sx).2.ls_cpintensity = .fin (iq * wq * n))) ∧
    ls_cpintensity_of (XFloat.fin (2 / 100)) (XFloat.fin 1) (XFloat.fin (5 / 10)) 50
      = XFloat.fin (5 / 10) ∧
    (ls_cpintensity_initial : XFloat) = XFloat.fin (5 / 10) ∧
    (opengl_post_init_table example_ls_tbl32 example_state32).2.ls_cpintensity
      = Float32.fin (16777209 / 33554432) ∧
    (ls_cpintensity_initial : Float32) = Float32.fin (1 / 2) ∧
    (∀ (tbl2 : post_processing_tbl F) (s2 : PostState F),
      tbl2.light_shafts = none →
      (opengl_post_init_table tbl2 s2).2.ls_cpintensity = s2.ls_cpintensity) := by
  refine ⟨?_, ?_, ?_, ?_, init_table_binary32_default, ls_cpintensity_initial_binary32,
    fun tbl2 s2 hnone => init_table_ls_cpintensity_absent tbl2 s2 hnone⟩
  · rw [init_table_ls_cpintensity_loaded tbl s lson d w f i n hbefore hsec]
    rfl
  · intro tblx sx lsonx dq wq fq iq hb hs
    have hmain : (opengl_post_init_table tblx sx).2.ls_cpintensity
        = .fin (iq * wq * Finset.sum (Finset.range n.toNat) (fun k => fq ^ k)) := by
      rw [init_table_ls_cpintensity_loaded tblx sx lsonx _ _ _ _ n hb hs]
      exact ls_cpintensity_of_exact wq fq iq n hn
    refine ⟨hmain, ?_⟩
    intro hf
    rw [hmain, hf]
    have hcast : ((n.toNat : ℚ)) = (n : ℚ) := by
      have : ((n.toNat : Int)) = n := Int.toNat_of_nonneg (by omega)
      exact_mod_cast this
    simp [hcast]
  · rw [ls_cpintensity_of_exact _ _ _ 50 (by norm_num)]
    have h50 : Int.toNat 50 = 50 := rfl
    rw [h50]
    norm_num
  · simp only [ls_cpintensity_initial, FloatOps.mul, FloatOps.lit, FloatOps.ofInt,
      XFloat.lift2]
    norm_num

/-- C13, at the binary32 table whose light-shaft section holds the default parameters: the
load leaves the rounded running sum times the intensity. -/
theorem light_shafts_cpintensity_witness :
    (1 : Int) ≤ 50 ∧
    (tbl_then (init_table_effects_section example_ls_tbl32.effects example_state32)
      (init_table_ship_effects_section example_ls_tbl32.ship_effects)).2 = none ∧
    example_ls_tbl32.light_shafts = some
      { always_on := .ok true, density := .ok (FloatOps.lit 5 1),
        falloff := .ok (FloatOps.lit 10 1), weight := .ok (FloatOps.lit 2 2),
        intensity := .ok (FloatOps.lit 5 1), sample_number := .ok 50 } ∧
    (opengl_post_init_table example_ls_tbl32 example_state32).2.ls_cpintensity
      = FloatOps.mul
          ((List.range ((50 : Int) - 1).toNat).foldl
            (fun acc (k : Nat) =>
              FloatOps.add_mul_pow acc (FloatOps.lit 2 2 : Float32) (FloatOps.lit 10 1)
                ((k : Int) + 1))
            (FloatOps.lit 2 2))
          (FloatOps.lit 5 1) :=
  ⟨by decide, rfl, rfl,
    (light_shafts_cpintensity example_ls_tbl32 example_state32 true (FloatOps.lit 5 1)
      (FloatOps.lit 2 2) (FloatOps.lit 10 1) (FloatOps.lit 5 1) 50 (by decide) rfl rfl).1⟩

/-! ## The call record of the bloom pass -/

theorem calls_added_append (s t : PostState F) (new : List (GLCall F))
    (h : t.calls = s.calls ++ new) : calls_added s t = new := by
  unfold calls_added
  rw [h, List.drop_left]

theorem bloom_blur_level_eq (width height : Int) (pass dest_tex : Nat) (s : PostState F)
    (mipmap : Nat) :
    bloom_blur_level width height pass dest_tex s mipmap
      = { s with calls := s.calls ++ bloom_blur_level_calls width height pass dest_tex mipmap } := by
  simp [bloom_blur_level, bloom_blur_level_calls, PostState.call]

theorem foldl_calls_eq {α : Type} (f : PostState F → α → PostState F)
    (g : α → List (GLCall F))
    (h : ∀ s x, f s x = { s with calls := s.calls ++ g x }) :
    ∀ (l : List α) (s : PostState F),
      l.foldl f s = { s with calls := s.calls ++ l.flatMap g } := by
  intro l
  induction l with
  | nil => intro s; simp
  | cons x xs ih =>
    intro s
    rw [List.foldl_cons, ih, h]
    simp [List.flatMap_cons]

theorem bloom_blur_pass_eq (env : Env F) (width height : Int) (s : PostState F) (pass : Nat) :
    bloom_blur_pass env width height s pass
      = { s with calls := s.calls ++
            bloom_blur_pass_calls env width height s.Bloom_textures pass } := by
  unfold bloom_blur_pass
  simp only []
  rw [foldl_calls_eq _ _ (bloom_blur_level_eq width height pass _)]
  by_cases hp : pass = 0
  · subst hp
    simp [bloom_blur_pass_calls, opengl_shader_set_current_created, opengl_shader_set_current,
      gr_opengl_maybe_create_shader, PostState.call, PostState.Bloom_texture]
  · simp [hp, bloom_blur_pass_calls, opengl_shader_set_current_created,
      opengl_shader_set_current, gr_opengl_maybe_create_shader, PostState.call,
      PostState.Bloom_texture]

theorem range_two : List.range 2 = [0, 1] := rfl

theorem bloom_eq (env : Env F) (s : PostState F) :
    opengl_post_pass_bloom env s
      = { s with
          calls := s.calls ++ bloom_calls env s
          GL_state := { s.GL_state with
            current_framebuffer := s.Bloom_framebuffer
            alpha_blend_mode := .ALPHA_BLEND_NONE
            blend := false } } := by
  unfold opengl_post_pass_bloom
  simp only [range_two, List.foldl_cons, List.foldl_nil, bloom_blur_pass_eq]
  simp [bloom_calls, bloom_bright_calls, bloom_blur_calls, bloom_composite_calls, range_two,
    GL_state_ScissorTest, GL_state_BindFrameBuffer, GL_state_SetAlphaBlendMode,
    opengl_shader_set_current_created, opengl_shader_set_current,
    gr_opengl_maybe_create_shader, PostState.call, PostState.Bloom_texture]

theorem range_four : List.range MAX_MIP_BLUR_LEVELS = [0, 1, 2, 3] := rfl

theorem draw_records_append (l1 l2 : List (GLCall F)) :
    ∀ c : draw_context F,
      draw_records c (l1 ++ l2) = draw_records c l1 ++ draw_records (c.after l1) l2 := by
  induction l1 with
  | nil => intro c; rfl
  | cons x xs ih =>
    intro c
    rw [List.cons_append]
    by_cases hx : x.is_draw = true
    · simp only [draw_records, draw_context.after, hx, if_true, List.cons_append]
      rw [ih]
    · simp only [draw_records, draw_context.after, hx, Bool.false_eq_true, if_false]
      rw [ih]

theorem draw_context_after_append (l1 l2 : List (GLCall F)) :
    ∀ c : draw_context F, c.after (l1 ++ l2) = (c.after l1).after l2 := by
  induction l1 with
  | nil => intro c; rfl
  | cons x xs ih =>
    intro c
    rw [List.cons_append]
    by_cases hx : x.is_draw = true
    · simp only [draw_context.after, hx, if_true]
      rw [ih]
    · simp only [draw_context.after, hx, Bool.false_eq_true, if_false]
      rw [ih]

theorem bloom_blur_level_draw (width height : Int) (pass dest_tex mipmap : Nat)
    (c : draw_context F) :
    draw_records c (bloom_blur_level_calls width height pass dest_tex mipmap)
      = [ { c with
            attachment := some (dest_tex, (mipmap : Int))
            viewport := some (width >>> mipmap, height >>> mipmap)
            uniform := some (.blur
              (if pass ≠ 0 then
                FloatOps.div (FloatOps.lit 10 1) (FloatOps.ofInt (width >>> mipmap))
               else FloatOps.div (FloatOps.lit 10 1) (FloatOps.ofInt (height >>> mipmap)))
              mipmap) } ] ∧
    c.after (bloom_blur_level_calls width height pass dest_tex mipmap)
      = { c with
          attachment := some (dest_tex, (mipmap : Int))
          viewport := some (width >>> mipmap, height >>> mipmap)
          uniform := some (.blur
            (if pass ≠ 0 then
              FloatOps.div (FloatOps.lit 10 1) (FloatOps.ofInt (width >>> mipmap))
             else FloatOps.div (FloatOps.lit 10 1) (FloatOps.ofInt (height >>> mipmap)))
            mipmap) } := by
  constructor <;> rfl

theorem bloom_blur_pass_draw (env : Env F) (width height : Int) (textures : Nat × Nat)
    (pass : Nat) (c : draw_context F) :
    draw_records c (bloom_blur_pass_calls env width height textures pass)
      = (List.range MAX_MIP_BLUR_LEVELS).map (blur_draw env width height textures pass) ∧
    c.after (bloom_blur_pass_calls env width height textures pass)
      = blur_draw env width height textures pass 3 := by
  constructor <;> rfl

theorem bloom_blur_draw (env : Env F) (s : PostState F) (c : draw_context F) :
    draw_records c (bloom_blur_calls env s)
      = blur_draws env (s.Post_texture_width >>> 1) (s.Post_texture_height >>> 1)
          s.Bloom_textures ∧
    c.after (bloom_blur_calls env s)
      = blur_draw env (s.Post_texture_width >>> 1) (s.Post_texture_height >>> 1)
          s.Bloom_textures 1 3 := by
  simp only [bloom_blur_calls, blur_draws, range_two, List.flatMap_cons, List.flatMap_nil,
    List.append_nil, draw_records_append, draw_context_after_append, bloom_blur_pass_draw,
    List.append_assoc]
  exact ⟨trivial, trivial⟩

theorem bloom_bright_draw (env : Env F) (s : PostState F) (c : draw_context F) :
    draw_records c (bloom_bright_calls env s) = [bright_draw env s c] ∧
    c.after (bloom_bright_calls env s)
      = { bright_draw env s c with tex0 := some s.Bloom_textures.1 } := by
  constructor <;> rfl

theorem bloom_composite_draw_eq (env : Env F) (s : PostState F) (c : draw_context F) :
    draw_records c (bloom_composite_calls env s) = [bloom_composite_draw env s] := by
  rfl

theorem bloom_draw_records (env : Env F) (s : PostState F) (c : draw_context F) :
    draw_records c (calls_added s (opengl_post_pass_bloom env s))
      = bright_draw env s c ::
          (blur_draws env (s.Post_texture_width >>> 1) (s.Post_texture_height >>> 1)
            s.Bloom_textures ++ [bloom_composite_draw env s]) := by
  rw [calls_added_append s _ (bloom_calls env s) (by rw [bloom_eq])]
  unfold bloom_calls
  rw [draw_records_append, draw_records_append, (bloom_bright_draw env s c).1,
    (bloom_blur_draw env s _).1, bloom_composite_draw_eq]
  rfl

theorem bloom_blur_draws_filter (env : Env F) (s : PostState F) (c : draw_context F) :
    (draw_records c (calls_added s (opengl_post_pass_bloom env s))).filter draw_context.is_blur
      = blur_draws env (s.Post_texture_width >>> 1) (s.Post_texture_height >>> 1)
          s.Bloom_textures := by
  rw [bloom_draw_records]
  rfl

theorem int_shiftRight_one (x : Int) (hx : 0 ≤ x) : x >>> 1 = x / 2 := by
  obtain ⟨m, rfl⟩ := Int.eq_ofNat_of_zero_le hx
  have h := Int.shiftRight_coe_nat m 1
  rw [Nat.cast_one] at h
  rw [h, Nat.shiftRight_eq_div_pow]
  norm_num

theorem half_size_level_pos (x : Int) (hx : 16 ≤ x) (k : Nat) (hk : k < MAX_MIP_BLUR_LEVELS) :
    (0 : Int) < (x >>> 1) >>> k := by
  have hk4 : k < 4 := hk
  rw [int_shiftRight_one x (by omega), Int.shiftRight_eq_div_pow]
  interval_cases k <;> norm_num <;> omega

/-! ## C14 -/

/-- C14: with `Post_texture_width >= 16` and `Post_texture_height >= 16`, `w` and `h` the
halved sizes, the bloom pass issues 16 blur draws, draw `8 * iteration + 4 * pass + k` being
the one of mip level `k` of pass `pass`; the pass that requests the horizontal variant
(pass 1) is given `texSize = 1.0 / (w >> k)`, the pass that requests the vertical variant
(pass 0) is given `texSize = 1.0 / (h >> k)`, both draw with the viewport `(w >> k, h >> k)`
into level `k` of the destination texture, and `w >> k` and `h >> k` are positive. -/
theorem bloom_blur_texel_size (env : Env F) (s : PostState F) (c : draw_context F)
    (hw : 16 ≤ s.Post_texture_width) (hh : 16 ≤ s.Post_texture_height) :
    let w := s.Post_texture_width >>> 1
    let h := s.Post_texture_height >>> 1
    let draws :=
      (draw_records c (calls_added s (opengl_post_pass_bloom env s))).filter
        draw_context.is_blur
    draws.length = 2 * 2 * MAX_MIP_BLUR_LEVELS ∧
    (∀ iteration k, iteration < 2 → k < MAX_MIP_BLUR_LEVELS →
      ∃ r, draws[8 * iteration + 4 * 1 + k]? = some r ∧
        r.requested = some (.SDR_TYPE_POST_PROCESS_BLUR, env.SDR_FLAG_BLUR_HORIZONTAL) ∧
        r.uniform = some (.blur
          (FloatOps.div (FloatOps.lit 10 1) (FloatOps.ofInt (w >>> k))) k) ∧
        r.viewport = some (w >>> k, h >>> k) ∧
        r.attachment = some (s.Bloom_textures.1, (k : Int))) ∧
    (∀ iteration k, iteration < 2 → k < MAX_MIP_BLUR_LEVELS →
      ∃ r, draws[8 * iteration + 4 * 0 + k]? = some r ∧
        r.requested = some (.SDR_TYPE_POST_PROCESS_BLUR, env.SDR_FLAG_BLUR_VERTICAL) ∧
        r.uniform = some (.blur
          (FloatOps.div (FloatOps.lit 10 1) (FloatOps.ofInt (h >>> k))) k) ∧
        r.viewport = some (w >>> k, h >>> k) ∧
        r.attachment = some (s.Bloom_textures.2, (k : Int))) ∧
    (∀ k, k < MAX_MIP_BLUR_LEVELS → (0 : Int) < w >>> k ∧ (0 : Int) < h >>> k) := by
  intro w h draws
  have hd : draws = blur_draws env w h s.Bloom_textures := bloom_blur_draws_filter env s c
  refine ⟨by rw [hd]; rfl, ?_, ?_, ?_⟩
  · intro iteration k hi hk
    have hk4 : k < 4 := hk
    rw [hd]
    interval_cases iteration <;> interval_cases k <;> exact ⟨_, rfl, rfl, rfl, rfl, rfl⟩
  · intro iteration k hi hk
    have hk4 : k < 4 := hk
    rw [hd]
    interval_cases iteration <;> interval_cases k <;> exact ⟨_, rfl, rfl, rfl, rfl, rfl⟩
  · intro k hk
    exact ⟨half_size_level_pos _ hw k hk, half_size_level_pos _ hh k hk⟩

/-- The example state (1024 x 768) meets the size bounds of C14. -/
theorem bloom_blur_texel_size_witness :
    (16 : Int) ≤ example_state.Post_texture_width ∧
    (16 : Int) ≤ example_state.Post_texture_height ∧
    ((draw_records draw_context.unbound
        (calls_added example_state (opengl_post_pass_bloom example_env example_state))).filter
      draw_context.is_blur).length = 2 * 2 * MAX_MIP_BLUR_LEVELS :=
  ⟨by decide, by decide,
    (bloom_blur_texel_size example_env example_state draw_context.unbound (by decide)
      (by decide)).1⟩

/-! ## C18 -/

/-- C18, counterexample: with the horizontal flag 1 and the vertical flag 2, the blur draws
of the bloom pass request the vertical variant for the first four draws of each iteration
and the horizontal variant for the last four. -/
theorem bloom_blur_starts_vertical :
    example_env.SDR_FLAG_BLUR_HORIZONTAL = 1 ∧ example_env.SDR_FLAG_BLUR_VERTICAL = 2 ∧
    ((draw_records draw_context.unbound
        (calls_added example_state (opengl_post_pass_bloom example_env example_state))).filter
      draw_context.is_blur).map (fun r => r.requested.map Prod.snd)
      = [some 2, some 2, some 2, some 2, some 1, some 1, some 1, some 1,
         some 2, some 2, some 2, some 2, some 1, some 1, some 1, some 1] := by
  refine ⟨rfl, rfl, ?_⟩
  rw [bloom_blur_draws_filter]
  rfl

/-- C18, amended: the blur stage of the bloom pass consists of two iterations; within each
the pass requesting the vertical variant runs first over the mip levels
`0 .. MAX_MIP_BLUR_LEVELS - 1` in ascending order and the pass requesting the horizontal
variant runs second over the same levels, `2 * 2 * MAX_MIP_BLUR_LEVELS = 16` blur draws in
all. -/
theorem bloom_blur_order (env : Env F) (s : PostState F) (c : draw_context F) :
    let draws :=
      (draw_records c (calls_added s (opengl_post_pass_bloom env s))).filter
        draw_context.is_blur
    draws.length = 2 * 2 * MAX_MIP_BLUR_LEVELS ∧
    2 * 2 * MAX_MIP_BLUR_LEVELS = 16 ∧
    draws.map (fun r => (r.requested, r.attachment.map Prod.snd))
      = (List.range 2).flatMap (fun _iteration =>
          (List.range MAX_MIP_BLUR_LEVELS).map (fun k =>
            (some (shader_type.SDR_TYPE_POST_PROCESS_BLUR, env.SDR_FLAG_BLUR_VERTICAL),
             some (k : Int))) ++
          (List.range MAX_MIP_BLUR_LEVELS).map (fun k =>
            (some (shader_type.SDR_TYPE_POST_PROCESS_BLUR, env.SDR_FLAG_BLUR_HORIZONTAL),
             some (k : Int)))) := by
  intro draws
  have hd : draws = blur_draws env (s.Post_texture_width >>> 1) (s.Post_texture_height >>> 1)
      s.Bloom_textures := bloom_blur_draws_filter env s c
  refine ⟨by rw [hd]; rfl, rfl, ?_⟩
  rw [hd]
  rfl

/-! ## C19 -/

/-- C19: with two distinct bloom textures `T0 = Bloom_textures[0]` and
`T1 = Bloom_textures[1]`, the 18 draws of the bloom pass are the bright draw, 16 blur draws
(four passes of four mip levels) and the composite draw, and: no blur draw samples the
texture it renders to; the bright draw renders to level 0 of `T0`, after it `T0` is bound
and `glGenerateMipmap` fills its other levels, and the first blur pass samples `T0`; every
later blur pass samples the texture the pass before it rendered to; each blur pass renders
to the levels `0 .. MAX_MIP_BLUR_LEVELS - 1` of its destination, at level `k` with the
parameter `level = k`; and the composite draw samples the texture the last blur pass
rendered to. -/
theorem bloom_ping_pong (env : Env F) (s : PostState F) (c : draw_context F)
    (hne : s.Bloom_textures.1 ≠ s.Bloom_textures.2) :
    let calls := calls_added s (opengl_post_pass_bloom env s)
    let draws := draw_records c calls
    let dest := fun (r : draw_context F) => r.attachment.map Prod.fst
    draws.length = 2 + 2 * 2 * MAX_MIP_BLUR_LEVELS ∧
    (draws.filter draw_context.is_blur = (draws.drop 1).take (2 * 2 * MAX_MIP_BLUR_LEVELS)) ∧
    (∀ r ∈ draws.filter draw_context.is_blur, r.tex0 ≠ dest r) ∧
    (∃ b, draws[0]? = some b ∧ b.attachment = some (s.Bloom_textures.1, 0) ∧
      calls[10]? = some (.Texture_Enable 0 s.Bloom_textures.1) ∧
      calls[11]? = some .glGenerateMipmap ∧
      ∀ k, k < MAX_MIP_BLUR_LEVELS → ∃ r, draws[1 + k]? = some r ∧ r.tex0 = dest b) ∧
    (∀ p k j, p < 3 → k < MAX_MIP_BLUR_LEVELS → j < MAX_MIP_BLUR_LEVELS →
      ∃ r q, draws[1 + 4 * (p + 1) + k]? = some r ∧ draws[1 + 4 * p + j]? = some q ∧
        r.tex0 = dest q) ∧
    (∀ p k, p < 4 → k < MAX_MIP_BLUR_LEVELS →
      ∃ r t, draws[1 + 4 * p + k]? = some r ∧
        r.tex0 = some (if p % 2 = 0 then s.Bloom_textures.1 else s.Bloom_textures.2) ∧
        r.attachment
          = some (if p % 2 = 0 then s.Bloom_textures.2 else s.Bloom_textures.1, (k : Int)) ∧
        r.uniform = some (.blur t k)) ∧
    (∃ r q, draws[17]? = some r ∧ draws[16]? = some q ∧ r.tex0 = dest q ∧
      r.requested = some (.SDR_TYPE_POST_PROCESS_BLOOM_COMP, 0)) := by
  intro calls draws dest
  have hd : draws = bright_draw env s c ::
      (blur_draws env (s.Post_texture_width >>> 1) (s.Post_texture_height >>> 1)
        s.Bloom_textures ++ [bloom_composite_draw env s]) := bloom_draw_records env s c
  have hc : calls = bloom_calls env s := calls_added_append s _ _ (by rw [bloom_eq])
  refine ⟨by rw [hd]; rfl, by rw [hd]; rfl, ?_, ?_, ?_, ?_, ?_⟩
  · intro r hr
    rw [bloom_blur_draws_filter] at hr
    obtain ⟨iteration, -, hr⟩ := List.mem_flatMap.1 hr
    obtain ⟨pass, hpass, hr⟩ := List.mem_flatMap.1 hr
    obtain ⟨k, -, rfl⟩ := List.mem_map.1 hr
    have hp2 : pass < 2 := List.mem_range.1 hpass
    interval_cases pass
    · intro h
      exact hne (Option.some.inj h)
    · intro h
      exact hne (Option.some.inj h).symm
  · refine ⟨_, by rw [hd]; rfl, rfl, by rw [hc]; rfl, by rw [hc]; rfl, ?_⟩
    intro k hk
    have hk4 : k < 4 := hk
    rw [hd]
    interval_cases k <;> exact ⟨_, rfl, rfl⟩
  · intro p k j hp hk hj
    have hk4 : k < 4 := hk
    have hj4 : j < 4 := hj
    rw [hd]
    interval_cases p <;> interval_cases k <;> interval_cases j <;> exact ⟨_, _, rfl, rfl, rfl⟩
  · intro p k hp hk
    have hk4 : k < 4 := hk
    rw [hd]
    interval_cases p <;> interval_cases k <;> exact ⟨_, _, rfl, rfl, rfl, rfl⟩
  · rw [hd]
    exact ⟨_, _, rfl, rfl, rfl, rfl⟩

/-- The example state has the two distinct bloom textures 2 and 3. -/
theorem bloom_ping_pong_witness :
    example_state.Bloom_textures.1 ≠ example_state.Bloom_textures.2 ∧
    (draw_records draw_context.unbound
      (calls_added example_state (opengl_post_pass_bloom example_env example_state))).length
      = 2 + 2 * 2 * MAX_MIP_BLUR_LEVELS :=
  ⟨by decide, (bloom_ping_pong example_env example_state draw_context.unbound (by decide)).1⟩

/-! ## The call record of the other passes -/

theorem tonemap_eq (env : Env F) (s : PostState F) :
    opengl_post_pass_tonemap env s = { s with calls := s.calls ++ tonemap_calls env } := by
  simp [opengl_post_pass_tonemap, tonemap_calls, opengl_shader_set_current_created,
    opengl_shader_set_current, gr_opengl_maybe_create_shader, PostState.call]

theorem recompile_eq (env : Env F) (s : PostState F) :
    recompile_aa_shader env s
      = { s with
          calls := s.calls ++ recompile_calls env s.Gr_aa_mode_last_frame s.Gr_aa_mode
          log := s.log ++ [.recompiling_aa_shaders]
          Gr_aa_mode_last_frame := s.Gr_aa_mode } := by
  unfold recompile_aa_shader
  simp only []
  rw [foldl_calls_eq _ (fun sdr => [GLCall.maybe_create_shader sdr 0])
    (by intro s x; simp [gr_opengl_maybe_create_shader, PostState.call])]
  rw [foldl_calls_eq _ (fun sdr => [GLCall.maybe_create_shader sdr 0,
      GLCall.delete_shader (env.maybe_create_shader sdr 0)])
    (by intro s x; simp [gr_opengl_maybe_create_shader, PostState.call])]
  simp [recompile_calls, PostState.logmsg]

theorem fxaa_eq (env : Env F) (s : PostState F) :
    opengl_post_pass_fxaa env s
      = { s with
          calls := s.calls ++ fxaa_calls env s
          log := s.log ++ aa_recompile_log s
          Gr_aa_mode_last_frame := s.Gr_aa_mode } := by
  unfold opengl_post_pass_fxaa
  by_cases h : s.Gr_aa_mode_last_frame = s.Gr_aa_mode
  · simp [h, fxaa_calls, aa_recompile_calls, aa_recompile_log,
      opengl_shader_set_current_created, opengl_shader_set_current,
      gr_opengl_maybe_create_shader, PostState.call]
  · simp [h, recompile_eq, fxaa_calls, aa_recompile_calls, aa_recompile_log,
      opengl_shader_set_current_created, opengl_shader_set_current,
      gr_opengl_maybe_create_shader, PostState.call]

theorem smaa_eq (env : Env F) (s : PostState F) :
    opengl_post_pass_smaa env s
      = { s with
          calls := s.calls ++ smaa_calls env s
          log := s.log ++ aa_recompile_log s
          Gr_aa_mode_last_frame := s.Gr_aa_mode } := by
  unfold opengl_post_pass_smaa
  by_cases h : s.Gr_aa_mode_last_frame = s.Gr_aa_mode
  · by_cases hr : s.GL_rendering_to_texture = true
    · simp [h, hr, smaa_calls, smaa_stage_calls, smaa_resolve_calls, aa_recompile_calls,
        aa_recompile_log, smaa_detect_edges, smaa_calculate_blending_weights,
        smaa_neighborhood_blending, smaa_resolve, GL_state_PushFramebufferState,
        GL_state_PopFramebufferState, GL_state_BindFrameBuffer,
        opengl_shader_set_current_created, opengl_shader_set_current,
        gr_opengl_maybe_create_shader, PostState.call]
    · simp [h, hr, smaa_calls, smaa_stage_calls, smaa_resolve_calls, aa_recompile_calls,
        aa_recompile_log, smaa_detect_edges, smaa_calculate_blending_weights,
        smaa_neighborhood_blending, smaa_resolve, GL_state_PushFramebufferState,
        GL_state_PopFramebufferState, GL_state_BindFrameBuffer,
        opengl_shader_set_current_created, opengl_shader_set_current,
        gr_opengl_maybe_create_shader, PostState.call]
  · by_cases hr : s.GL_rendering_to_texture = true
    · simp [h, hr, recompile_eq, smaa_calls, smaa_stage_calls, smaa_resolve_calls,
        aa_recompile_calls,
        aa_recompile_log, smaa_detect_edges, smaa_calculate_blending_weights,
        smaa_neighborhood_blending, smaa_resolve, GL_state_PushFramebufferState,
        GL_state_PopFramebufferState, GL_state_BindFrameBuffer,
        opengl_shader_set_current_created, opengl_shader_set_current,
        gr_opengl_maybe_create_shader, PostState.call]
    · simp [h, hr, recompile_eq, smaa_calls, smaa_stage_calls, smaa_resolve_calls,
        aa_recompile_calls,
        aa_recompile_log, smaa_detect_edges, smaa_calculate_blending_weights,
        smaa_neighborhood_blending, smaa_resolve, GL_state_PushFramebufferState,
        GL_state_PopFramebufferState, GL_state_BindFrameBuffer,
        opengl_shader_set_current_created, opengl_shader_set_current,
        gr_opengl_maybe_create_shader, PostState.call]

theorem lightshafts_loop_eq (env : Env F) (lights : List (global_light F)) :
    ∀ s : PostState F,
      lightshafts_loop env lights s
        = match lights.find? lightshaft_qualifies with
          | some l =>
            { s with
              calls := s.calls ++ lightshaft_calls env s l
              GL_state := { s.GL_state with
                blend := false, alpha_blend_mode := .ALPHA_BLEND_ADDITIVE } }
          | none => s := by
  induction lights with
  | nil => intro s; rfl
  | cons l rest ih =>
    intro s
    unfold lightshafts_loop
    by_cases hg : l.has_glare = true
    · by_cases hd : FloatOps.gt l.dot_fvec (FloatOps.lit 7 1) = true
      · simp [hg, hd, List.find?_cons, lightshaft_qualifies, lightshaft_calls, GL_state_Blend,
          GL_state_SetAlphaBlendMode, PostState.call]
      · simp [hg, hd, List.find?_cons, lightshaft_qualifies, ih]
    · simp [hg, List.find?_cons, lightshaft_qualifies, ih]

theorem lightshafts_eq (env : Env F) (s : PostState F) :
    opengl_post_lightshafts env s
      = { s with
          calls := s.calls ++ lightshafts_calls env s
          GL_state := s.GL_state.after_lightshafts (lightshafts_light env s).isSome } := by
  unfold opengl_post_lightshafts lightshafts_calls lightshafts_light
    opengl_state.after_lightshafts
  by_cases hen : lightshafts_enabled s = true
  · have hen2 : (!s.Game_subspace_effect && s.ls_on && !s.ls_force_off) = true := hen
    simp only [hen, if_true]
    rw [show (opengl_shader_set_current_created env
        shader_type.SDR_TYPE_POST_PROCESS_LIGHTSHAFTS 0 s)
        = { s with calls := s.calls ++
            [GLCall.maybe_create_shader .SDR_TYPE_POST_PROCESS_LIGHTSHAFTS 0,
             GLCall.shader_set_current
              (some (env.maybe_create_shader .SDR_TYPE_POST_PROCESS_LIGHTSHAFTS 0))] } by
      simp [opengl_shader_set_current_created, opengl_shader_set_current,
        gr_opengl_maybe_create_shader, PostState.call]]
    simp only [hen2, if_true]
    rw [lightshafts_loop_eq]
    cases env.lights.find? lightshaft_qualifies with
    | none => simp
    | some l => simp [lightshaft_calls]
  · have hen2 : (!s.Game_subspace_effect && s.ls_on && !s.ls_force_off) = false := by
      simpa [lightshafts_enabled] using hen
    have hen3 : lightshafts_enabled s = false := by simpa using hen
    simp [hen3, hen2, opengl_shader_set_current_created, opengl_shader_set_current,
      gr_opengl_maybe_create_shader, PostState.call]

/-! ## C12 -/

theorem find?_first {α : Type} (p : α → Bool) (l : α) (post : List α) (hl : p l = true) :
    ∀ pre : List α, (∀ a ∈ pre, p a = false) → (pre ++ l :: post).find? p = some l := by
  intro pre
  induction pre with
  | nil => intro _; simp [List.find?_cons, hl]
  | cons x xs ih =>
    intro h
    have hx : p x = false := h x (List.mem_cons_self _ _)
    rw [List.cons_append, List.find?_cons, hx]
    exact ih (fun a ha => h a (List.mem_cons_of_mem _ ha))

theorem lightshafts_added (env : Env F) (s : PostState F) :
    calls_added s (opengl_post_lightshafts env s) = lightshafts_calls env s :=
  calls_added_append s _ _ (by rw [lightshafts_eq])

theorem lightshafts_draw_count (env : Env F) (s : PostState F) :
    ((lightshafts_calls env s).filter GLCall.is_draw).length
      = if (lightshafts_light env s).isSome then 1 else 0 := by
  unfold lightshafts_calls
  cases lightshafts_light env s with
  | none => rfl
  | some l => rfl

theorem lightshafts_light_isSome (env : Env F) (s : PostState F) :
    (lightshafts_light env s).isSome = true
      ↔ lightshafts_enabled s = true ∧ ∃ l ∈ env.lights, lightshaft_qualifies l = true := by
  unfold lightshafts_light
  by_cases hen : lightshafts_enabled s = true
  · simp [hen, List.find?_isSome]
  · simp [hen]

theorem lightshafts_first_qualifying (env : Env F) (s : PostState F)
    (pre : List (global_light F)) (l : global_light F) (post : List (global_light F))
    (hlights : env.lights = pre ++ l :: post)
    (hpre : ∀ a ∈ pre, lightshaft_qualifies a = false) (hl : lightshaft_qualifies l = true)
    (hen : lightshafts_enabled s = true) :
    calls_added s (opengl_post_lightshafts env s)
      = [ GLCall.maybe_create_shader .SDR_TYPE_POST_PROCESS_LIGHTSHAFTS 0,
          GLCall.shader_set_current
            (some (env.maybe_create_shader .SDR_TYPE_POST_PROCESS_LIGHTSHAFTS 0)) ] ++
        lightshaft_calls env s l := by
  have hfind : env.lights.find? lightshaft_qualifies = some l := by
    rw [hlights]
    exact find?_first _ l post hl pre hpre
  rw [lightshafts_added]
  unfold lightshafts_calls lightshafts_light
  rw [if_pos hen, hfind]

/-- C12: `opengl_post_lightshafts` issues at most one draw; it issues exactly one if and
only if the subspace effect is inactive, `ls_on` is set, `ls_force_off` is clear and some
global light has glare and a dot product with the view forward axis `> 0.7f`; the calls
added are then the shader selection followed by the calls for the first such light of the
list (every light before it fails the test); in exact arithmetic a light at 0.7 fails the
test and a light with glare at 0.701 passes it, and of the three example lights at 0.7,
0.701 and 0.9 the one at 0.701 is drawn. -/
theorem lightshafts_gating (env : Env F) (s : PostState F) :
    let added := calls_added s (opengl_post_lightshafts env s)
    let draws := added.filter GLCall.is_draw
    draws.length ≤ 1 ∧
    (draws.length = 1 ↔
      (s.Game_subspace_effect = false ∧ s.ls_on = true ∧ s.ls_force_off = false) ∧
      ∃ l ∈ env.lights,
        l.has_glare = true ∧ FloatOps.gt l.dot_fvec (FloatOps.lit 7 1) = true) ∧
    (∀ pre l post, env.lights = pre ++ l :: post →
      (∀ a ∈ pre, ¬ (a.has_glare = true ∧ FloatOps.gt a.dot_fvec (FloatOps.lit 7 1) = true)) →
      l.has_glare = true → FloatOps.gt l.dot_fvec (FloatOps.lit 7 1) = true →
      s.Game_subspace_effect = false → s.ls_on = true → s.ls_force_off = false →
      added
        = [ GLCall.maybe_create_shader .SDR_TYPE_POST_PROCESS_LIGHTSHAFTS 0,
            GLCall.shader_set_current
              (some (env.maybe_create_shader .SDR_TYPE_POST_PROCESS_LIGHTSHAFTS 0)) ] ++
          lightshaft_calls env s l) ∧
    (∀ l : global_light XFloat, l.dot_fvec = .fin (7 / 10) →
      lightshaft_qualifies l = false) ∧
    (∀ l : global_light XFloat, l.has_glare = true → l.dot_fvec = .fin (701 / 1000) →
      lightshaft_qualifies l = true) ∧
    (∃ l, example_lights_env.lights[1]? = some l ∧ l.dot_fvec = .fin (701 / 1000) ∧
      calls_added example_lights_state
          (opengl_post_lightshafts example_lights_env example_lights_state)
        = [ GLCall.maybe_create_shader .SDR_TYPE_POST_PROCESS_LIGHTSHAFTS 0,
            GLCall.shader_set_current (some 6) ] ++
          lightshaft_calls example_lights_env example_lights_state l) := by
  intro added draws
  have hadd : added = lightshafts_calls env s := lightshafts_added env s
  have hcount : draws.length = if (lightshafts_light env s).isSome then 1 else 0 := by
    show (added.filter GLCall.is_draw).length = _
    rw [hadd]
    exact lightshafts_draw_count env s
  have hen : lightshafts_enabled s = true
      ↔ (s.Game_subspace_effect = false ∧ s.ls_on = true ∧ s.ls_force_off = false) := by
    simp [lightshafts_enabled, and_assoc]
  have hq : ∀ l : global_light F, lightshaft_qualifies l = true
      ↔ (l.has_glare = true ∧ FloatOps.gt l.dot_fvec (FloatOps.lit 7 1) = true) := by
    intro l
    simp [lightshaft_qualifies]
  refine ⟨?_, ?_, ?_, ?_, ?_, ?_⟩
  · rw [hcount]
    split <;> omega
  · rw [hcount, ← hen]
    constructor
    · intro h
      have h1 : (lightshafts_light env s).isSome = true := by
        by_contra hc
        rw [if_neg hc] at h
        omega
      obtain ⟨h2, l, hl, hl2⟩ := (lightshafts_light_isSome env s).1 h1
      exact ⟨h2, l, hl, (hq l).1 hl2⟩
    · rintro ⟨h2, l, hl, hl2⟩
      rw [if_pos ((lightshafts_light_isSome env s).2 ⟨h2, l, hl, (hq l).2 hl2⟩)]
  · intro pre l post hlights hpre hg hd h1 h2 h3
    refine lightshafts_first_qualifying env s pre l post hlights ?_ ((hq l).2 ⟨hg, hd⟩)
      (hen.2 ⟨h1, h2, h3⟩)
    intro a ha
    have := hpre a ha
    rw [← hq a] at this
    simpa using this
  · intro l hl
    simp [lightshaft_qualifies, hl, FloatOps.gt, FloatOps.lit, XFloat.gt]
  · intro l hg hl
    simp [lightshaft_qualifies, hl, hg, FloatOps.gt, FloatOps.lit, XFloat.gt]
    norm_num
  · refine ⟨⟨true, .fin (701 / 1000), .fin (1 / 10), .fin 0⟩, rfl, rfl, ?_⟩
    refine lightshafts_first_qualifying example_lights_env example_lights_state
      [⟨true, .fin (7 / 10), .fin 0, .fin 0⟩] _
      [⟨true, .fin (9 / 10), .fin (2 / 10), .fin 0⟩] rfl ?_ ?_ rfl
    · intro a ha
      rw [List.mem_singleton] at ha
      subst ha
      simp [lightshaft_qualifies, FloatOps.gt, FloatOps.lit, XFloat.gt]
    · simp [lightshaft_qualifies, FloatOps.gt, FloatOps.lit, XFloat.gt]
      norm_num

/-! ## The call record of a frame -/

@[simp] theorem bloom_calls_congr (env : Env F) (s : PostState F) (g : opengl_state)
    (c : List (GLCall F)) (l : List LogMsg) (b : Bool) (m : AntiAliasMode) :
    bloom_calls env { s with
        GL_state := g, calls := c, log := l, Post_in_frame := b, Gr_aa_mode_last_frame := m }
      = bloom_calls env s := rfl

@[simp] theorem aa_calls_congr (env : Env F) (s : PostState F) (g : opengl_state)
    (c : List (GLCall F)) (l : List LogMsg) (b : Bool) :
    aa_calls env { s with GL_state := g, calls := c, log := l, Post_in_frame := b }
      = aa_calls env s := rfl

@[simp] theorem smaa_calls_congr (env : Env F) (s : PostState F) (g : opengl_state)
    (c : List (GLCall F)) (l : List LogMsg) (b : Bool) :
    smaa_calls env { s with GL_state := g, calls := c, log := l, Post_in_frame := b }
      = smaa_calls env s := rfl

@[simp] theorem fxaa_calls_congr (env : Env F) (s : PostState F) (g : opengl_state)
    (c : List (GLCall F)) (l : List LogMsg) (b : Bool) :
    fxaa_calls env { s with GL_state := g, calls := c, log := l, Post_in_frame := b }
      = fxaa_calls env s := rfl

@[simp] theorem aa_recompile_log_congr (s : PostState F) (g : opengl_state)
    (c : List (GLCall F)) (l : List LogMsg) (b : Bool) :
    aa_recompile_log { s with GL_state := g, calls := c, log := l, Post_in_frame := b }
      = aa_recompile_log s := rfl

@[simp] theorem aa_pass_runs_congr (s : PostState F) (g : opengl_state)
    (c : List (GLCall F)) (l : List LogMsg) (b : Bool) (m : AntiAliasMode) :
    aa_pass_runs { s with
        GL_state := g, calls := c, log := l, Post_in_frame := b, Gr_aa_mode_last_frame := m }
      = aa_pass_runs s := rfl

@[simp] theorem lightshafts_calls_congr (env : Env F) (s : PostState F) (g : opengl_state)
    (c : List (GLCall F)) (l : List LogMsg) (b : Bool) (m : AntiAliasMode) :
    lightshafts_calls env { s with
        GL_state := g, calls := c, log := l, Post_in_frame := b, Gr_aa_mode_last_frame := m }
      = lightshafts_calls env s := rfl

@[simp] theorem lightshafts_light_congr (env : Env F) (s : PostState F) (g : opengl_state)
    (c : List (GLCall F)) (l : List LogMsg) (b : Bool) (m : AntiAliasMode) :
    lightshafts_light env { s with
        GL_state := g, calls := c, log := l, Post_in_frame := b, Gr_aa_mode_last_frame := m }
      = lightshafts_light env s := rfl

@[simp] theorem end_passes_calls_congr (env : Env F) (s : PostState F) (g : opengl_state)
    (c : List (GLCall F)) (l : List LogMsg) (b : Bool) :
    end_passes_calls env { s with GL_state := g, calls := c, log := l, Post_in_frame := b }
      = end_passes_calls env s := rfl

@[simp] theorem post_process_end_calls_congr (env : Env F) (s : PostState F) (g : opengl_state)
    (c : List (GLCall F)) (l : List LogMsg) (b : Bool) :
    post_process_end_calls env { s with
        GL_state := g, calls := c, log := l, Post_in_frame := b }
      = post_process_end_calls env s := rfl

theorem pop_eq (s : PostState F) :
    GL_state_PopFramebufferState s
      = { s with calls := s.calls ++ [.PopFramebufferState], GL_state := s.GL_state.pop } := by
  unfold GL_state_PopFramebufferState opengl_state.pop PostState.call
  cases h : s.GL_state.framebuffer_stack <;> simp [h]

theorem aa_step_eq (env : Env F) (s : PostState F) :
    (if !s.GL_rendering_to_texture then
      if gr_is_smaa_mode s.Gr_aa_mode then opengl_post_pass_smaa env s
      else if gr_is_fxaa_mode s.Gr_aa_mode && !s.fxaa_unavailable then
        opengl_post_pass_fxaa env s
      else s
    else s)
      = { s with
          calls := s.calls ++ aa_calls env s
          log := s.log ++ (if aa_pass_runs s then aa_recompile_log s else [])
          Gr_aa_mode_last_frame :=
            if aa_pass_runs s then s.Gr_aa_mode else s.Gr_aa_mode_last_frame } := by
  by_cases hr : s.GL_rendering_to_texture = true
  · have hnr : ¬ ((!s.GL_rendering_to_texture) = true) := by rw [hr]; simp
    have h1 : aa_calls env s = [] := by unfold aa_calls; rw [if_neg hnr]
    have h2 : aa_pass_runs s = false := by unfold aa_pass_runs; rw [hr]; rfl
    rw [if_neg hnr, h1, h2]
    cases s
    simp
  · have hr2 : s.GL_rendering_to_texture = false := by simpa using hr
    have hnr : (!s.GL_rendering_to_texture) = true := by rw [hr2]; rfl
    by_cases hs : gr_is_smaa_mode s.Gr_aa_mode = true
    · have h1 : aa_calls env s = smaa_calls env s := by
        unfold aa_calls; rw [if_pos hnr, if_pos hs]
      have h2 : aa_pass_runs s = true := by unfold aa_pass_runs; rw [hr2, hs]; rfl
      rw [if_pos hnr, if_pos hs, h1, h2, smaa_eq]
      rfl
    · have hs2 : gr_is_smaa_mode s.Gr_aa_mode = false := by simpa using hs
      by_cases hf : (gr_is_fxaa_mode s.Gr_aa_mode && !s.fxaa_unavailable) = true
      · have h1 : aa_calls env s = fxaa_calls env s := by
          unfold aa_calls; rw [if_pos hnr, if_neg hs, if_pos hf]
        have h2 : aa_pass_runs s = true := by unfold aa_pass_runs; rw [hr2, hs2, hf]; rfl
        rw [if_pos hnr, if_neg hs, if_pos hf, h1, h2, fxaa_eq]
        rfl
      · have hf3 : (gr_is_fxaa_mode s.Gr_aa_mode && !s.fxaa_unavailable) = false := by
          simpa using hf
        have h1 : aa_calls env s = [] := by
          unfold aa_calls; rw [if_pos hnr, if_neg hs, if_neg hf]
        have h2 : aa_pass_runs s = false := by unfold aa_pass_runs; rw [hr2, hs2, hf3]; rfl
        rw [if_pos hnr, if_neg hs, if_neg hf, h1, h2]
        cases s
        simp

theorem end_passes_eq (env : Env F) (s : PostState F) :
    post_process_end_passes env s
      = { s with
          calls := s.calls ++ end_passes_calls env s
          log := s.log ++ (if aa_pass_runs s then aa_recompile_log s else [])
          Gr_aa_mode_last_frame :=
            if aa_pass_runs s then s.Gr_aa_mode else s.Gr_aa_mode_last_frame
          GL_state := { s.GL_state with
            blend := false
            alpha_blend_mode :=
              if (lightshafts_light env s).isSome then .ALPHA_BLEND_ADDITIVE
              else .ALPHA_BLEND_NONE } } := by
  unfold post_process_end_passes
  simp only []
  rw [aa_step_eq]
  simp only [bloom_eq, tonemap_eq, lightshafts_eq, pop_eq,
    GL_state_PushFramebufferState, PostState.call, bloom_calls_congr, lightshafts_calls_congr,
    lightshafts_light_congr, aa_calls_congr, aa_pass_runs_congr, aa_recompile_log_congr]
  cases hl : (lightshafts_light env s).isSome <;>
    simp [hl, end_passes_calls, opengl_state.pop, opengl_state.after_lightshafts]

@[simp] theorem end_composite_calls_list_congr (env : Env F) (s : PostState F)
    (g : opengl_state) (c : List (GLCall F)) (l : List LogMsg) (b : Bool) (m : AntiAliasMode) :
    end_composite_calls_list env { s with
        GL_state := g, calls := c, log := l, Post_in_frame := b, Gr_aa_mode_last_frame := m }
      = end_composite_calls_list env s := rfl

theorem end_composite_eq (env : Env F) (s : PostState F) :
    post_process_end_composite env s
      = { s with
          calls := s.calls ++ end_composite_calls_list env s
          GL_state := s.GL_state.pop } := by
  unfold post_process_end_composite
  by_cases h : s.Post_active_shader_index < 0
  · simp [h, pop_eq, end_composite_calls_list, final_composite_calls, PostState.call,
      opengl_shader_set_current, gr_opengl_maybe_create_shader, post_sdr_handle]
  · simp [h, pop_eq, end_composite_calls_list, final_composite_calls, PostState.call,
      opengl_shader_set_current, gr_opengl_maybe_create_shader, post_sdr_handle]

theorem post_process_end_calls_split (env : Env F) (s : PostState F) :
    post_process_end_calls env s
      = end_passes_calls env s ++ end_composite_calls_list env s ++
          [GLCall.shader_set_current none] := by
  simp [post_process_end_calls, end_composite_calls_list, final_composite_calls]

theorem end_eq (env : Env F) (s : PostState F) :
    gr_opengl_post_process_end env s
      = { s with
          calls := s.calls ++ post_process_end_calls env s
          log := s.log ++ (if aa_pass_runs s then aa_recompile_log s else [])
          Gr_aa_mode_last_frame :=
            if aa_pass_runs s then s.Gr_aa_mode else s.Gr_aa_mode_last_frame
          Post_in_frame := false
          GL_state := { s.GL_state.pop with
            shader_mode := false
            alpha_blend_mode :=
              if (lightshafts_light env s).isSome then .ALPHA_BLEND_ADDITIVE
              else .ALPHA_BLEND_NONE } } := by
  unfold gr_opengl_post_process_end
  simp only [GL_state_DepthTest, GL_state_DepthMask, GL_state_Blend, GL_state_CullFace,
    GL_state_Texture_SetShaderMode, end_passes_eq, end_composite_eq, opengl_shader_set_current,
    PostState.call, end_passes_calls_congr, end_composite_calls_list_congr,
    aa_pass_runs_congr, aa_recompile_log_congr, lightshafts_light_congr,
    post_process_end_calls_split]
  cases h : s.GL_state.framebuffer_stack <;> simp [opengl_state.pop, h]

theorem begin_eq (s : PostState F) (hinit : s.Post_initialized = true)
    (hframe : s.Post_in_frame = false) (hover : s.PostProcessing_override = false) :
    gr_opengl_post_process_begin s
      = { s with
          calls := s.calls ++ post_process_begin_calls s
          Post_in_frame := true
          GL_state := { s.GL_state with
            current_framebuffer := s.Post_framebuffer_id.1
            framebuffer_stack := s.GL_state.current_framebuffer :: s.GL_state.framebuffer_stack } } := by
  unfold gr_opengl_post_process_begin
  rw [hinit, hframe, hover]
  simp [post_process_begin_calls, GL_state_PushFramebufferState, GL_state_BindFrameBuffer,
    PostState.call, hinit, hover]

theorem begin_end_eq (env : Env F) (s : PostState F) (hinit : s.Post_initialized = true)
    (hframe : s.Post_in_frame = false) (hover : s.PostProcessing_override = false) :
    gr_opengl_post_process_end env (gr_opengl_post_process_begin s)
      = { s with
          calls := s.calls ++ (post_process_begin_calls s ++ post_process_end_calls env s)
          log := s.log ++ (if aa_pass_runs s then aa_recompile_log s else [])
          Gr_aa_mode_last_frame :=
            if aa_pass_runs s then s.Gr_aa_mode else s.Gr_aa_mode_last_frame
          Post_in_frame := false
          GL_state := { s.GL_state with
            shader_mode := false
            alpha_blend_mode :=
              if (lightshafts_light env s).isSome then .ALPHA_BLEND_ADDITIVE
              else .ALPHA_BLEND_NONE } } := by
  rw [begin_eq s hinit hframe hover, end_eq]
  simp only [post_process_end_calls_congr, aa_pass_runs_congr, aa_recompile_log_congr,
    lightshafts_light_congr]
  simp [opengl_state.pop]

/-! ## C11 -/

theorem fb_trace_append (l1 l2 : List (GLCall F)) :
    fb_trace (l1 ++ l2) = fb_trace l1 ++ fb_trace l2 :=
  List.filterMap_append _ _ _

theorem fb_trace_bloom (env : Env F) (s : PostState F) :
    fb_trace (bloom_calls env s) = fb_op.bind s.Bloom_framebuffer :: List.replicate 18 .draw :=
  rfl

theorem fb_trace_recompile (env : Env F) (old new : AntiAliasMode) :
    fb_trace (recompile_calls env old new) = [] := by
  cases old <;> cases new <;> rfl

theorem fb_trace_aa_recompile (env : Env F) (s : PostState F) :
    fb_trace (aa_recompile_calls env s) = [] := by
  unfold aa_recompile_calls
  split
  · exact fb_trace_recompile env _ _
  · rfl

theorem fb_trace_smaa_resolve (env : Env F) (s : PostState F) :
    fb_trace (smaa_resolve_calls env s) = [.draw] := by
  unfold smaa_resolve_calls
  cases s.GL_rendering_to_texture <;> rfl

theorem fb_trace_aa (env : Env F) (s : PostState F) :
    fb_trace (aa_calls env s) = aa_fb_trace s := by
  unfold aa_calls aa_fb_trace
  split
  · split
    · unfold smaa_calls
      rw [fb_trace_append, fb_trace_append, fb_trace_append, fb_trace_append,
        fb_trace_aa_recompile, fb_trace_smaa_resolve]
      rfl
    · split
      · unfold fxaa_calls
        rw [fb_trace_append, fb_trace_aa_recompile]
        rfl
      · rfl
  · rfl

theorem fb_trace_lightshafts (env : Env F) (s : PostState F) :
    fb_trace (lightshafts_calls env s)
      = if (lightshafts_light env s).isSome then [.draw] else [] := by
  unfold lightshafts_calls
  cases lightshafts_light env s <;> rfl

theorem fb_trace_end_composite (env : Env F) (s : PostState F) :
    fb_trace (end_composite_calls_list env s) = [.pop, .draw] := by
  unfold end_composite_calls_list
  split <;> rfl

theorem fb_trace_frame (env : Env F) (s : PostState F) :
    fb_trace (post_process_begin_calls s ++ post_process_end_calls env s)
      = [.push, .bind s.Post_framebuffer_id.1, .push, .bind s.Bloom_framebuffer] ++
        List.replicate 19 .draw ++ aa_fb_trace s ++
        (if (lightshafts_light env s).isSome then [.draw] else []) ++ [.pop, .pop, .draw] := by
  rw [post_process_end_calls_split]
  unfold end_passes_calls
  simp only [fb_trace_append, fb_trace_bloom, fb_trace_aa, fb_trace_lightshafts,
    fb_trace_end_composite]
  have h1 : fb_trace (post_process_begin_calls s)
      = [.push, .bind s.Post_framebuffer_id.1] := rfl
  have h2 : fb_trace (tonemap_calls env) = [.draw] := rfl
  have h3 : fb_trace ([GLCall.PushFramebufferState] : List (GLCall F)) = [.push] := rfl
  have h4 : fb_trace ([GLCall.PopFramebufferState, GLCall.glClearColor,
      GLCall.glClear true false] : List (GLCall F)) = [.pop] := rfl
  have h5 : fb_trace ([GLCall.shader_set_current none] : List (GLCall F)) = [] := rfl
  rw [h1, h2, h3, h4, h5]
  simp [List.replicate]

theorem fb_run_append (v : fb_state) (l1 l2 : List fb_op) :
    v.run (l1 ++ l2) = (v.run l1).run l2 :=
  List.foldl_append _ _ _ _

theorem fb_run_frame (cur p0 b : Nat) (stack : List Nat) (aa : List fb_op) (n : Nat)
    (haa : ∀ v : fb_state, v.underflow = false →
      ∃ extra, v.run aa = { v with draws := v.draws ++ extra }) :
    let v := fb_state.run ⟨cur, stack, false, []⟩
      ([.push, .bind p0, .push, .bind b] ++ List.replicate 19 .draw ++ aa ++
        List.replicate n .draw ++ [.pop, .pop, .draw])
    v.underflow = false ∧ v.stack = stack ∧ v.draws.getLast? = some cur := by
  intro v
  have hdraws : ∀ (m : Nat) (w : fb_state),
      w.run (List.replicate m .draw) = { w with draws := w.draws ++ List.replicate m w.current } := by
    intro m
    induction m with
    | zero => intro w; simp [fb_state.run]
    | succ m ih =>
      intro w
      rw [List.replicate_succ]
      show (w.step .draw).run (List.replicate m .draw) = _
      rw [ih]
      simp [fb_state.step, List.replicate_succ]
  have hv : v = (((((fb_state.mk cur stack false []).run [.push, .bind p0, .push, .bind b]).run
      (List.replicate 19 .draw)).run aa).run (List.replicate n .draw)).run
        [.pop, .pop, .draw] := by
    show fb_state.run _ _ = _
    rw [fb_run_append, fb_run_append, fb_run_append, fb_run_append]
  have h0 : (fb_state.mk cur stack false []).run [.push, .bind p0, .push, .bind b]
      = ⟨b, p0 :: cur :: stack, false, []⟩ := rfl
  have h1 : (fb_state.mk b (p0 :: cur :: stack) false []).run (List.replicate 19 .draw)
      = ⟨b, p0 :: cur :: stack, false, List.replicate 19 b⟩ := by
    rw [hdraws]
    rfl
  obtain ⟨extra, he⟩ := haa ⟨b, p0 :: cur :: stack, false, List.replicate 19 b⟩ rfl
  rw [hv, h0, h1, he, hdraws n]
  refine ⟨rfl, rfl, ?_⟩
  show (List.replicate 19 b ++ extra ++ List.replicate n b ++ [cur]).getLast? = some cur
  exact List.getLast?_concat _

theorem aa_fb_trace_count (s : PostState F) :
    (aa_fb_trace s).count .push = (aa_fb_trace s).count .pop := by
  unfold aa_fb_trace
  split
  · split
    · simp [List.count_cons]
    · split <;> simp [List.count_cons]
  · rfl

theorem aa_fb_trace_run (s : PostState F) (v : fb_state) (_hv : v.underflow = false) :
    ∃ extra, v.run (aa_fb_trace s) = { v with draws := v.draws ++ extra } := by
  unfold aa_fb_trace
  split
  · split
    · exact ⟨[s.Smaa_edge_detection_fb, s.Smaa_blending_weight_fb,
        s.Smaa_neighborhood_blending_fb, v.current], by simp [fb_state.run, fb_state.step]⟩
    · split
      · exact ⟨[v.current, v.current], by simp [fb_state.run, fb_state.step]⟩
      · exact ⟨[], by simp [fb_state.run]⟩
  · exact ⟨[], by simp [fb_state.run]⟩

/-- C11: from an initialized state with no frame open and the override flag clear, whatever
the antialiasing mode, `gr_opengl_post_process_begin` followed by
`gr_opengl_post_process_end` adds the calls of `post_process_begin_calls` and
`post_process_end_calls`, ending with the final composite; in their framebuffer trace the
pushes and pops are equally many; replayed from the binding and checkpoint stack at entry
no pop finds the stack empty, the stack ends as it was at entry, and the last draw, the final
composite draw that directly follows the last pop, is issued with the binding that was
current at entry; the cached device state ends with the same stack and binding. -/
theorem begin_end_checkpoints_balanced (env : Env F) (s : PostState F)
    (hinit : s.Post_initialized = true) (hframe : s.Post_in_frame = false)
    (hover : s.PostProcessing_override = false) :
    let t := gr_opengl_post_process_end env (gr_opengl_post_process_begin s)
    let calls := calls_added s t
    let trace := fb_trace calls
    let v := fb_state.run
      ⟨s.GL_state.current_framebuffer, s.GL_state.framebuffer_stack, false, []⟩ trace
    calls = post_process_begin_calls s ++ post_process_end_calls env s ∧
    (∃ pre, calls = pre ++ final_composite_calls env (post_sdr_handle env s) s.Post_effects) ∧
    trace.count .push = trace.count .pop ∧
    v.underflow = false ∧
    v.stack = s.GL_state.framebuffer_stack ∧
    v.draws.getLast? = some s.GL_state.current_framebuffer ∧
    (∃ pre, trace = pre ++ [.pop, .draw]) ∧
    t.GL_state.framebuffer_stack = s.GL_state.framebuffer_stack ∧
    t.GL_state.current_framebuffer = s.GL_state.current_framebuffer ∧
    t.GL_state.framebuffer_stack_underflow = s.GL_state.framebuffer_stack_underflow := by
  intro t calls trace v
  have ht := begin_end_eq env s hinit hframe hover
  have hcalls : calls = post_process_begin_calls s ++ post_process_end_calls env s :=
    calls_added_append s (gr_opengl_post_process_end env (gr_opengl_post_process_begin s)) _
      (by rw [ht])
  have hls : (if (lightshafts_light env s).isSome then [fb_op.draw] else [])
      = List.replicate (if (lightshafts_light env s).isSome then 1 else 0) fb_op.draw := by
    split <;> rfl
  have htrace : trace
      = [.push, .bind s.Post_framebuffer_id.1, .push, .bind s.Bloom_framebuffer] ++
        List.replicate 19 .draw ++ aa_fb_trace s ++
        List.replicate (if (lightshafts_light env s).isSome then 1 else 0) fb_op.draw ++
        [.pop, .pop, .draw] := by
    show fb_trace calls = _
    rw [hcalls, fb_trace_frame, hls]
  have hrun := fb_run_frame s.GL_state.current_framebuffer s.Post_framebuffer_id.1
    s.Bloom_framebuffer s.GL_state.framebuffer_stack (aa_fb_trace s)
    (if (lightshafts_light env s).isSome then 1 else 0) (aa_fb_trace_run s)
  have hv : v = fb_state.run
      ⟨s.GL_state.current_framebuffer, s.GL_state.framebuffer_stack, false, []⟩
      ([.push, .bind s.Post_framebuffer_id.1, .push, .bind s.Bloom_framebuffer] ++
        List.replicate 19 .draw ++ aa_fb_trace s ++
        List.replicate (if (lightshafts_light env s).isSome then 1 else 0) fb_op.draw ++
        [.pop, .pop, .draw]) := by
    show fb_state.run _ trace = _
    rw [htrace]
  refine ⟨hcalls, ?_, ?_, ?_, ?_, ?_, ?_, ?_, ?_, ?_⟩
  · refine ⟨post_process_begin_calls s ++ (end_passes_calls env s ++
      (if s.Post_active_shader_index < 0 then
        [GLCall.maybe_create_shader .SDR_TYPE_POST_PROCESS_MAIN
          (always_on_flags 0 0 s.Post_effects)]
       else [])), ?_⟩
    rw [hcalls]
    unfold post_process_end_calls
    simp only [List.append_assoc]
  · rw [htrace]
    simp only [List.count_append, List.count_replicate, aa_fb_trace_count]
    simp [List.count_cons]
    omega
  · rw [hv]
    exact hrun.1
  · rw [hv]
    exact hrun.2.1
  · rw [hv]
    exact hrun.2.2
  · rw [htrace]
    exact ⟨[.push, .bind s.Post_framebuffer_id.1, .push, .bind s.Bloom_framebuffer] ++
      List.replicate 19 .draw ++ aa_fb_trace s ++
      List.replicate (if (lightshafts_light env s).isSome then 1 else 0) fb_op.draw ++ [.pop],
      by simp⟩
  · show (gr_opengl_post_process_end env (gr_opengl_post_process_begin s)).GL_state.framebuffer_stack = _
    rw [ht]
  · show (gr_opengl_post_process_end env
      (gr_opengl_post_process_begin s)).GL_state.current_framebuffer = _
    rw [ht]
  · show (gr_opengl_post_process_end env
      (gr_opengl_post_process_begin s)).GL_state.framebuffer_stack_underflow = _
    rw [ht]

/-- The example state is initialized, outside a frame and without override. -/
theorem begin_end_checkpoints_balanced_witness :
    example_state.Post_initialized = true ∧ example_state.Post_in_frame = false ∧
    example_state.PostProcessing_override = false ∧
    calls_added example_state
        (gr_opengl_post_process_end example_env (gr_opengl_post_process_begin example_state))
      = post_process_begin_calls example_state ++
          post_process_end_calls example_env example_state :=
  ⟨rfl, rfl, rfl, (begin_end_checkpoints_balanced example_env example_state rfl rfl rfl).1⟩

/-! ## C15 -/

theorem deleted_append (l1 l2 : List (GLCall F)) :
    (l1 ++ l2).filterMap GLCall.deleted
      = l1.filterMap GLCall.deleted ++ l2.filterMap GLCall.deleted :=
  List.filterMap_append _ _ _

theorem aa_requests_append (l1 l2 : List (GLCall F)) :
    aa_requests (l1 ++ l2) = aa_requests l1 ++ aa_requests l2 := by
  unfold aa_requests
  rw [List.filterMap_append, List.filter_append]

theorem deleted_recompile (env : Env F) (old new : AntiAliasMode) :
    (recompile_calls env old new).filterMap GLCall.deleted
      = (get_aa_shader_types old).map (fun sdr => env.maybe_create_shader sdr 0) := by
  cases old <;> cases new <;> rfl

theorem aa_requests_recompile (env : Env F) (old new : AntiAliasMode) :
    aa_requests (recompile_calls env old new)
      = (get_aa_shader_types old ++ get_aa_shader_types new).map (fun sdr => (sdr, 0)) := by
  cases old <;> cases new <;> rfl

theorem aa_calls_of_runs (env : Env F) (s : PostState F) (hrun : aa_pass_runs s = true) :
    ∃ rest, aa_calls env s = aa_recompile_calls env s ++ rest ∧
      rest.filterMap GLCall.deleted = [] ∧
      aa_requests rest
        = if gr_is_smaa_mode s.Gr_aa_mode then
            [(.SDR_TYPE_POST_PROCESS_SMAA_EDGE, 0),
             (.SDR_TYPE_POST_PROCESS_SMAA_BLENDING_WEIGHT, 0),
             (.SDR_TYPE_POST_PROCESS_SMAA_NEIGHBORHOOD_BLENDING, 0)]
          else
            [(.SDR_TYPE_POST_PROCESS_FXAA_PREPASS, 0), (.SDR_TYPE_POST_PROCESS_FXAA, 0)] := by
  unfold aa_pass_runs at hrun
  simp only [Bool.and_eq_true, Bool.or_eq_true] at hrun
  obtain ⟨hr, hmode⟩ := hrun
  unfold aa_calls
  rw [if_pos hr]
  by_cases hs : gr_is_smaa_mode s.Gr_aa_mode = true
  · rw [if_pos hs, if_pos hs]
    unfold smaa_calls
    refine ⟨_, by simp only [List.append_assoc]; rfl, ?_, ?_⟩
    · unfold smaa_resolve_calls
      cases s.GL_rendering_to_texture <;> rfl
    · unfold smaa_resolve_calls
      cases s.GL_rendering_to_texture <;> rfl
  · rw [if_neg hs, if_neg hs]
    rcases hmode with hmode | hmode
    · exact absurd hmode hs
    · have hf : (gr_is_fxaa_mode s.Gr_aa_mode && !s.fxaa_unavailable) = true := by
        simp only [Bool.and_eq_true]
        exact hmode
      rw [if_pos hf]
      exact ⟨_, rfl, rfl, rfl⟩

theorem aa_calls_of_not_runs (env : Env F) (s : PostState F) (hrun : aa_pass_runs s = false) :
    aa_calls env s = [] := by
  unfold aa_calls
  unfold aa_pass_runs at hrun
  by_cases hr : (!s.GL_rendering_to_texture) = true
  · rw [if_pos hr]
    rw [hr, Bool.true_and] at hrun
    simp only [Bool.or_eq_false_iff] at hrun
    rw [if_neg (by rw [hrun.1]; simp), if_neg (by rw [hrun.2]; simp)]
  · rw [if_neg hr]

theorem deleted_end (env : Env F) (s : PostState F) :
    (post_process_end_calls env s).filterMap GLCall.deleted
      = (aa_calls env s).filterMap GLCall.deleted := by
  have h1 : (bloom_calls env s).filterMap GLCall.deleted = [] := rfl
  have h2 : (tonemap_calls env).filterMap GLCall.deleted = [] := rfl
  have h3 : (lightshafts_calls env s).filterMap GLCall.deleted = [] := by
    unfold lightshafts_calls
    cases lightshafts_light env s <;> rfl
  have h4 : (end_composite_calls_list env s).filterMap GLCall.deleted = [] := by
    unfold end_composite_calls_list
    split <;> rfl
  rw [post_process_end_calls_split]
  unfold end_passes_calls
  simp only [deleted_append, h1, h2, h3, h4]
  simp [GLCall.deleted]

theorem aa_requests_before (env : Env F) (s : PostState F) :
    aa_requests ([GLCall.PushFramebufferState] ++ bloom_calls env s ++ tonemap_calls env)
      = [] ∧
    ([GLCall.PushFramebufferState] ++ bloom_calls env s ++ tonemap_calls env).filterMap
      GLCall.deleted = [] :=
  ⟨rfl, rfl⟩

theorem aa_requests_after (env : Env F) (s : PostState F) :
    aa_requests (lightshafts_calls env s ++
        [GLCall.PopFramebufferState, GLCall.glClearColor, GLCall.glClear true false] ++
        end_composite_calls_list env s ++ [GLCall.shader_set_current none]) = [] ∧
    (lightshafts_calls env s ++
        [GLCall.PopFramebufferState, GLCall.glClearColor, GLCall.glClear true false] ++
        end_composite_calls_list env s ++ [GLCall.shader_set_current none]).filterMap
      GLCall.deleted = [] := by
  have h3 : aa_requests (lightshafts_calls env s) = [] := by
    unfold lightshafts_calls
    cases lightshafts_light env s <;> rfl
  have h4 : aa_requests (end_composite_calls_list env s) = [] := by
    unfold end_composite_calls_list
    split <;> rfl
  have h5 : (lightshafts_calls env s).filterMap GLCall.deleted = [] := by
    unfold lightshafts_calls
    cases lightshafts_light env s <;> rfl
  have h6 : (end_composite_calls_list env s).filterMap GLCall.deleted = [] := by
    unfold end_composite_calls_list
    split <;> rfl
  refine ⟨?_, ?_⟩
  · simp only [aa_requests_append, h3, h4]
    rfl
  · simp only [deleted_append, h5, h6]
    rfl

theorem end_calls_around_aa (env : Env F) (s : PostState F) :
    post_process_end_calls env s
      = ([GLCall.PushFramebufferState] ++ bloom_calls env s ++ tonemap_calls env) ++
        aa_calls env s ++
        (lightshafts_calls env s ++
          [.PopFramebufferState, .glClearColor, .glClear true false] ++
          end_composite_calls_list env s ++ [GLCall.shader_set_current none]) := by
  rw [post_process_end_calls_split]
  unfold end_passes_calls
  simp only [List.append_assoc]

theorem aa_requests_end (env : Env F) (s : PostState F) :
    aa_requests (post_process_end_calls env s) = aa_requests (aa_calls env s) := by
  rw [end_calls_around_aa, aa_requests_append, aa_requests_append,
    (aa_requests_before env s).1, (aa_requests_after env s).1]
  simp

/-- C15, counterexample: with the tracker at FXAA-High and the current mode `None` no
antialiasing pass runs in the frame, so `gr_opengl_post_process_end` deletes nothing,
although FXAA-High has a pass kind, requests no antialiasing variant, and leaves the tracker
at FXAA-High. And from FXAA-Low to FXAA-High, where the FXAA pass runs, only the handle of
the FXAA kind is deleted: the prepass variant, which the FXAA pass requests and draws with,
has another handle and stays in the cache. -/
theorem aa_mode_change_to_none_keeps_tracker :
    (example_aa_state .FXAA_High .None).Gr_aa_mode_last_frame
      ≠ (example_aa_state .FXAA_High .None).Gr_aa_mode ∧
    get_aa_shader_types (example_aa_state .FXAA_High .None).Gr_aa_mode_last_frame
      = [.SDR_TYPE_POST_PROCESS_FXAA] ∧
    (calls_added (example_aa_state .FXAA_High .None)
      (gr_opengl_post_process_end example_env
        (example_aa_state .FXAA_High .None))).filterMap GLCall.deleted = [] ∧
    aa_requests (calls_added (example_aa_state .FXAA_High .None)
      (gr_opengl_post_process_end example_env (example_aa_state .FXAA_High .None))) = [] ∧
    (gr_opengl_post_process_end example_env
      (example_aa_state .FXAA_High .None)).Gr_aa_mode_last_frame = .FXAA_High ∧
    (calls_added (example_aa_state .FXAA_Low .FXAA_High)
      (gr_opengl_post_process_end example_env
        (example_aa_state .FXAA_Low .FXAA_High))).filterMap GLCall.deleted
      = [example_env.maybe_create_shader .SDR_TYPE_POST_PROCESS_FXAA 0] ∧
    example_env.maybe_create_shader .SDR_TYPE_POST_PROCESS_FXAA_PREPASS 0
      ≠ example_env.maybe_create_shader .SDR_TYPE_POST_PROCESS_FXAA 0 ∧
    GLCall.maybe_create_shader .SDR_TYPE_POST_PROCESS_FXAA_PREPASS 0
      ∈ calls_added (example_aa_state .FXAA_Low .FXAA_High)
          (gr_opengl_post_process_end example_env (example_aa_state .FXAA_Low .FXAA_High)) := by
  have hc1 := calls_added_append (example_aa_state .FXAA_High .None)
    (gr_opengl_post_process_end example_env (example_aa_state .FXAA_High .None))
    (post_process_end_calls example_env (example_aa_state .FXAA_High .None))
    (by rw [end_eq])
  have hc2 := calls_added_append (example_aa_state .FXAA_Low .FXAA_High)
    (gr_opengl_post_process_end example_env (example_aa_state .FXAA_Low .FXAA_High))
    (post_process_end_calls example_env (example_aa_state .FXAA_Low .FXAA_High))
    (by rw [end_eq])
  refine ⟨by decide, rfl, ?_, ?_, ?_, ?_, by decide, ?_⟩
  · rw [hc1, deleted_end,
      aa_calls_of_not_runs example_env (example_aa_state .FXAA_High .None) rfl]
    rfl
  · rw [hc1, aa_requests_end,
      aa_calls_of_not_runs example_env (example_aa_state .FXAA_High .None) rfl]
    rfl
  · rw [end_eq]
    rfl
  · rw [hc2, deleted_end]
    rfl
  · rw [hc2, end_calls_around_aa]
    refine List.mem_append_left _ (List.mem_append_right _ ?_)
    have h : aa_calls example_env (example_aa_state .FXAA_Low .FXAA_High)
        = fxaa_calls example_env (example_aa_state .FXAA_Low .FXAA_High) := rfl
    rw [h]
    unfold fxaa_calls
    simp

/-- C15, amended: write `kinds m` for the pass kinds of a mode (the FXAA kind for the three
FXAA modes; blending weight, edge and neighbourhood blending for the four SMAA modes; none
for `None`) and `own m` for the kinds its pass draws with (prepass and FXAA; edge, blending
weight and neighbourhood blending). With the tracker `old` different from the current mode
`new`, a frame in which an antialiasing pass runs (not rendering to texture, and `new` an
SMAA mode or an FXAA mode with FXAA available) deletes exactly the handles of the variants
`(kind, 0)` of `kinds old`, each once and in order, in one block that looks each of them up,
deletes it and then requests each variant `(kind, 0)` of `kinds new`; nothing before the
block touches an antialiasing variant, after it only the variants of `own new` are
requested and nothing is deleted, so the FXAA prepass variant is never deleted; the tracker
ends at `new`. A frame in which no antialiasing pass runs deletes nothing, requests no
antialiasing variant and leaves the tracker at `old`. -/
theorem aa_mode_change_recompiles (env : Env F) (s : PostState F)
    (hne : s.Gr_aa_mode_last_frame ≠ s.Gr_aa_mode) :
    let t := gr_opengl_post_process_end env s
    let calls := calls_added s t
    let kinds : AntiAliasMode → List shader_type := fun m =>
      if m = .FXAA_Low ∨ m = .FXAA_Medium ∨ m = .FXAA_High then
        [.SDR_TYPE_POST_PROCESS_FXAA]
      else if m = .SMAA_Low ∨ m = .SMAA_Medium ∨ m = .SMAA_High ∨ m = .SMAA_Ultra then
        [.SDR_TYPE_POST_PROCESS_SMAA_BLENDING_WEIGHT, .SDR_TYPE_POST_PROCESS_SMAA_EDGE,
         .SDR_TYPE_POST_PROCESS_SMAA_NEIGHBORHOOD_BLENDING]
      else []
    let own : AntiAliasMode → List shader_type := fun m =>
      if m = .FXAA_Low ∨ m = .FXAA_Medium ∨ m = .FXAA_High then
        [.SDR_TYPE_POST_PROCESS_FXAA_PREPASS, .SDR_TYPE_POST_PROCESS_FXAA]
      else if m = .SMAA_Low ∨ m = .SMAA_Medium ∨ m = .SMAA_High ∨ m = .SMAA_Ultra then
        [.SDR_TYPE_POST_PROCESS_SMAA_EDGE, .SDR_TYPE_POST_PROCESS_SMAA_BLENDING_WEIGHT,
         .SDR_TYPE_POST_PROCESS_SMAA_NEIGHBORHOOD_BLENDING]
      else []
    (aa_pass_runs s = true ↔
      s.GL_rendering_to_texture = false ∧
      ((s.Gr_aa_mode = .SMAA_Low ∨ s.Gr_aa_mode = .SMAA_Medium ∨ s.Gr_aa_mode = .SMAA_High ∨
          s.Gr_aa_mode = .SMAA_Ultra) ∨
        ((s.Gr_aa_mode = .FXAA_Low ∨ s.Gr_aa_mode = .FXAA_Medium ∨
            s.Gr_aa_mode = .FXAA_High) ∧ s.fxaa_unavailable = false))) ∧
    (aa_pass_runs s = true →
      calls.filterMap GLCall.deleted
        = (kinds s.Gr_aa_mode_last_frame).map (fun sdr => env.maybe_create_shader sdr 0) ∧
      (kinds s.Gr_aa_mode_last_frame).Nodup ∧
      (∃ pre post, calls = pre ++
        ((kinds s.Gr_aa_mode_last_frame).flatMap (fun sdr =>
          [GLCall.maybe_create_shader sdr 0,
           GLCall.delete_shader (env.maybe_create_shader sdr 0)]) ++
         (kinds s.Gr_aa_mode).flatMap (fun sdr =>
          [GLCall.maybe_create_shader sdr 0])) ++ post ∧
        aa_requests pre = [] ∧ pre.filterMap GLCall.deleted = [] ∧
        aa_requests post = (own s.Gr_aa_mode).map (fun sdr => (sdr, 0)) ∧
        post.filterMap GLCall.deleted = []) ∧
      aa_requests calls
        = (kinds s.Gr_aa_mode_last_frame ++ kinds s.Gr_aa_mode ++ own s.Gr_aa_mode).map
            (fun sdr => (sdr, 0)) ∧
      (env.maybe_create_shader .SDR_TYPE_POST_PROCESS_FXAA_PREPASS 0
          ∉ (kinds s.Gr_aa_mode_last_frame).map (fun sdr => env.maybe_create_shader sdr 0) →
        GLCall.delete_shader (env.maybe_create_shader .SDR_TYPE_POST_PROCESS_FXAA_PREPASS 0)
          ∉ calls) ∧
      t.Gr_aa_mode_last_frame = s.Gr_aa_mode) ∧
    (aa_pass_runs s = false →
      calls.filterMap GLCall.deleted = [] ∧
      aa_requests calls = [] ∧
      t.Gr_aa_mode_last_frame = s.Gr_aa_mode_last_frame) := by
  intro t calls kinds own
  have ht : t = _ := end_eq env s
  have hcalls : calls = post_process_end_calls env s :=
    calls_added_append s (gr_opengl_post_process_end env s) _ (by rw [end_eq])
  have hkinds : ∀ m, get_aa_shader_types m = kinds m := by
    intro m
    cases m <;> rfl
  refine ⟨?_, ?_, ?_⟩
  · unfold aa_pass_runs
    cases s.Gr_aa_mode <;> cases s.GL_rendering_to_texture <;> cases s.fxaa_unavailable <;>
      simp [gr_is_smaa_mode, gr_is_fxaa_mode]
  · intro hrun
    obtain ⟨rest, hrest, hdel, hreq⟩ := aa_calls_of_runs env s hrun
    have hrec : aa_recompile_calls env s
        = recompile_calls env s.Gr_aa_mode_last_frame s.Gr_aa_mode := by
      unfold aa_recompile_calls
      rw [if_pos hne]
    have hown : aa_requests rest = (own s.Gr_aa_mode).map (fun sdr => (sdr, 0)) := by
      rw [hreq]
      unfold aa_pass_runs at hrun
      revert hrun
      cases s.Gr_aa_mode <;> simp [gr_is_smaa_mode, gr_is_fxaa_mode, own]
    have hdeleted : calls.filterMap GLCall.deleted
        = (kinds s.Gr_aa_mode_last_frame).map (fun sdr => env.maybe_create_shader sdr 0) := by
      rw [hcalls, deleted_end, hrest, deleted_append, hdel, hrec, deleted_recompile,
        List.append_nil, hkinds]
    refine ⟨hdeleted, ?_, ?_, ?_, ?_, ?_⟩
    · cases s.Gr_aa_mode_last_frame <;> decide
    · refine ⟨[.PushFramebufferState] ++ bloom_calls env s ++ tonemap_calls env,
        rest ++ (lightshafts_calls env s ++
          [.PopFramebufferState, .glClearColor, .glClear true false] ++
          end_composite_calls_list env s ++ [GLCall.shader_set_current none]), ?_,
        (aa_requests_before env s).1, (aa_requests_before env s).2, ?_, ?_⟩
      · rw [hcalls, end_calls_around_aa, hrest, hrec]
        unfold recompile_calls
        rw [hkinds, hkinds]
        simp only [List.append_assoc]
      · rw [aa_requests_append, (aa_requests_after env s).1, List.append_nil, hown]
      · rw [deleted_append, (aa_requests_after env s).2, hdel]
        rfl
    · rw [hcalls, aa_requests_end, hrest, aa_requests_append, hrec, aa_requests_recompile,
        hown, hkinds, hkinds]
      simp only [List.map_append]
    · intro hnot hmem
      apply hnot
      rw [← hdeleted]
      exact List.mem_filterMap.mpr ⟨_, hmem, rfl⟩
    · rw [ht]
      show (if aa_pass_runs s then s.Gr_aa_mode else s.Gr_aa_mode_last_frame) = _
      rw [if_pos hrun]
  · intro hrun
    refine ⟨?_, ?_, ?_⟩
    · rw [hcalls, deleted_end, aa_calls_of_not_runs env s hrun]
      rfl
    · rw [hcalls, aa_requests_end, aa_calls_of_not_runs env s hrun]
      rfl
    · rw [ht]
      show (if aa_pass_runs s then s.Gr_aa_mode else s.Gr_aa_mode_last_frame) = _
      rw [hrun]
      rfl

/-- C15, from FXAA-High to SMAA-High: the tracker differs from the mode, the SMAA pass runs,
the FXAA handle is deleted, the variants requested are FXAA (to delete it), the three SMAA
kinds (to compile them) and the three SMAA kinds again in drawing order, and the tracker
ends at SMAA-High. -/
theorem aa_mode_change_recompiles_witness :
    (example_aa_state .FXAA_High .SMAA_High).Gr_aa_mode_last_frame
      ≠ (example_aa_state .FXAA_High .SMAA_High).Gr_aa_mode ∧
    (calls_added (example_aa_state .FXAA_High .SMAA_High)
      (gr_opengl_post_process_end example_env
        (example_aa_state .FXAA_High .SMAA_High))).filterMap GLCall.deleted
      = [example_env.maybe_create_shader .SDR_TYPE_POST_PROCESS_FXAA 0] ∧
    aa_requests (calls_added (example_aa_state .FXAA_High .SMAA_High)
      (gr_opengl_post_process_end example_env (example_aa_state .FXAA_High .SMAA_High)))
      = [(.SDR_TYPE_POST_PROCESS_FXAA, 0),
         (.SDR_TYPE_POST_PROCESS_SMAA_BLENDING_WEIGHT, 0),
         (.SDR_TYPE_POST_PROCESS_SMAA_EDGE, 0),
         (.SDR_TYPE_POST_PROCESS_SMAA_NEIGHBORHOOD_BLENDING, 0),
         (.SDR_TYPE_POST_PROCESS_SMAA_EDGE, 0),
         (.SDR_TYPE_POST_PROCESS_SMAA_BLENDING_WEIGHT, 0),
         (.SDR_TYPE_POST_PROCESS_SMAA_NEIGHBORHOOD_BLENDING, 0)] ∧
    (gr_opengl_post_process_end example_env
      (example_aa_state .FXAA_High .SMAA_High)).Gr_aa_mode_last_frame = .SMAA_High :=
  ⟨by decide,
    ((aa_mode_change_recompiles example_env (example_aa_state .FXAA_High .SMAA_High)
      (by decide)).2.1 rfl).1,
    ((aa_mode_change_recompiles example_env (example_aa_state .FXAA_High .SMAA_High)
      (by decide)).2.1 rfl).2.2.2.1,
    ((aa_mode_change_recompiles example_env (example_aa_state .FXAA_High .SMAA_High)
      (by decide)).2.1 rfl).2.2.2.2.2⟩

/-! ## Initialisation and shutdown -/

theorem shutdown_bloom_eq (s : PostState F) :
    opengl_post_process_shutdown_bloom s
      = { s with
          calls := s.calls ++ shutdown_bloom_calls s
          Bloom_textures := (0, 0)
          Bloom_framebuffer := 0 } := by
  rcases hbt : s.Bloom_textures with ⟨t1, t2⟩
  unfold opengl_post_process_shutdown_bloom shutdown_bloom_calls
  by_cases h1 : t1 = 0 <;> by_cases h2 : t2 = 0 <;>
    by_cases h3 : s.Bloom_framebuffer = 0 <;>
    first
    | (simp [hbt, h1, h2, h3, PostState.call, Nat.pos_iff_ne_zero]; done)
    | (simp [hbt, h1, h2, h3, PostState.call, Nat.pos_iff_ne_zero]; cases s; simp_all)

theorem shutdown_eq (s : PostState F) (hinit : s.Post_initialized = true) :
    opengl_post_process_shutdown s
      = { s with
          calls := s.calls ++ shutdown_calls s
          Post_framebuffer_id :=
            (0, if s.Post_framebuffer_id.1 ≠ 0 then 0 else s.Post_framebuffer_id.2)
          Post_effects := []
          Bloom_textures := (0, 0)
          Bloom_framebuffer := 0
          Post_in_frame := false
          Post_active_shader_index := 0
          Post_initialized := false } := by
  rcases hp : s.Post_framebuffer_id with ⟨p1, p2⟩
  unfold opengl_post_process_shutdown
  rw [hinit]
  simp only [Bool.not_true, Bool.false_eq_true, if_false, shutdown_bloom_eq]
  by_cases h1 : p1 = 0 <;> by_cases h2 : p2 = 0 <;>
    simp [hp, h1, h2, shutdown_calls, shutdown_bloom_calls, PostState.call]



@[simp] theorem textures_generated_append (l1 l2 : List (GLCall F)) :
    textures_generated (l1 ++ l2) = textures_generated l1 + textures_generated l2 := by
  simp [textures_generated]

@[simp] theorem framebuffers_generated_append (l1 l2 : List (GLCall F)) :
    framebuffers_generated (l1 ++ l2) = framebuffers_generated l1 + framebuffers_generated l2 := by
  simp [framebuffers_generated]

@[simp] theorem textures_generated_cons (c : GLCall F) (l : List (GLCall F)) :
    textures_generated (c :: l) = c.textures_generated + textures_generated l := by
  simp [textures_generated]

@[simp] theorem framebuffers_generated_cons (c : GLCall F) (l : List (GLCall F)) :
    framebuffers_generated (c :: l) = c.framebuffers_generated + framebuffers_generated l := by
  simp [framebuffers_generated]

@[simp] theorem textures_generated_nil : textures_generated ([] : List (GLCall F)) = 0 := rfl

@[simp] theorem framebuffers_generated_nil :
    framebuffers_generated ([] : List (GLCall F)) = 0 := rfl

theorem released_append (l1 l2 : List (GLCall F)) :
    (l1 ++ l2).filterMap GLCall.released
      = l1.filterMap GLCall.released ++ l2.filterMap GLCall.released :=
  List.filterMap_append _ _ _

theorem setup_bloom_texture_counts (width height : Int) (tex : Nat) :
    textures_generated (setup_bloom_texture_calls width height tex : List (GLCall F)) = 0 ∧
    framebuffers_generated (setup_bloom_texture_calls width height tex : List (GLCall F)) = 0 ∧
    (setup_bloom_texture_calls width height tex : List (GLCall F)).filterMap GLCall.released
      = [] := by
  simp [setup_bloom_texture_calls, GLCall.textures_generated, GLCall.framebuffers_generated,
    GLCall.released]

theorem smaa_target_storage_counts (env : Env F) (w h : Int) :
    textures_generated (smaa_target_storage_calls env w h) = 0 ∧
    framebuffers_generated (smaa_target_storage_calls env w h) = 0 ∧
    (smaa_target_storage_calls env w h).filterMap GLCall.released = [] := by
  unfold smaa_target_storage_calls
  cases env.GLAD_GL_ARB_texture_storage <;>
    simp [GLCall.textures_generated, GLCall.framebuffers_generated, GLCall.released]

theorem smaa_target_counts (env : Env F) (w h : Int) (tex fb : Nat) (a b : String) :
    textures_generated (smaa_target_calls env w h tex fb a b) = 1 ∧
    framebuffers_generated (smaa_target_calls env w h tex fb a b) = 1 ∧
    (smaa_target_calls env w h tex fb a b).filterMap GLCall.released = [] := by
  unfold smaa_target_calls
  simp [smaa_target_storage_counts, released_append, GLCall.textures_generated,
    GLCall.framebuffers_generated, GLCall.released]

theorem load_smaa_texture_counts (env : Env F) (w h width height : Int) (rg8 : Bool)
    (name : String) (tex : Nat) :
    textures_generated (load_smaa_texture_calls env w h width height rg8 name tex) = 1 ∧
    framebuffers_generated (load_smaa_texture_calls env w h width height rg8 name tex) = 0 ∧
    (load_smaa_texture_calls env w h width height rg8 name tex).filterMap GLCall.released
      = [] := by
  unfold load_smaa_texture_calls
  cases env.GLAD_GL_ARB_texture_storage <;>
    simp [GLCall.textures_generated, GLCall.framebuffers_generated, GLCall.released]

theorem setup_bloom_counts (w h : Int) (t0 t1 : Nat) :
    textures_generated (setup_bloom_calls w h t0 t1 : List (GLCall F)) = 2 ∧
    framebuffers_generated (setup_bloom_calls w h t0 t1 : List (GLCall F)) = 1 ∧
    (setup_bloom_calls w h t0 t1 : List (GLCall F)).filterMap GLCall.released = [] := by
  unfold setup_bloom_calls
  simp [setup_bloom_texture_counts, released_append, GLCall.textures_generated,
    GLCall.framebuffers_generated, GLCall.released]

theorem setup_smaa_counts (env : Env F) (w h : Int) (tg fg : Nat) :
    textures_generated (setup_smaa_calls env w h tg fg) = 5 ∧
    framebuffers_generated (setup_smaa_calls env w h tg fg) = 3 ∧
    (setup_smaa_calls env w h tg fg).filterMap GLCall.released = [] := by
  unfold setup_smaa_calls
  simp [released_append, smaa_target_counts, load_smaa_texture_counts,
    GLCall.textures_generated, GLCall.framebuffers_generated, GLCall.released]

theorem setup_bloom_textures_eq (env : Env F) (s : PostState F) :
    opengl_setup_bloom_textures env s
      = { s with
          calls := s.calls ++ setup_bloom_calls s.Post_texture_width s.Post_texture_height
            (env.texture_name (textures_generated s.calls))
            (env.texture_name (textures_generated s.calls + 1))
          Bloom_framebuffer := env.framebuffer_name (framebuffers_generated s.calls)
          Bloom_textures := (env.texture_name (textures_generated s.calls),
            env.texture_name (textures_generated s.calls + 1))
          GL_state := { s.GL_state with current_framebuffer := 0 } } := by
  unfold opengl_setup_bloom_textures
  simp only [range_two, List.foldl_cons, List.foldl_nil, setup_bloom_texture,
    PostState.call_seq, PostState.call, GL_state_BindFrameBuffer, List.append_assoc,
    textures_generated_append, PostState.Bloom_texture]
  simp [setup_bloom_calls, setup_bloom_texture_calls, GLCall.textures_generated]

theorem smaa_target_storage_eq (env : Env F) (s : PostState F) :
    smaa_target_storage env s
      = { s with calls := s.calls ++
            smaa_target_storage_calls env s.Post_texture_width s.Post_texture_height } := by
  unfold smaa_target_storage smaa_target_storage_calls
  cases env.GLAD_GL_ARB_texture_storage <;> simp [PostState.call, PostState.call_seq]

theorem setup_smaa_edges_eq (env : Env F) (s : PostState F) :
    setup_smaa_edges_resources env s
      = { s with
          calls := s.calls ++ smaa_target_calls env s.Post_texture_width s.Post_texture_height
            (env.texture_name (textures_generated s.calls))
            (env.framebuffer_name (framebuffers_generated s.calls))
            "SMAA Edge detection texture" "SMAA Edge detection framebuffer"
          Smaa_edges_tex := env.texture_name (textures_generated s.calls)
          Smaa_edge_detection_fb := env.framebuffer_name (framebuffers_generated s.calls)
          GL_state := { s.GL_state with
            current_framebuffer := env.framebuffer_name (framebuffers_generated s.calls) } } := by
  unfold setup_smaa_edges_resources
  simp [smaa_target_storage_eq, smaa_target_calls, PostState.call, PostState.call_seq,
    GL_state_BindFrameBuffer, smaa_target_storage_counts, GLCall.framebuffers_generated]

theorem setup_smaa_blending_weight_eq (env : Env F) (s : PostState F) :
    setup_smaa_blending_weight_resources env s
      = { s with
          calls := s.calls ++ smaa_target_calls env s.Post_texture_width s.Post_texture_height
            (env.texture_name (textures_generated s.calls))
            (env.framebuffer_name (framebuffers_generated s.calls))
            "SMAA Blending weight calculation texture"
            "SMAA Blending widght calculation framebuffer"
          Smaa_blend_tex := env.texture_name (textures_generated s.calls)
          Smaa_blending_weight_fb := env.framebuffer_name (framebuffers_generated s.calls)
          GL_state := { s.GL_state with
            current_framebuffer := env.framebuffer_name (framebuffers_generated s.calls) } } := by
  unfold setup_smaa_blending_weight_resources
  simp [smaa_target_storage_eq, smaa_target_calls, PostState.call, PostState.call_seq,
    GL_state_BindFrameBuffer, smaa_target_storage_counts, GLCall.framebuffers_generated]

theorem setup_smaa_neighborhood_blending_eq (env : Env F) (s : PostState F) :
    setup_smaa_neighborhood_blending_resources env s
      = { s with
          calls := s.calls ++ smaa_target_calls env s.Post_texture_width s.Post_texture_height
            (env.texture_name (textures_generated s.calls))
            (env.framebuffer_name (framebuffers_generated s.calls))
            "SMAA output texture" "SMAA neighborhood blending framebuffer"
          Smaa_output_tex := env.texture_name (textures_generated s.calls)
          Smaa_neighborhood_blending_fb :=
            env.framebuffer_name (framebuffers_generated s.calls)
          GL_state := { s.GL_state with
            current_framebuffer := env.framebuffer_name (framebuffers_generated s.calls) } } := by
  unfold setup_smaa_neighborhood_blending_resources
  simp [smaa_target_storage_eq, smaa_target_calls, PostState.call, PostState.call_seq,
    GL_state_BindFrameBuffer, smaa_target_storage_counts, GLCall.framebuffers_generated]

theorem load_smaa_texture_eq (env : Env F) (width height : Int) (rg8 : Bool) (name : String)
    (s : PostState F) :
    load_smaa_texture env width height rg8 name s
      = (env.texture_name (textures_generated s.calls),
         { s with
           calls := s.calls ++
             (load_smaa_texture_calls env s.Post_texture_width s.Post_texture_height width
               height rg8 name (env.texture_name (textures_generated s.calls))) }) := by
  unfold load_smaa_texture load_smaa_texture_calls
  cases env.GLAD_GL_ARB_texture_storage <;> simp [PostState.call, PostState.call_seq]

theorem setup_smaa_resources_eq (env : Env F) (s : PostState F) :
    setup_smaa_resources env s
      = { s with
          calls := s.calls ++ setup_smaa_calls env s.Post_texture_width s.Post_texture_height
            (textures_generated s.calls) (framebuffers_generated s.calls)
          Smaa_area_tex := env.texture_name (textures_generated s.calls)
          Smaa_search_tex := env.texture_name (textures_generated s.calls + 1)
          Smaa_edges_tex := env.texture_name (textures_generated s.calls + 2)
          Smaa_edge_detection_fb := env.framebuffer_name (framebuffers_generated s.calls)
          Smaa_blend_tex := env.texture_name (textures_generated s.calls + 3)
          Smaa_blending_weight_fb := env.framebuffer_name (framebuffers_generated s.calls + 1)
          Smaa_output_tex := env.texture_name (textures_generated s.calls + 4)
          Smaa_neighborhood_blending_fb :=
            env.framebuffer_name (framebuffers_generated s.calls + 2) } := by
  unfold setup_smaa_resources
  simp only [load_smaa_texture_eq, setup_smaa_edges_eq, setup_smaa_blending_weight_eq,
    setup_smaa_neighborhood_blending_eq, pop_eq, GL_state_PushFramebufferState,
    PostState.call]
  simp [setup_smaa_calls, opengl_state.pop, smaa_target_counts, load_smaa_texture_counts,
    GLCall.textures_generated, GLCall.framebuffers_generated, Nat.add_assoc]

theorem init_framebuffer_eq (env : Env F) (s : PostState F) (haa : s.Gr_aa_mode ≠ .None) :
    opengl_post_init_framebuffer env s
      = (!env.opengl_check_for_errors,
         { s with
           Post_texture_width := clamp_size env env.max_w
           Post_texture_height := clamp_size env env.max_h
           calls := s.calls ++
             init_framebuffer_calls env (textures_generated s.calls)
               (framebuffers_generated s.calls)
           Bloom_framebuffer := env.framebuffer_name (framebuffers_generated s.calls)
           Bloom_textures := (env.texture_name (textures_generated s.calls),
             env.texture_name (textures_generated s.calls + 1))
           Smaa_area_tex := env.texture_name (textures_generated s.calls + 2)
           Smaa_search_tex := env.texture_name (textures_generated s.calls + 3)
           Smaa_edges_tex := env.texture_name (textures_generated s.calls + 4)
           Smaa_edge_detection_fb := env.framebuffer_name (framebuffers_generated s.calls + 1)
           Smaa_blend_tex := env.texture_name (textures_generated s.calls + 5)
           Smaa_blending_weight_fb :=
             env.framebuffer_name (framebuffers_generated s.calls + 2)
           Smaa_output_tex := env.texture_name (textures_generated s.calls + 6)
           Smaa_neighborhood_blending_fb :=
             env.framebuffer_name (framebuffers_generated s.calls + 3)
           GL_state := { s.GL_state with current_framebuffer := 0 } }) := by
  unfold opengl_post_init_framebuffer init_framebuffer_calls clamp_size
  by_cases hw : env.max_w > env.GL_max_renderbuffer_size <;>
    by_cases hh : env.max_h > env.GL_max_renderbuffer_size <;>
    (simp only [hw, hh, if_true, if_false, setup_bloom_textures_eq]
     rw [if_pos haa]
     simp only [setup_smaa_resources_eq, GL_state_BindFrameBuffer, PostState.call]
     cases env.opengl_check_for_errors <;> simp [setup_bloom_counts, Nat.add_assoc])

theorem init_reaches_framebuffer (env : Env F) (tbl : post_processing_tbl F) (s : PostState F)
    (h1 : (opengl_post_init_table tbl { s with Post_initialized := false }).1 = true)
    (h2 : (opengl_post_init_table tbl
      { s with Post_initialized := false }).2.Gr_post_processing_enabled = true)
    (h3 : env.Scene_texture_initialized = true) (h4 : env.Cmdline_no_fbo = false)
    (h5 : (opengl_post_init_shaders env
      (opengl_post_init_table tbl { s with Post_initialized := false }).2).1 = true) :
    opengl_post_process_init env tbl s
      = if (opengl_post_init_framebuffer env (opengl_post_init_shaders env
            (opengl_post_init_table tbl { s with Post_initialized := false }).2).2).1 then
          { (opengl_post_init_framebuffer env (opengl_post_init_shaders env
              (opengl_post_init_table tbl { s with Post_initialized := false }).2).2).2 with
            Post_initialized := true }
        else
          { (opengl_post_init_framebuffer env (opengl_post_init_shaders env
              (opengl_post_init_table tbl
                { s with Post_initialized := false }).2).2).2.logmsg
              .unable_to_initialize_framebuffer with
            Gr_post_processing_enabled := false } := by
  unfold opengl_post_process_init
  simp only [h1, h2, h3, h4, h5, Bool.not_true, Bool.false_eq_true, if_false]
  split <;> simp_all

theorem example_fresh_state_table :
    opengl_post_init_table example_empty_tbl
        { example_fresh_state with Post_initialized := false }
      = (true, example_table_state) := by
  rfl

theorem example_fresh_state_shaders :
    opengl_post_init_shaders example_env example_table_state = (true, example_shaders_state) ∧
    opengl_post_init_shaders example_failing_env example_table_state
      = (true, example_shaders_state) := by
  constructor <;> rfl

theorem example_init_state (env : Env XFloat)
    (h3 : env.Scene_texture_initialized = true) (h4 : env.Cmdline_no_fbo = false)
    (h5 : opengl_post_init_shaders env example_table_state = (true, example_shaders_state)) :
    opengl_post_process_init env example_empty_tbl example_fresh_state
      = if (opengl_post_init_framebuffer env example_shaders_state).1 then
          { (opengl_post_init_framebuffer env example_shaders_state).2 with
            Post_initialized := true }
        else
          { (opengl_post_init_framebuffer env example_shaders_state).2.logmsg
              .unable_to_initialize_framebuffer with
            Gr_post_processing_enabled := false } := by
  have h := init_reaches_framebuffer env example_empty_tbl example_fresh_state
  rw [example_fresh_state_table] at h
  have h' := h rfl rfl h3 h4 (by rw [h5])
  rw [h5] at h'
  exact h'

theorem init_framebuffer_released (env : Env F) (tg fg : Nat) :
    (init_framebuffer_calls env tg fg).filterMap GLCall.released = [] := by
  unfold init_framebuffer_calls
  rw [released_append, released_append, (setup_bloom_counts _ _ _ _).2.2,
    (setup_smaa_counts env _ _ _ _).2.2]
  rfl

theorem example_framebuffer_state (env : Env XFloat) :
    opengl_post_init_framebuffer env example_shaders_state
      = (!env.opengl_check_for_errors,
         { example_shaders_state with
           Post_texture_width := clamp_size env env.max_w
           Post_texture_height := clamp_size env env.max_h
           calls := example_shaders_state.calls ++ init_framebuffer_calls env 0 0
           Bloom_framebuffer := env.framebuffer_name 0
           Bloom_textures := (env.texture_name 0, env.texture_name 1)
           Smaa_area_tex := env.texture_name 2
           Smaa_search_tex := env.texture_name 3
           Smaa_edges_tex := env.texture_name 4
           Smaa_edge_detection_fb := env.framebuffer_name 1
           Smaa_blend_tex := env.texture_name 5
           Smaa_blending_weight_fb := env.framebuffer_name 2
           Smaa_output_tex := env.texture_name 6
           Smaa_neighborhood_blending_fb := env.framebuffer_name 3
           GL_state := { example_shaders_state.GL_state with current_framebuffer := 0 } }) := by
  have h := init_framebuffer_eq env example_shaders_state (by decide)
  have ht : textures_generated example_shaders_state.calls = 0 := by
    simp [example_shaders_state, GLCall.textures_generated]
  have hf : framebuffers_generated example_shaders_state.calls = 0 := by
    simp [example_shaders_state, GLCall.framebuffers_generated]
  rw [ht, hf] at h
  exact h

/-! ## C17 -/

/-- C17, failing input: from the fresh example state (no handle allocated, SMAA-High
selected) the table and shader stages succeed and `opengl_post_init_framebuffer` returns
false because the error check after the framebuffer setup fails; `opengl_post_process_init`
then disables post-processing and leaves the pipeline uninitialized, but the bloom
framebuffer, both bloom textures and the eight SMAA handles keep the names the driver
handed out, nothing was released, and `opengl_post_process_shutdown` then changes
nothing. -/
theorem init_framebuffer_failure_keeps_handles :
    example_fresh_state.owned_handles = [0, 0, 0, 0, 0, 0, 0, 0, 0, 0, 0, 0, 0] ∧
    opengl_post_init_shaders example_failing_env
        (opengl_post_init_table example_empty_tbl
          { example_fresh_state with Post_initialized := false }).2
      = (true, example_shaders_state) ∧
    (opengl_post_init_framebuffer example_failing_env example_shaders_state).1 = false ∧
    (opengl_post_process_init example_failing_env example_empty_tbl
      example_fresh_state).Gr_post_processing_enabled = false ∧
    (opengl_post_process_init example_failing_env example_empty_tbl
      example_fresh_state).Post_initialized = false ∧
    (opengl_post_process_init example_failing_env example_empty_tbl
      example_fresh_state).owned_handles
      = [0, 0, 200, 100, 101, 104, 105, 106, 201, 202, 203, 102, 103] ∧
    (opengl_post_process_init example_failing_env example_empty_tbl
      example_fresh_state).calls.filterMap GLCall.released = [] ∧
    opengl_post_process_shutdown
        (opengl_post_process_init example_failing_env example_empty_tbl example_fresh_state)
      = opengl_post_process_init example_failing_env example_empty_tbl example_fresh_state := by
  have hinit := example_init_state example_failing_env rfl rfl example_fresh_state_shaders.2
  have hfb := example_framebuffer_state example_failing_env
  rw [hfb] at hinit
  have hfalse : (!example_failing_env.opengl_check_for_errors) = false := rfl
  rw [hfalse] at hinit
  simp only [Bool.false_eq_true, if_false] at hinit
  rw [hinit, hfb]
  refine ⟨rfl, ?_, rfl, rfl, rfl, rfl, ?_, rfl⟩
  · rw [example_fresh_state_table]
    exact example_fresh_state_shaders.2
  · show (example_shaders_state.calls ++
      init_framebuffer_calls example_failing_env 0 0).filterMap GLCall.released = []
    rw [released_append, init_framebuffer_released]
    rfl

/-! ## C16 -/

theorem shutdown_not_initialized (s : PostState F) (h : s.Post_initialized = false) :
    opengl_post_process_shutdown s = s := by
  unfold opengl_post_process_shutdown
  rw [h]
  rfl

/-- C16, failing input: after a successful `opengl_post_process_init` from the fresh example
state with SMAA-High selected, `opengl_post_process_shutdown` releases the two bloom textures and
the bloom framebuffer and zeroes them, empties the registry and clears the frame-open and
initialized flags, but the eight SMAA handles keep their names and no call releases them;
on a pipeline that is not initialized the call changes nothing. -/
theorem shutdown_keeps_smaa_handles :
    (opengl_post_process_init example_env example_empty_tbl
      example_fresh_state).Post_initialized = true ∧
    (opengl_post_process_init example_env example_empty_tbl example_fresh_state).owned_handles
      = [0, 0, 200, 100, 101, 104, 105, 106, 201, 202, 203, 102, 103] ∧
    (opengl_post_process_shutdown (opengl_post_process_init example_env example_empty_tbl
      example_fresh_state)).owned_handles
      = [0, 0, 0, 0, 0, 104, 105, 106, 201, 202, 203, 102, 103] ∧
    (calls_added (opengl_post_process_init example_env example_empty_tbl example_fresh_state)
      (opengl_post_process_shutdown (opengl_post_process_init example_env example_empty_tbl
        example_fresh_state))).filterMap GLCall.released = [100, 101, 200] ∧
    (opengl_post_process_shutdown (opengl_post_process_init example_env example_empty_tbl
      example_fresh_state)).Post_effects = [] ∧
    (opengl_post_process_shutdown (opengl_post_process_init example_env example_empty_tbl
      example_fresh_state)).Post_in_frame = false ∧
    (opengl_post_process_shutdown (opengl_post_process_init example_env example_empty_tbl
      example_fresh_state)).Post_initialized = false ∧
    (∀ s : PostState XFloat, s.Post_initialized = false →
      opengl_post_process_shutdown s = s) := by
  have hinit := example_init_state example_env rfl rfl example_fresh_state_shaders.1
  have hfb := example_framebuffer_state example_env
  rw [hfb] at hinit
  have htrue : (!example_env.opengl_check_for_errors) = true := rfl
  rw [htrue] at hinit
  simp only [if_true] at hinit
  rw [hinit]
  refine ⟨rfl, rfl, ?_, ?_, ?_, ?_, ?_, shutdown_not_initialized⟩
  · rw [shutdown_eq _ rfl]
    rfl
  · rw [calls_added_append _ _ _ (by rw [shutdown_eq _ rfl])]
    rfl
  · rw [shutdown_eq _ rfl]
  · rw [shutdown_eq _ rfl]
  · rw [shutdown_eq _ rfl]

/-! ## C21 -/

theorem init_table_effects_active_index (items : List (tbl_item (effect_entry F))) :
    ∀ (warned : Bool) (s : PostState F),
      (init_table_effects items warned s).1.Post_active_shader_index
        = s.Post_active_shader_index := by
  induction items with
  | nil => intro warned s; rfl
  | cons it rest ih =>
    intro warned s
    cases it with
    | raise what => rfl
    | ok ent =>
      simp only [init_table_effects]
      have h0 : (mapUniformNameToType_log ent.uniform s).Post_active_shader_index
          = s.Post_active_shader_index := by
        unfold mapUniformNameToType_log
        split <;> rfl
      split
      · rw [ih]; exact h0
      · split
        · rw [ih]; exact h0
        · rw [ih]; exact h0

theorem init_table_ship_effects_active_index (items : List (tbl_item ship_effect)) :
    ∀ s : PostState F,
      (init_table_ship_effects items s).1.Post_active_shader_index
        = s.Post_active_shader_index := by
  induction items with
  | nil => intro s; rfl
  | cons it rest ih =>
    intro s
    cases it with
    | raise what => rfl
    | ok se => simp only [init_table_ship_effects]; rw [ih]

theorem init_table_light_shafts_active_index (sec : light_shafts_section F) (s : PostState F) :
    (init_table_light_shafts sec s).1.Post_active_shader_index
      = s.Post_active_shader_index := by
  obtain ⟨a, b, c, d, e, f⟩ := sec
  cases a <;> cases b <;> cases c <;> cases d <;> cases e <;> cases f <;> rfl

theorem init_table_active_index (tbl : post_processing_tbl F) (s : PostState F) :
    (opengl_post_init_table tbl s).2.Post_active_shader_index
      = s.Post_active_shader_index := by
  have hem : ∀ u : PostState F, (init_table_end_marker tbl.end_marker u).1 = u := by
    intro u
    unfold init_table_end_marker
    cases tbl.end_marker <;> rfl
  have hls : ∀ u : PostState F,
      (init_table_light_shafts_section tbl.light_shafts u).1.Post_active_shader_index
        = u.Post_active_shader_index := by
    intro u
    unfold init_table_light_shafts_section
    cases tbl.light_shafts with
    | none => rfl
    | some sec => exact init_table_light_shafts_active_index sec u
  have hship : ∀ u : PostState F,
      (init_table_ship_effects_section tbl.ship_effects u).1.Post_active_shader_index
        = u.Post_active_shader_index := by
    intro u
    unfold init_table_ship_effects_section
    cases tbl.ship_effects with
    | none => rfl
    | some items => exact init_table_ship_effects_active_index items _
  have heff : (init_table_effects_section tbl.effects s).1.Post_active_shader_index
      = s.Post_active_shader_index := by
    unfold init_table_effects_section
    cases tbl.effects with
    | none => rfl
    | some items => exact init_table_effects_active_index items false s
  have h1 : (init_table_try tbl s).1.Post_active_shader_index
      = s.Post_active_shader_index := by
    unfold init_table_try
    rw [tbl_then_frame (fun u => u.Post_active_shader_index) _ _ (fun u => by rw [hem u]),
      tbl_then_frame (fun u => u.Post_active_shader_index) _ _ hls,
      tbl_then_frame (fun u => u.Post_active_shader_index) _ _ hship, heff]
  unfold opengl_post_init_table
  cases hx : (init_table_try tbl s).2 <;> simp [hx, h1, PostState.logmsg]

theorem maybe_create_active_index (env : Env F) (t : shader_type) (flags : Nat)
    (s : PostState F) :
    (gr_opengl_maybe_create_shader env t flags s).2.Post_active_shader_index
      = s.Post_active_shader_index := rfl

theorem init_shaders_bloom_active_index (env : Env F) (s : PostState F) :
    (init_shaders_bloom env s).2.Post_active_shader_index = s.Post_active_shader_index := by
  unfold init_shaders_bloom
  simp only []
  split
  · simp only [maybe_create_active_index]
  · split
    · simp only [maybe_create_active_index]
    · split <;> simp only [maybe_create_active_index]

theorem init_shaders_active_index (env : Env F) (s : PostState F) :
    (opengl_post_init_shaders env s).2.Post_active_shader_index
      = s.Post_active_shader_index := by
  have hb := init_shaders_bloom_active_index env
    (gr_opengl_maybe_create_shader env .SDR_TYPE_POST_PROCESS_MAIN
      (always_on_flags 0 0 s.Post_effects) s).2
  rw [maybe_create_active_index] at hb
  unfold opengl_post_init_shaders
  simp only []
  split
  · simp only [maybe_create_active_index]
  · generalize init_shaders_bloom env (gr_opengl_maybe_create_shader env
      .SDR_TYPE_POST_PROCESS_MAIN (always_on_flags 0 0 s.Post_effects) s).2 = r at hb ⊢
    split <;> split <;> split <;> simp only [maybe_create_active_index, hb]

theorem init_framebuffer_eq_none (env : Env F) (s : PostState F) (haa : s.Gr_aa_mode = .None) :
    opengl_post_init_framebuffer env s
      = (!env.opengl_check_for_errors,
         { s with
           Post_texture_width := clamp_size env env.max_w
           Post_texture_height := clamp_size env env.max_h
           calls := s.calls ++ init_framebuffer_calls_none env (textures_generated s.calls)
           Bloom_framebuffer := env.framebuffer_name (framebuffers_generated s.calls)
           Bloom_textures := (env.texture_name (textures_generated s.calls),
             env.texture_name (textures_generated s.calls + 1))
           GL_state := { s.GL_state with current_framebuffer := 0 } }) := by
  have hn : ¬ (s.Gr_aa_mode ≠ .None) := fun h => h haa
  unfold opengl_post_init_framebuffer init_framebuffer_calls_none clamp_size
  by_cases hw : env.max_w > env.GL_max_renderbuffer_size <;>
    by_cases hh : env.max_h > env.GL_max_renderbuffer_size <;>
    (simp only [hw, hh, if_true, if_false, setup_bloom_textures_eq]
     rw [if_neg hn]
     simp only [GL_state_BindFrameBuffer, PostState.call]
     cases env.opengl_check_for_errors <;> simp)

theorem init_framebuffer_active_index (env : Env F) (s : PostState F) :
    (opengl_post_init_framebuffer env s).2.Post_active_shader_index
      = s.Post_active_shader_index := by
  by_cases haa : s.Gr_aa_mode = .None
  · rw [init_framebuffer_eq_none env s haa]
  · rw [init_framebuffer_eq env s haa]

theorem init_active_index (env : Env F) (tbl : post_processing_tbl F) (s : PostState F) :
    (opengl_post_process_init env tbl s).Post_active_shader_index
      = s.Post_active_shader_index := by
  have h1 := init_table_active_index tbl { s with Post_initialized := false }
  have h2 := init_shaders_active_index env
    (opengl_post_init_table tbl { s with Post_initialized := false }).2
  have h3 := init_framebuffer_active_index env (opengl_post_init_shaders env
    (opengl_post_init_table tbl { s with Post_initialized := false }).2).2
  rw [h2, h1] at h3
  rw [h1] at h2
  have h1' : (opengl_post_init_table tbl
      { s with Post_initialized := false }).2.Post_active_shader_index
      = s.Post_active_shader_index := h1
  have h2' : (opengl_post_init_shaders env (opengl_post_init_table tbl
      { s with Post_initialized := false }).2).2.Post_active_shader_index
      = s.Post_active_shader_index := h2
  have h3' : (opengl_post_init_framebuffer env (opengl_post_init_shaders env
      (opengl_post_init_table tbl
        { s with Post_initialized := false }).2).2).2.Post_active_shader_index
      = s.Post_active_shader_index := h3
  unfold opengl_post_process_init
  simp only []
  split
  · exact h1'
  · split
    · exact h1'
    · split
      · exact h1'
      · split
        · exact h1'
        · split
          · exact h2'
          · split
            · exact h3'
            · exact h3'


theorem end_added_pinned (env : Env F) (s : PostState F)
    (h : ¬ s.Post_active_shader_index < 0) :
    calls_added s (gr_opengl_post_process_end env s)
      = end_passes_calls env s ++
          final_composite_calls env s.Post_active_shader_index s.Post_effects := by
  rw [calls_added_append s _ (post_process_end_calls env s) (by rw [end_eq])]
  unfold post_process_end_calls post_sdr_handle
  rw [if_neg h, if_neg h, List.append_nil]

theorem end_added_unpinned (env : Env F) (s : PostState F)
    (h : s.Post_active_shader_index < 0) :
    calls_added s (gr_opengl_post_process_end env s)
      = end_passes_calls env s ++
          [GLCall.maybe_create_shader .SDR_TYPE_POST_PROCESS_MAIN
            (always_on_flags 0 0 s.Post_effects)] ++
          final_composite_calls env
            (env.maybe_create_shader .SDR_TYPE_POST_PROCESS_MAIN
              (always_on_flags 0 0 s.Post_effects)) s.Post_effects := by
  rw [calls_added_append s _ (post_process_end_calls env s) (by rw [end_eq])]
  unfold post_process_end_calls post_sdr_handle
  rw [if_pos h, if_pos h]

theorem shutdown_active_index (s : PostState F) (h : s.Post_initialized = true) :
    (opengl_post_process_shutdown s).Post_active_shader_index = 0 := by
  rw [shutdown_eq s h]

theorem example_first_init_initialized : example_first_init.Post_initialized = true := rfl

theorem example_second_init_initialized : example_second_init.Post_initialized = true := rfl

theorem example_first_init_index : example_first_init.Post_active_shader_index = -1 := rfl

theorem example_second_init_index : example_second_init.Post_active_shader_index = 0 := rfl

theorem example_first_init_flags :
    always_on_flags 0 0 example_first_init.Post_effects = 1 := rfl

theorem example_first_init_effects :
    example_first_init.Post_effects = [effect_of_entry example_always_on_entry] := rfl

theorem example_second_init_effects :
    example_second_init.Post_effects = [effect_of_entry example_always_on_entry] := rfl

/-- C21, failing input: `opengl_post_process_shutdown` on an initialized pipeline sets
`Post_active_shader_index` to 0 and `opengl_post_process_init` never writes it, so after a
shutdown and a new initialisation the index is 0, not negative, and
`gr_opengl_post_process_end` makes the handle 0 current without asking for the always-on
variant.  With the one-effect table: after the first initialisation the index is -1 and the
first `gr_opengl_post_process_end` requests the variant of the always-on mask 1 and uses its
handle 16; after shutdown and a second successful initialisation the registry is the same,
the index is 0, and the first `gr_opengl_post_process_end` requests no variant and uses the
handle 0, whose flags are 0. -/
theorem shutdown_then_init_pins_handle_zero :
    (∀ (env : Env F) (tbl : post_processing_tbl F) (s : PostState F),
      s.Post_initialized = true →
      (opengl_post_process_init env tbl
        (opengl_post_process_shutdown s)).Post_active_shader_index = 0) ∧
    (∀ (env : Env F) (s : PostState F), s.Post_active_shader_index = 0 →
      calls_added s (gr_opengl_post_process_end env s)
        = end_passes_calls env s ++ final_composite_calls env 0 s.Post_effects) ∧
    example_first_init.Post_initialized = true ∧
    example_first_init.Post_active_shader_index = -1 ∧
    example_first_init.Post_effects = [effect_of_entry example_always_on_entry] ∧
    always_on_flags 0 0 example_first_init.Post_effects = 1 ∧
    example_env.maybe_create_shader .SDR_TYPE_POST_PROCESS_MAIN 1 = 16 ∧
    calls_added example_first_init (gr_opengl_post_process_end example_env example_first_init)
      = end_passes_calls example_env example_first_init ++
          [GLCall.maybe_create_shader .SDR_TYPE_POST_PROCESS_MAIN 1] ++
          final_composite_calls example_env 16 example_first_init.Post_effects ∧
    example_second_init.Post_initialized = true ∧
    example_second_init.Post_effects = example_first_init.Post_effects ∧
    example_second_init.Post_active_shader_index = 0 ∧
    calls_added example_second_init
        (gr_opengl_post_process_end example_env example_second_init)
      = end_passes_calls example_env example_second_init ++
          final_composite_calls example_env 0 example_second_init.Post_effects ∧
    example_env.shader_flags 16 = 1 ∧ example_env.shader_flags 0 = 0 := by
  have hfirst := example_first_init_index
  have hsecond := example_second_init_index
  have hflags := example_first_init_flags
  refine ⟨?_, ?_, example_first_init_initialized, hfirst, example_first_init_effects, hflags,
    rfl, ?_,
    example_second_init_initialized,
    example_second_init_effects.trans example_first_init_effects.symm, hsecond, ?_, rfl, rfl⟩
  · intro env tbl s h
    rw [init_active_index, shutdown_active_index s h]
  · intro env s h
    have hp := end_added_pinned env s (by rw [h]; decide)
    rw [h] at hp
    exact hp
  · have hu := end_added_unpinned example_env example_first_init (by rw [hfirst]; decide)
    rw [hflags] at hu
    exact hu
  · have hp := end_added_pinned example_env example_second_init (by rw [hsecond]; decide)
    rw [hsecond] at hp
    exact hp

end PostProcessing
